import Mathlib

/-!
# Voice assistant controller

A shallow embedding of `esphome/components/voice_assistant/voice_assistant.cpp`.

The controller object becomes the record `VoiceAssistant`; every member function becomes a
function from controller records to controller records.  The answers of the collaborators
(API server, microphone, VAD, socket, speaker, media player) during one call are supplied by
an `Env` record; everything the controller does to a collaborator is appended to the `trace`
field of the record, oldest entry first.  Named timeouts of the scheduler are kept in the
`timeouts` field and fire through `fire_timeout`.

Bytes are natural numbers.  `size_t` is the 32-bit unsigned type of the target.
-/

namespace esphome
namespace voice_assistant

/-! ## Constants (lines 18-23) -/

def SAMPLE_RATE_HZ : Nat := 16000
/-- One microphone read: 32ms * 16kHz / 1000ms samples. -/
def INPUT_BUFFER_SIZE : Nat := 32 * SAMPLE_RATE_HZ / 1000
/-- One second of samples. -/
def BUFFER_SIZE : Nat := 1000 * SAMPLE_RATE_HZ / 1000
/-- The value of `sizeof(int16_t)`. -/
def sizeof_int16_t : Nat := 2
def SEND_BUFFER_SIZE : Nat := INPUT_BUFFER_SIZE * sizeof_int16_t
def RECEIVE_SIZE : Nat := 1024
def SPEAKER_BUFFER_SIZE : Nat := 16 * RECEIVE_SIZE

/-! ## `size_t` arithmetic and raw memory -/

/-- Number of values of `size_t` on the 32-bit target. -/
def SIZE_T_MOD : Nat := 2 ^ 32

/-- The `+=` of two `size_t` values. -/
def size_t_add (a b : Nat) : Nat := (a + b) % SIZE_T_MOD

/-- The `-=` / `-` of two `size_t` values (wraps below zero). -/
def size_t_sub (a b : Nat) : Nat := (a + SIZE_T_MOD - b % SIZE_T_MOD) % SIZE_T_MOD

/-- The call `memset(buf, 0, n)`: the first `n` bytes become zero. -/
def memset_zero (buf : List Nat) (n : Nat) : List Nat :=
  List.replicate n 0 ++ buf.drop n

/-- A callee storing `data` at `buf + off`. -/
def write_at (buf : List Nat) (off : Nat) (data : List Nat) : List Nat :=
  buf.take off ++ data ++ buf.drop (off + data.length)

/-- The call `memmove(buf, buf + src, n)`. -/
def memmove_front (buf : List Nat) (src n : Nat) : List Nat :=
  (buf.drop src).take n ++ buf.drop n

/-! ## Types used by the controller -/

/-- The enumeration `State` of the controller. -/
inductive State where
  | IDLE
  | START_MICROPHONE
  | STARTING_MICROPHONE
  | WAIT_FOR_VAD
  | WAITING_FOR_VAD
  | START_PIPELINE
  | STARTING_PIPELINE
  | STREAMING_MICROPHONE
  | STOP_MICROPHONE
  | STOPPING_MICROPHONE
  | AWAITING_RESPONSE
  | STREAMING_RESPONSE
  | RESPONSE_FINISHED
  deriving DecidableEq, Repr

/-- The destination address `struct sockaddr_storage`: its family, the port field shared by
`sockaddr_in` and `sockaddr_in6`, and the remaining bytes. -/
structure sockaddr_storage where
  ss_family : Nat
  port : Nat
  rest : List Nat
  deriving DecidableEq, Repr

/-- The result of `memset(&a, 0, sizeof(a))`: every byte of the address becomes zero. -/
def sockaddr_storage.zeroed (a : sockaddr_storage) : sockaddr_storage :=
  { ss_family := 0, port := 0, rest := List.replicate a.rest.length 0 }

/-- Address family constant `AF_INET` of the network stack. -/
def AF_INET : Nat := 2
/-- Address family constant `AF_INET6` of the network stack. -/
def AF_INET6 : Nat := 10

/-- Byte swap of a 16-bit value (the target is little-endian). -/
def htons (p : Nat) : Nat := (p % 256) * 256 + (p / 256) % 256

/-- The record `api::VoiceAssistantAudioSettings`; the multiplier is carried as its bit pattern. -/
structure VoiceAssistantAudioSettings where
  noise_suppression_level : Nat
  auto_gain : Nat
  volume_multiplier : Nat
  deriving DecidableEq, Repr

/-- Modelled from the spec: the request flag `api::enums::VOICE_ASSISTANT_REQUEST_USE_VAD`,
declared in the API component; the "use voice-activity-based end-of-speech detection" bit. -/
def VOICE_ASSISTANT_REQUEST_USE_VAD : Nat := 1

/-- Modelled from the spec: the request flag `api::enums::VOICE_ASSISTANT_REQUEST_USE_WAKE_WORD`,
declared in the API component; the "use wake word" bit. -/
def VOICE_ASSISTANT_REQUEST_USE_WAKE_WORD : Nat := 2

/-- The event types `api::enums::VoiceAssistantEvent` that `on_event` distinguishes; every other
code is `OTHER` (the `default` branch). -/
inductive VoiceAssistantEvent where
  | VOICE_ASSISTANT_ERROR
  | VOICE_ASSISTANT_RUN_START
  | VOICE_ASSISTANT_RUN_END
  | VOICE_ASSISTANT_STT_START
  | VOICE_ASSISTANT_STT_END
  | VOICE_ASSISTANT_INTENT_END
  | VOICE_ASSISTANT_TTS_START
  | VOICE_ASSISTANT_TTS_END
  | VOICE_ASSISTANT_WAKE_WORD_START
  | VOICE_ASSISTANT_WAKE_WORD_END
  | VOICE_ASSISTANT_TTS_STREAM_START
  | VOICE_ASSISTANT_TTS_STREAM_END
  | OTHER (code : Nat)
  deriving DecidableEq, Repr

/-- One named string argument of an event. -/
structure VoiceAssistantEventData where
  name : String
  value : String
  deriving DecidableEq, Repr

/-- The message `api::VoiceAssistantEventResponse`. -/
structure VoiceAssistantEventResponse where
  event_type : VoiceAssistantEvent
  data : List VoiceAssistantEventData
  deriving DecidableEq, Repr

/-- The names used with `set_timeout` / `cancel_timeout`:
"playing", "speaker-timeout" and "reset-conversation_id". -/
inductive Timeout where
  | playing
  | speaker_timeout
  | reset_conversation_id
  deriving DecidableEq, Repr

/-- What the controller does to its collaborators. -/
inductive Effect where
  /-- The call `api::global_api_server->stop_voice_assistant()`. -/
  | stop_voice_assistant
  /-- The call `api::global_api_server->start_voice_assistant(conversation_id, flags, settings)`. -/
  | start_voice_assistant (conversation_id : String) (flags : Nat)
      (audio_settings : VoiceAssistantAudioSettings)
  /-- The call `socket_->sendto(data, len, 0, dest, ..)`. -/
  | sendto (data : List Nat) (dest : sockaddr_storage)
  | mic_start
  | mic_stop
  | speaker_start
  | speaker_stop
  /-- The call `speaker_->play(buffer, size)` with the bytes offered. -/
  | speaker_play (data : List Nat)
  | high_freq_start
  | high_freq_stop
  /-- The call `media_player_->make_call().set_media_url(url).perform()`. -/
  | media_player_play (url : String)
  | start_trigger
  | wake_word_detected_trigger
  | listening_trigger
  | stt_end_trigger (text : String)
  | tts_start_trigger (text : String)
  | tts_end_trigger (url : String)
  | end_trigger
  | error_trigger (code : String) (message : String)
  deriving DecidableEq, Repr

/-- The answers of the collaborators during one call into the controller. -/
structure Env where
  /-- The answer of `api::global_api_server->is_connected()`. -/
  is_connected : Bool
  /-- The answer of `mic_->is_running()`. -/
  mic_is_running : Bool
  /-- The answer of `mic_->is_stopped()`. -/
  mic_is_stopped : Bool
  /-- The bytes delivered by `mic_->read(..)`; its return value is their number. -/
  mic_read : List Nat
  /-- Whether `vad_process(..)` answers `VAD_SPEECH`. -/
  vad_speech : Bool
  /-- Whether `dsps_fft2r_init_sc16` answers `ESP_OK` (build without the ring buffer). -/
  fft_init_ok : Bool
  /-- Whether the computed `rms` is at least 2000 (build without the ring buffer). -/
  rms_ge_2000 : Bool
  /-- The answer of `api::global_api_server->start_voice_assistant(..)`. -/
  start_voice_assistant : Bool
  /-- The bytes delivered by `socket_->read(..)`; `none` is a negative return value. -/
  socket_read : Option (List Nat)
  /-- The return value `written` of `speaker_->play(..)`. -/
  speaker_play : Nat
  /-- The answer of `speaker_->is_running()`. -/
  speaker_is_running : Bool
  /-- Whether `media_player_->state` is `MEDIA_PLAYER_STATE_PLAYING`. -/
  media_player_playing : Bool
  deriving DecidableEq, Repr

/-! ## Ring buffer -/

/-- Modelled from the spec: the ring buffer handle of the audio framework, whose functions
`rb_create`, `rb_bytes_available`, `rb_bytes_filled`, `rb_read`, `rb_write` and `rb_reset` are
not in the repository.  A fixed-capacity byte queue: `size` is the capacity, `data` the stored
bytes, oldest first. -/
structure ringbuf where
  size : Nat
  data : List Nat
  deriving DecidableEq, Repr

/-- Modelled from the spec: `rb_create(block_size, n_blocks)`, an empty queue of that capacity. -/
def rb_create (block_size n_blocks : Nat) : ringbuf :=
  { size := block_size * n_blocks, data := [] }

/-- Modelled from the spec: `rb_bytes_available`, the free space. -/
def rb_bytes_available (rb : ringbuf) : Nat := rb.size - rb.data.length

/-- Modelled from the spec: `rb_bytes_filled`, the occupancy. -/
def rb_bytes_filled (rb : ringbuf) : Nat := rb.data.length

/-- Modelled from the spec: `rb_read(rb, buf, len, 0)`, which takes the `len` oldest bytes (or
all of them when fewer are stored) out of the queue; the bytes taken are returned. -/
def rb_read (rb : ringbuf) (len : Nat) : ringbuf × List Nat :=
  ({ rb with data := rb.data.drop len }, rb.data.take len)

/-- Modelled from the spec: `rb_write(rb, buf, len, 0)`, which appends the bytes that fit. -/
def rb_write (rb : ringbuf) (buf : List Nat) : ringbuf :=
  { rb with data := rb.data ++ buf.take (rb_bytes_available rb) }

/-- Modelled from the spec: `rb_reset`, which empties the queue. -/
def rb_reset (rb : ringbuf) : ringbuf := { rb with data := [] }

/-! ## The controller record -/

/-- The object `VoiceAssistant`: build options, configuration, and mutable members. -/
structure VoiceAssistant where
  /-- Build option `USE_ESP_ADF`. -/
  USE_ESP_ADF : Bool
  /-- Build option `USE_SPEAKER`. -/
  USE_SPEAKER : Bool
  /-- Build option `USE_MEDIA_PLAYER`. -/
  USE_MEDIA_PLAYER : Bool
  /-- Build option `LWIP_IPV6`. -/
  LWIP_IPV6 : Bool
  /-- Whether `speaker_ != nullptr`. -/
  speaker_ : Bool
  /-- Whether `media_player_ != nullptr`. -/
  media_player_ : Bool
  use_wake_word_ : Bool
  local_output_ : Bool
  vad_threshold_ : Nat
  noise_suppression_level_ : Nat
  auto_gain_ : Nat
  volume_multiplier_ : Nat
  state_ : State
  desired_state_ : State
  continuous_ : Bool
  silence_detection_ : Bool
  wait_for_stream_end_ : Bool
  conversation_id_ : String
  /-- The VAD counter; it is incremented only below the threshold and decremented only above
  zero, so it never leaves the range of its integer type. -/
  vad_counter_ : Nat
  input_buffer_ : List Nat
  send_buffer_ : List Nat
  ring_buffer_ : ringbuf
  speaker_buffer_ : List Nat
  speaker_buffer_index_ : Nat
  speaker_buffer_size_ : Nat
  dest_addr_ : sockaddr_storage
  /-- The armed named timeouts of the scheduler, each with its delay in milliseconds. -/
  timeouts : List (Timeout × Nat)
  /-- Everything done to the collaborators so far, oldest first. -/
  trace : List Effect
  deriving DecidableEq, Repr

/-- Modelled from the spec: `set_timeout(name, ms, callback)` of the Timer Manager, which is not
in the source file.  Timeouts are named, single-shot and cancellable; arming a name that is
already armed leaves one armed timeout of that name, the new one.  The callback is determined by
the name (see `timeout_callback`). -/
def VoiceAssistant.set_timeout (va : VoiceAssistant) (name : Timeout) (ms : Nat) :
    VoiceAssistant :=
  { va with timeouts := (name, ms) :: va.timeouts.filter (fun t => decide (t.1 ≠ name)) }

/-- Modelled from the spec: `cancel_timeout(name)` of the Timer Manager, which is not in the
source file.  Cancelling a name with no armed timeout has no effect. -/
def VoiceAssistant.cancel_timeout (va : VoiceAssistant) (name : Timeout) : VoiceAssistant :=
  { va with timeouts := va.timeouts.filter (fun t => decide (t.1 ≠ name)) }

/-- Appending one entry to the trace. -/
def VoiceAssistant.emit (va : VoiceAssistant) (e : Effect) : VoiceAssistant :=
  { va with trace := va.trace ++ [e] }

/-- The member `set_state_(State state)` (lines 434-439). -/
def VoiceAssistant.set_state_ (va : VoiceAssistant) (state : State) : VoiceAssistant :=
  { va with state_ := state }

/-- The member `set_state_(State state, State desired_state)` (lines 441-445). -/
def VoiceAssistant.set_state_desired_ (va : VoiceAssistant) (state desired_state : State) :
    VoiceAssistant :=
  { (va.set_state_ state) with desired_state_ := desired_state }

/-- The member `signal_stop_` (lines 537-541). -/
def VoiceAssistant.signal_stop_ (va : VoiceAssistant) : VoiceAssistant :=
  { (va.emit Effect.stop_voice_assistant) with dest_addr_ := va.dest_addr_.zeroed }

/-- The member `read_microphone_` (lines 107-127); the second component is the return value. -/
def VoiceAssistant.read_microphone_ (va : VoiceAssistant) (env : Env) : VoiceAssistant × Nat :=
  if env.mic_is_running then
    let bytes_read := env.mic_read.length
    let va1 := { va with input_buffer_ := write_at va.input_buffer_ 0 env.mic_read }
    if bytes_read = 0 then
      ({ va1 with input_buffer_ :=
          memset_zero va1.input_buffer_ (INPUT_BUFFER_SIZE * sizeof_int16_t) }, 0)
    else if va.USE_ESP_ADF then
      let available := rb_bytes_available va1.ring_buffer_
      let rb1 :=
        if available < bytes_read then (rb_read va1.ring_buffer_ (bytes_read - available)).1
        else va1.ring_buffer_
      ({ va1 with ring_buffer_ := rb_write rb1 (va1.input_buffer_.take bytes_read) }, bytes_read)
    else
      (va1, bytes_read)
  else
    (va, 0)

/-! ## `loop` (lines 129-399), one definition per `case` -/

/-- The transition shared by the `IDLE` case of `loop` and by `request_start`
(lines 144-156 and 492-504): both arms of the `USE_ESP_ADF` conditional. -/
def VoiceAssistant.start_ (va : VoiceAssistant) : VoiceAssistant :=
  if va.USE_ESP_ADF then
    if va.use_wake_word_ then
      ({ va with ring_buffer_ := rb_reset va.ring_buffer_ }).set_state_desired_
        State.START_MICROPHONE State.WAIT_FOR_VAD
    else
      va.set_state_desired_ State.START_PIPELINE State.START_MICROPHONE
  else
    if va.use_wake_word_ then
      va.set_state_desired_ State.START_MICROPHONE State.WAIT_FOR_VAD
    else
      va.set_state_desired_ State.START_PIPELINE State.START_MICROPHONE

/-- The watchdog at the head of `loop`: its condition (lines 130-131). -/
def VoiceAssistant.watchdog_cond (va : VoiceAssistant) (env : Env) : Prop :=
  va.state_ ≠ State.IDLE ∧ va.state_ ≠ State.STOP_MICROPHONE ∧
    va.state_ ≠ State.STOPPING_MICROPHONE ∧ env.is_connected = false

instance (va : VoiceAssistant) (env : Env) : Decidable (va.watchdog_cond env) := by
  unfold VoiceAssistant.watchdog_cond; infer_instance

/-- The watchdog at the head of `loop`: its body (lines 132-139). -/
def VoiceAssistant.watchdog (va : VoiceAssistant) (env : Env) : VoiceAssistant :=
  let va1 :=
    if env.mic_is_running = true ∨ va.state_ = State.STARTING_MICROPHONE then
      va.set_state_desired_ State.STOP_MICROPHONE State.IDLE
    else
      va.set_state_desired_ State.IDLE State.IDLE
  ({ va1 with continuous_ := false }).signal_stop_

/-- Case `IDLE` (lines 142-161). -/
def VoiceAssistant.loop_IDLE (va : VoiceAssistant) : VoiceAssistant :=
  if va.continuous_ = true ∧ va.desired_state_ = State.IDLE then
    va.start_
  else
    va.emit Effect.high_freq_stop

/-- Case `START_MICROPHONE` (lines 162-170). -/
def VoiceAssistant.loop_START_MICROPHONE (va : VoiceAssistant) : VoiceAssistant :=
  let va1 := { va with send_buffer_ := memset_zero va.send_buffer_ SEND_BUFFER_SIZE }
  let va2 :=
    { va1 with input_buffer_ := memset_zero va1.input_buffer_ (INPUT_BUFFER_SIZE * sizeof_int16_t) }
  ((va2.emit Effect.mic_start).emit Effect.high_freq_start).set_state_ State.STARTING_MICROPHONE

/-- Case `STARTING_MICROPHONE` (lines 171-176). -/
def VoiceAssistant.loop_STARTING_MICROPHONE (va : VoiceAssistant) (env : Env) : VoiceAssistant :=
  if env.mic_is_running then va.set_state_ va.desired_state_ else va

/-- Case `WAIT_FOR_VAD` (lines 178-183 and 208-213, the same in both builds). -/
def VoiceAssistant.loop_WAIT_FOR_VAD (va : VoiceAssistant) (env : Env) : VoiceAssistant :=
  (va.read_microphone_ env).1.set_state_ State.WAITING_FOR_VAD

/-- Case `WAITING_FOR_VAD` (lines 184-206 with `USE_ESP_ADF`, lines 214-274 without). -/
def VoiceAssistant.loop_WAITING_FOR_VAD (va : VoiceAssistant) (env : Env) : VoiceAssistant :=
  let r := va.read_microphone_ env
  let va1 := r.1
  let bytes_read := r.2
  if va.USE_ESP_ADF then
    if bytes_read > 0 then
      if env.vad_speech then
        if va1.vad_counter_ < va1.vad_threshold_ then
          { va1 with vad_counter_ := va1.vad_counter_ + 1 }
        else
          { (va1.set_state_desired_ State.START_PIPELINE State.STREAMING_MICROPHONE) with
            vad_counter_ := 0 }
      else
        if va1.vad_counter_ > 0 then
          { va1 with vad_counter_ := va1.vad_counter_ - 1 }
        else va1
    else va1
  else
    if bytes_read > 0 then
      if env.fft_init_ok then
        if env.rms_ge_2000 then
          va1.set_state_desired_ State.START_PIPELINE State.STREAMING_MICROPHONE
        else va1
      else va1
    else va1

/-- The flag word built at lines 279-283. -/
def VoiceAssistant.request_flags (va : VoiceAssistant) : Nat :=
  let flags := 0
  let flags := if va.use_wake_word_ then flags ||| VOICE_ASSISTANT_REQUEST_USE_WAKE_WORD else flags
  let flags := if va.silence_detection_ then flags ||| VOICE_ASSISTANT_REQUEST_USE_VAD else flags
  flags

/-- The audio settings built at lines 284-287. -/
def VoiceAssistant.audio_settings (va : VoiceAssistant) : VoiceAssistantAudioSettings :=
  { noise_suppression_level := va.noise_suppression_level_
    auto_gain := va.auto_gain_
    volume_multiplier := va.volume_multiplier_ }

/-- Case `START_PIPELINE` (lines 276-298). -/
def VoiceAssistant.loop_START_PIPELINE (va : VoiceAssistant) (env : Env) : VoiceAssistant :=
  let va1 := (va.read_microphone_ env).1
  let va2 := va1.emit
    (Effect.start_voice_assistant va1.conversation_id_ va1.request_flags va1.audio_settings)
  if env.start_voice_assistant = false then
    let va3 := va2.emit (Effect.error_trigger "not-connected" "Could not request start.")
    ({ va3 with continuous_ := false }).set_state_desired_ State.IDLE State.IDLE
  else
    (va2.set_state_ State.STARTING_PIPELINE).set_timeout Timeout.reset_conversation_id
      (5 * 60 * 1000)

/-- Case `STARTING_PIPELINE` (lines 299-302). -/
def VoiceAssistant.loop_STARTING_PIPELINE (va : VoiceAssistant) (env : Env) : VoiceAssistant :=
  (va.read_microphone_ env).1

/-- Case `STREAMING_MICROPHONE` (lines 303-318). -/
def VoiceAssistant.loop_STREAMING_MICROPHONE (va : VoiceAssistant) (env : Env) : VoiceAssistant :=
  let r := va.read_microphone_ env
  let va1 := r.1
  let bytes_read := r.2
  if va.USE_ESP_ADF then
    if rb_bytes_filled va1.ring_buffer_ ≥ SEND_BUFFER_SIZE then
      let rd := rb_read va1.ring_buffer_ SEND_BUFFER_SIZE
      let va2 := { va1 with ring_buffer_ := rd.1, send_buffer_ := write_at va1.send_buffer_ 0 rd.2 }
      va2.emit (Effect.sendto (va2.send_buffer_.take SEND_BUFFER_SIZE) va2.dest_addr_)
    else va1
  else
    if bytes_read > 0 then
      va1.emit (Effect.sendto (va1.input_buffer_.take bytes_read) va1.dest_addr_)
    else va1

/-- Case `STOP_MICROPHONE` (lines 319-327). -/
def VoiceAssistant.loop_STOP_MICROPHONE (va : VoiceAssistant) (env : Env) : VoiceAssistant :=
  if env.mic_is_running then
    (va.emit Effect.mic_stop).set_state_ State.STOPPING_MICROPHONE
  else
    va.set_state_ va.desired_state_

/-- Case `STOPPING_MICROPHONE` (lines 328-333). -/
def VoiceAssistant.loop_STOPPING_MICROPHONE (va : VoiceAssistant) (env : Env) : VoiceAssistant :=
  if env.mic_is_stopped then va.set_state_ va.desired_state_ else va

/-- The receive step of case `STREAMING_RESPONSE` (lines 341-349). -/
def VoiceAssistant.speaker_receive (va : VoiceAssistant) (env : Env) : VoiceAssistant :=
  if size_t_add va.speaker_buffer_index_ RECEIVE_SIZE < SPEAKER_BUFFER_SIZE then
    match env.socket_read with
    | none => va
    | some bytes =>
      let va1 := { va with
        speaker_buffer_ := write_at va.speaker_buffer_ va.speaker_buffer_index_ bytes }
      let len := bytes.length
      if len > 0 then
        { va1 with
          speaker_buffer_index_ := size_t_add va1.speaker_buffer_index_ len
          speaker_buffer_size_ := size_t_add va1.speaker_buffer_size_ len }
      else va1
  else va

/-- The play and compact step of case `STREAMING_RESPONSE` (lines 350-360). -/
def VoiceAssistant.speaker_play (va : VoiceAssistant) (env : Env) : VoiceAssistant :=
  if va.speaker_buffer_size_ > 0 then
    let va1 := va.emit (Effect.speaker_play (va.speaker_buffer_.take va.speaker_buffer_size_))
    let written := env.speaker_play
    if written > 0 then
      let va2 := { va1 with
        speaker_buffer_ := memmove_front va1.speaker_buffer_ written
          (size_t_sub va1.speaker_buffer_size_ written) }
      let va3 := { va2 with speaker_buffer_size_ := size_t_sub va2.speaker_buffer_size_ written }
      let va4 := { va3 with speaker_buffer_index_ := size_t_sub va3.speaker_buffer_index_ written }
      va4.set_timeout Timeout.speaker_timeout 2000
    else va1
  else va

/-- The end of case `STREAMING_RESPONSE` (lines 368-379), entered with the value of `playing`. -/
def VoiceAssistant.loop_playing (va : VoiceAssistant) (env : Env) (playing : Bool) :
    VoiceAssistant :=
  let playing :=
    if va.USE_MEDIA_PLAYER = true ∧ va.media_player_ = true then env.media_player_playing
    else playing
  if playing then va.set_timeout Timeout.playing 2000 else va

/-- Case `STREAMING_RESPONSE` (lines 337-380). -/
def VoiceAssistant.loop_STREAMING_RESPONSE (va : VoiceAssistant) (env : Env) : VoiceAssistant :=
  if va.USE_SPEAKER = true ∧ va.speaker_ = true then
    let va1 := va.speaker_receive env
    let va2 := va1.speaker_play env
    if va2.wait_for_stream_end_ then
      va2.cancel_timeout Timeout.playing
    else
      va2.loop_playing env env.speaker_is_running
  else
    va.loop_playing env false

/-- Case `RESPONSE_FINISHED` (lines 381-395). -/
def VoiceAssistant.loop_RESPONSE_FINISHED (va : VoiceAssistant) : VoiceAssistant :=
  let va1 :=
    if va.USE_SPEAKER then
      let va2 :=
        if va.speaker_ then
          let va3 := va.emit Effect.speaker_stop
          let va4 := (va3.cancel_timeout Timeout.speaker_timeout).cancel_timeout Timeout.playing
          { va4 with
            speaker_buffer_size_ := 0
            speaker_buffer_index_ := 0
            speaker_buffer_ := memset_zero va4.speaker_buffer_ SPEAKER_BUFFER_SIZE }
        else va
      { va2 with wait_for_stream_end_ := false }
    else va
  va1.set_state_desired_ State.IDLE State.IDLE

/-- The member `loop` (lines 129-399): one tick. -/
def VoiceAssistant.loop (va : VoiceAssistant) (env : Env) : VoiceAssistant :=
  if va.watchdog_cond env then
    va.watchdog env
  else
    match va.state_ with
    | State.IDLE => va.loop_IDLE
    | State.START_MICROPHONE => va.loop_START_MICROPHONE
    | State.STARTING_MICROPHONE => va.loop_STARTING_MICROPHONE env
    | State.WAIT_FOR_VAD => va.loop_WAIT_FOR_VAD env
    | State.WAITING_FOR_VAD => va.loop_WAITING_FOR_VAD env
    | State.START_PIPELINE => va.loop_START_PIPELINE env
    | State.STARTING_PIPELINE => va.loop_STARTING_PIPELINE env
    | State.STREAMING_MICROPHONE => va.loop_STREAMING_MICROPHONE env
    | State.STOP_MICROPHONE => va.loop_STOP_MICROPHONE env
    | State.STOPPING_MICROPHONE => va.loop_STOPPING_MICROPHONE env
    | State.AWAITING_RESPONSE => va
    | State.STREAMING_RESPONSE => va.loop_STREAMING_RESPONSE env
    | State.RESPONSE_FINISHED => va.loop_RESPONSE_FINISHED

/-! ## Entry points other than `loop` -/

/-- The member `failed_to_start` (lines 447-451). -/
def VoiceAssistant.failed_to_start (va : VoiceAssistant) : VoiceAssistant :=
  (va.emit (Effect.error_trigger "failed-to-start"
    "Failed to start server. See Home Assistant logs for more details.")).set_state_desired_
    State.STOP_MICROPHONE State.IDLE

/-- The member `start_streaming` (lines 453-480). -/
def VoiceAssistant.start_streaming (va : VoiceAssistant) (env : Env) (addr : sockaddr_storage)
    (port : Nat) : VoiceAssistant :=
  if va.state_ ≠ State.STARTING_PIPELINE then
    va.signal_stop_
  else
    let va1 := { va with dest_addr_ := addr }
    let known (va2 : VoiceAssistant) : VoiceAssistant :=
      if env.mic_is_running then
        va2.set_state_desired_ State.STREAMING_MICROPHONE State.STREAMING_MICROPHONE
      else
        va2.set_state_desired_ State.START_MICROPHONE State.STREAMING_MICROPHONE
    if va1.dest_addr_.ss_family = AF_INET then
      known { va1 with dest_addr_ := { va1.dest_addr_ with port := htons port } }
    else if va.LWIP_IPV6 = true ∧ va1.dest_addr_.ss_family = AF_INET6 then
      known { va1 with dest_addr_ := { va1.dest_addr_ with port := htons port } }
    else
      va1

/-- The member `request_start` (lines 482-506). -/
def VoiceAssistant.request_start (va : VoiceAssistant) (env : Env)
    (continuous silence_detection : Bool) : VoiceAssistant :=
  if env.is_connected = false then
    { (va.set_state_desired_ State.IDLE State.IDLE) with continuous_ := false }
  else if va.state_ = State.IDLE then
    ({ va with continuous_ := continuous, silence_detection_ := silence_detection }).start_
  else
    va

/-- The member `request_stop` (lines 508-535). -/
def VoiceAssistant.request_stop (va : VoiceAssistant) : VoiceAssistant :=
  let va1 := { va with continuous_ := false }
  match va1.state_ with
  | State.IDLE => va1
  | State.START_MICROPHONE
  | State.STARTING_MICROPHONE
  | State.WAIT_FOR_VAD
  | State.WAITING_FOR_VAD
  | State.START_PIPELINE => va1.set_state_desired_ State.STOP_MICROPHONE State.IDLE
  | State.STARTING_PIPELINE
  | State.STREAMING_MICROPHONE =>
    va1.signal_stop_.set_state_desired_ State.STOP_MICROPHONE State.IDLE
  | State.STOP_MICROPHONE
  | State.STOPPING_MICROPHONE => { va1 with desired_state_ := State.IDLE }
  | State.AWAITING_RESPONSE
  | State.STREAMING_RESPONSE
  | State.RESPONSE_FINISHED => va1

/-- The loop `for (auto arg : msg.data) if (arg.name == name) var = arg.value;` started with
`var = start`: the last argument of that name wins. -/
def find_arg (data : List VoiceAssistantEventData) (name : String) (start : String) : String :=
  data.foldl (fun var arg => if arg.name = name then arg.value else var) start

/-- The loop at lines 645-651, started with `code = ""` and `message = ""`. -/
def find_code_message (data : List VoiceAssistantEventData) : String × String :=
  data.foldl
    (fun cm arg =>
      if arg.name = "code" then (arg.value, cm.2)
      else if arg.name = "message" then (cm.1, arg.value)
      else cm)
    ("", "")

/-- The member `on_event` (lines 543-678). -/
def VoiceAssistant.on_event (va : VoiceAssistant) (msg : VoiceAssistantEventResponse) :
    VoiceAssistant :=
  match msg.event_type with
  | VoiceAssistantEvent.VOICE_ASSISTANT_RUN_START => va.emit Effect.start_trigger
  | VoiceAssistantEvent.VOICE_ASSISTANT_WAKE_WORD_START => va
  | VoiceAssistantEvent.VOICE_ASSISTANT_WAKE_WORD_END => va.emit Effect.wake_word_detected_trigger
  | VoiceAssistantEvent.VOICE_ASSISTANT_STT_START => va.emit Effect.listening_trigger
  | VoiceAssistantEvent.VOICE_ASSISTANT_STT_END =>
    let va1 := va.set_state_desired_ State.STOP_MICROPHONE State.AWAITING_RESPONSE
    let text := find_arg msg.data "text" ""
    if text = "" then va1
    else va1.emit (Effect.stt_end_trigger text)
  | VoiceAssistantEvent.VOICE_ASSISTANT_INTENT_END =>
    { va with conversation_id_ := find_arg msg.data "conversation_id" va.conversation_id_ }
  | VoiceAssistantEvent.VOICE_ASSISTANT_TTS_START =>
    let text := find_arg msg.data "text" ""
    if text = "" then va
    else
      let va1 := va.emit (Effect.tts_start_trigger text)
      if va.USE_SPEAKER then va1.emit Effect.speaker_start else va1
  | VoiceAssistantEvent.VOICE_ASSISTANT_TTS_END =>
    let url := find_arg msg.data "url" ""
    if url = "" then va
    else
      let va1 :=
        if va.USE_MEDIA_PLAYER = true ∧ va.media_player_ = true then
          va.emit (Effect.media_player_play url)
        else va
      let new_state := if va1.local_output_ then State.STREAMING_RESPONSE else State.IDLE
      (va1.set_state_desired_ new_state new_state).emit (Effect.tts_end_trigger url)
  | VoiceAssistantEvent.VOICE_ASSISTANT_RUN_END =>
    let va1 :=
      if va.state_ = State.STREAMING_MICROPHONE then
        if va.USE_ESP_ADF = true ∧ va.use_wake_word_ = true then
          ({ va with ring_buffer_ := rb_reset va.ring_buffer_ }).set_state_desired_
            State.WAIT_FOR_VAD State.WAITING_FOR_VAD
        else
          va.set_state_desired_ State.IDLE State.IDLE
      else va
    va1.emit Effect.end_trigger
  | VoiceAssistantEvent.VOICE_ASSISTANT_ERROR =>
    let cm := find_code_message msg.data
    let code := cm.1
    let message := cm.2
    if code = "wake-word-timeout" ∨ code = "wake_word_detection_aborted" then va
    else
      let va1 :=
        if va.state_ ≠ State.IDLE then
          va.signal_stop_.set_state_desired_ State.STOP_MICROPHONE State.IDLE
        else va
      va1.emit (Effect.error_trigger code message)
  | VoiceAssistantEvent.VOICE_ASSISTANT_TTS_STREAM_START =>
    if va.USE_SPEAKER then { va with wait_for_stream_end_ := true } else va
  | VoiceAssistantEvent.VOICE_ASSISTANT_TTS_STREAM_END =>
    va.set_state_desired_ State.RESPONSE_FINISHED State.IDLE
  | VoiceAssistantEvent.OTHER _ => va

/-- The callback registered under each timeout name
(line 296 "reset-conversation_id", line 356 "speaker-timeout", lines 374-377 "playing"). -/
def VoiceAssistant.timeout_callback (va : VoiceAssistant) : Timeout → VoiceAssistant
  | Timeout.reset_conversation_id => { va with conversation_id_ := "" }
  | Timeout.speaker_timeout => va.emit Effect.speaker_stop
  | Timeout.playing =>
    (va.cancel_timeout Timeout.speaker_timeout).set_state_desired_ State.IDLE State.IDLE

/-- Modelled from the spec: the Timer Manager firing a named timeout, which is not in the source
file.  An armed timeout is removed and its callback runs; a timeout that is not armed does not
fire. -/
def VoiceAssistant.fire_timeout (va : VoiceAssistant) (name : Timeout) : VoiceAssistant :=
  if name ∈ va.timeouts.map Prod.fst then (va.cancel_timeout name).timeout_callback name else va

/-! ## Sequences of calls -/

/-- One call into the controller from outside. -/
inductive Call where
  | loop (env : Env)
  | request_start (env : Env) (continuous silence_detection : Bool)
  | request_stop
  | start_streaming (env : Env) (addr : sockaddr_storage) (port : Nat)
  | failed_to_start
  | on_event (msg : VoiceAssistantEventResponse)
  | fire_timeout (name : Timeout)

/-- The controller after one call. -/
def VoiceAssistant.call (va : VoiceAssistant) : Call → VoiceAssistant
  | Call.loop env => va.loop env
  | Call.request_start env continuous silence_detection =>
    va.request_start env continuous silence_detection
  | Call.request_stop => va.request_stop
  | Call.start_streaming env addr port => va.start_streaming env addr port
  | Call.failed_to_start => va.failed_to_start
  | Call.on_event msg => va.on_event msg
  | Call.fire_timeout name => va.fire_timeout name

/-- Consecutive ticks, one `Env` each, first tick first. -/
def VoiceAssistant.ticks (va : VoiceAssistant) : List Env → VoiceAssistant
  | [] => va
  | env :: envs => (va.loop env).ticks envs

/-- Consecutive calls, first call first. -/
def VoiceAssistant.calls (va : VoiceAssistant) : List Call → VoiceAssistant
  | [] => va
  | c :: cs => (va.call c).calls cs

/-! ## Concrete controllers and answers used as test inputs -/

/-- A controller as `setup()` (lines 27-105) leaves it when every allocation succeeds, in the
build with the ring buffer and the speaker and with a sample configuration: idle, buffers of
their allocated sizes filled with zero, an empty ring buffer of `BUFFER_SIZE` blocks of
`sizeof(int16_t)` bytes. -/
def VoiceAssistant.after_setup : VoiceAssistant :=
  { USE_ESP_ADF := true
    USE_SPEAKER := true
    USE_MEDIA_PLAYER := false
    LWIP_IPV6 := false
    speaker_ := true
    media_player_ := false
    use_wake_word_ := false
    local_output_ := true
    vad_threshold_ := 5
    noise_suppression_level_ := 0
    auto_gain_ := 0
    volume_multiplier_ := 0
    state_ := State.IDLE
    desired_state_ := State.IDLE
    continuous_ := false
    silence_detection_ := true
    wait_for_stream_end_ := false
    conversation_id_ := ""
    vad_counter_ := 0
    input_buffer_ := List.replicate (INPUT_BUFFER_SIZE * sizeof_int16_t) 0
    send_buffer_ := List.replicate SEND_BUFFER_SIZE 0
    ring_buffer_ := rb_create BUFFER_SIZE sizeof_int16_t
    speaker_buffer_ := List.replicate SPEAKER_BUFFER_SIZE 0
    speaker_buffer_index_ := 0
    speaker_buffer_size_ := 0
    dest_addr_ := { ss_family := 0, port := 0, rest := [] }
    timeouts := []
    trace := [] }

/-- Answers of a quiet environment: connected, microphone running and delivering the two-byte
frame `[1, 2]` classified as silence, nothing on the socket, speaker accepting nothing. -/
def Env.quiet : Env :=
  { is_connected := true
    mic_is_running := true
    mic_is_stopped := false
    mic_read := [1, 2]
    vad_speech := false
    fft_init_ok := true
    rms_ge_2000 := false
    start_voice_assistant := true
    socket_read := none
    speaker_play := 0
    speaker_is_running := false
    media_player_playing := false }

/-- A tick whose answers are: connection up, microphone running, a non-empty frame read, and
the frame classified as speech. -/
def Env.speech_frame (env : Env) : Prop :=
  env.is_connected = true ∧ env.mic_is_running = true ∧ env.mic_read ≠ [] ∧
    env.vad_speech = true

/-- A tick whose answers are: connection up, microphone running, a non-empty frame read, and
the frame classified as silence. -/
def Env.silence_frame (env : Env) : Prop :=
  env.is_connected = true ∧ env.mic_is_running = true ∧ env.mic_read ≠ [] ∧
    env.vad_speech = false

/-- The speaker buffer invariant `0 ≤ size ≤ index ≤ capacity`. -/
def VoiceAssistant.speaker_inv (va : VoiceAssistant) : Prop :=
  va.speaker_buffer_size_ ≤ va.speaker_buffer_index_ ∧
    va.speaker_buffer_index_ ≤ SPEAKER_BUFFER_SIZE

/-- A controller streaming a response with an empty speaker buffer. -/
def VoiceAssistant.sample_streaming_response : VoiceAssistant :=
  { VoiceAssistant.after_setup with state_ := State.STREAMING_RESPONSE }

/-- Answers of a tick in which the socket delivers three bytes and the speaker takes two. -/
def Env.sample_receive : Env :=
  { Env.quiet with socket_read := some [7, 8, 9], speaker_play := 2 }

/-- A controller whose ring buffer has capacity 4 and holds the bytes 1, 2, 3. -/
def VoiceAssistant.sample_small_ring : VoiceAssistant :=
  { VoiceAssistant.after_setup with ring_buffer_ := { size := 4, data := [1, 2, 3] } }

/-- Answers of a tick in which the microphone delivers the frame 10, 11, 12. -/
def Env.sample_frame : Env :=
  { Env.quiet with mic_read := [10, 11, 12] }

/-- An Error event carrying the code "timeout" and the message "no speech". -/
def VoiceAssistantEventResponse.sample_error : VoiceAssistantEventResponse :=
  { event_type := VoiceAssistantEvent.VOICE_ASSISTANT_ERROR
    data := [{ name := "code", value := "timeout" }, { name := "message", value := "no speech" }] }

/-- A controller streaming the microphone. -/
def VoiceAssistant.sample_streaming_microphone : VoiceAssistant :=
  { VoiceAssistant.after_setup with state_ := State.STREAMING_MICROPHONE }

/-- A controller streaming a response while the end of the stream is awaited, with the "playing"
timeout still armed by an earlier tick. -/
def VoiceAssistant.sample_awaiting_stream_end : VoiceAssistant :=
  { VoiceAssistant.after_setup with
    state_ := State.STREAMING_RESPONSE
    wait_for_stream_end_ := true
    timeouts := [(Timeout.playing, 2000)] }

/-- A controller whose response stream has ended, with both playback timeouts armed, pending
speaker data and the stream-end flag still set. -/
def VoiceAssistant.sample_response_finished : VoiceAssistant :=
  { VoiceAssistant.after_setup with
    state_ := State.RESPONSE_FINISHED
    wait_for_stream_end_ := true
    speaker_buffer_index_ := 3
    speaker_buffer_size_ := 3
    timeouts := [(Timeout.speaker_timeout, 2000), (Timeout.playing, 2000)] }

/-- A controller waiting for the remote pipeline to announce its audio port. -/
def VoiceAssistant.sample_starting_pipeline : VoiceAssistant :=
  { VoiceAssistant.after_setup with
    state_ := State.STARTING_PIPELINE, desired_state_ := State.START_MICROPHONE }

/-- An IPv4 address with an unset port. -/
def sockaddr_storage.sample_inet : sockaddr_storage :=
  { ss_family := AF_INET, port := 0, rest := [192, 168, 1, 10] }

/-- A controller about to request the pipeline, with the wake word in use and end-of-speech
detection off. -/
def VoiceAssistant.sample_start_pipeline : VoiceAssistant :=
  { VoiceAssistant.after_setup with
    state_ := State.START_PIPELINE
    desired_state_ := State.START_MICROPHONE
    use_wake_word_ := true
    silence_detection_ := false
    continuous_ := true
    conversation_id_ := "abc" }

/-- A controller whose input buffer still holds the samples 5, 6 of an earlier frame. -/
def VoiceAssistant.sample_stale_input : VoiceAssistant :=
  { VoiceAssistant.after_setup with
    input_buffer_ := 5 :: 6 :: List.replicate (INPUT_BUFFER_SIZE * sizeof_int16_t - 2) 0 }

/-- A controller streaming a response with both playback timeouts armed. -/
def VoiceAssistant.sample_both_timeouts : VoiceAssistant :=
  { VoiceAssistant.after_setup with
    state_ := State.STREAMING_RESPONSE
    timeouts := [(Timeout.speaker_timeout, 2000), (Timeout.playing, 2000)] }

/-- A controller streaming the microphone whose ring buffer holds one full send buffer of
bytes 7. -/
def VoiceAssistant.sample_full_ring : VoiceAssistant :=
  { VoiceAssistant.after_setup with
    state_ := State.STREAMING_MICROPHONE
    ring_buffer_ := { size := BUFFER_SIZE * sizeof_int16_t
                      data := List.replicate SEND_BUFFER_SIZE 7 } }

/-- A controller stopping the microphone on its way to AWAITING_RESPONSE. -/
def VoiceAssistant.sample_stop_microphone : VoiceAssistant :=
  { VoiceAssistant.after_setup with
    state_ := State.STOP_MICROPHONE, desired_state_ := State.AWAITING_RESPONSE }

/-- A controller streaming a response, the end of the stream awaited, with three bytes pending
in the speaker buffer and a "speaker-timeout" timeout armed. -/
def VoiceAssistant.sample_streaming_pending : VoiceAssistant :=
  { VoiceAssistant.after_setup with
    state_ := State.STREAMING_RESPONSE
    desired_state_ := State.STREAMING_RESPONSE
    wait_for_stream_end_ := true
    speaker_buffer_index_ := 3
    speaker_buffer_size_ := 3
    timeouts := [(Timeout.speaker_timeout, 2000)] }

/-- The invariant "if the current state is IDLE then the desired state is IDLE". -/
def VoiceAssistant.idle_inv (va : VoiceAssistant) : Prop :=
  va.state_ = State.IDLE → va.desired_state_ = State.IDLE

/-- A sequence of calls: a start request, a stop request, and the tick that finds the microphone
stopped. -/
def Call.sample_session : List Call :=
  [ Call.request_start Env.quiet true true,
    Call.request_stop,
    Call.loop { Env.quiet with mic_is_running := false } ]

/-! ## Properties -/

/-- The trace of a tick taken with the connection down extends the old trace by entries that
are neither datagrams nor start requests. -/
theorem loop_disconnected_trace (va : VoiceAssistant) (env : Env)
    (hconn : env.is_connected = false) :
    ∃ new : List Effect, (va.loop env).trace = va.trace ++ new ∧
      ∀ e ∈ new, (∀ d a, e ≠ Effect.sendto d a) ∧
        (∀ c f s, e ≠ Effect.start_voice_assistant c f s) := by
  by_cases hw : va.watchdog_cond env
  · refine ⟨[Effect.stop_voice_assistant], ?_, ?_⟩
    · simp only [VoiceAssistant.loop, hw, if_true, VoiceAssistant.watchdog,
        VoiceAssistant.signal_stop_, VoiceAssistant.emit,
        VoiceAssistant.set_state_desired_, VoiceAssistant.set_state_]
      split <;> rfl
    · intro e he
      simp at he
      subst he
      simp
  · have hw2 := hw
    simp only [VoiceAssistant.watchdog_cond, hconn, and_true, not_and, not_not] at hw2
    have hst : va.state_ = State.IDLE ∨ va.state_ = State.STOP_MICROPHONE ∨
        va.state_ = State.STOPPING_MICROPHONE := by
      by_cases h1 : va.state_ = State.IDLE
      · exact Or.inl h1
      · by_cases h2 : va.state_ = State.STOP_MICROPHONE
        · exact Or.inr (Or.inl h2)
        · exact Or.inr (Or.inr (hw2 h1 h2))
    rcases hst with h | h | h
    · by_cases hc : va.continuous_ = true ∧ va.desired_state_ = State.IDLE
      · refine ⟨[], ?_, by simp⟩
        simp only [VoiceAssistant.loop, hw, if_false, h, VoiceAssistant.loop_IDLE, hc,
          and_self, if_true, VoiceAssistant.start_, VoiceAssistant.set_state_desired_,
          VoiceAssistant.set_state_, List.append_nil]
        split <;> split <;> rfl
      · refine ⟨[Effect.high_freq_stop], ?_, by simp⟩
        simp only [VoiceAssistant.loop, hw, if_false, h, VoiceAssistant.loop_IDLE, hc,
          VoiceAssistant.emit]
    · by_cases hm : env.mic_is_running = true
      · refine ⟨[Effect.mic_stop], ?_, by simp⟩
        simp [VoiceAssistant.loop, hw, h, VoiceAssistant.loop_STOP_MICROPHONE, hm,
          VoiceAssistant.emit, VoiceAssistant.set_state_]
      · refine ⟨[], ?_, by simp⟩
        simp [VoiceAssistant.loop, hw, h, VoiceAssistant.loop_STOP_MICROPHONE, hm,
          VoiceAssistant.set_state_]
    · refine ⟨[], ?_, by simp⟩
      simp only [VoiceAssistant.loop, hw, if_false, h, VoiceAssistant.loop_STOPPING_MICROPHONE,
        VoiceAssistant.set_state_, List.append_nil]
      split <;> rfl

/-- C1 (watchdog): a tick taken with the API connection down, in a state other than IDLE,
STOP_MICROPHONE and STOPPING_MICROPHONE, changes only the state, the desired state,
`continuous_`, the destination address and the trace: `continuous_` becomes false, exactly one
remote stop signal is issued, the state becomes STOP_MICROPHONE when the microphone is running or
the state was STARTING_MICROPHONE and IDLE otherwise, the desired state becomes IDLE, and the
per-state action does not run.  In every state, a tick taken with the connection down sends no
audio datagram and requests no pipeline start. -/
theorem watchdog_disconnected (va : VoiceAssistant) (env : Env)
    (hconn : env.is_connected = false) :
    (va.state_ ≠ State.IDLE → va.state_ ≠ State.STOP_MICROPHONE →
      va.state_ ≠ State.STOPPING_MICROPHONE →
        (va.loop env).continuous_ = false ∧
        (va.loop env).trace = va.trace ++ [Effect.stop_voice_assistant] ∧
        (va.loop env).state_ =
          (if env.mic_is_running = true ∨ va.state_ = State.STARTING_MICROPHONE
            then State.STOP_MICROPHONE else State.IDLE) ∧
        (va.loop env).desired_state_ = State.IDLE ∧
        va.loop env =
          { va with
            state_ := (va.loop env).state_
            desired_state_ := State.IDLE
            continuous_ := false
            dest_addr_ := va.dest_addr_.zeroed
            trace := va.trace ++ [Effect.stop_voice_assistant] }) ∧
    (∃ new : List Effect, (va.loop env).trace = va.trace ++ new ∧
      ∀ e ∈ new, (∀ d a, e ≠ Effect.sendto d a) ∧
        (∀ c f s, e ≠ Effect.start_voice_assistant c f s)) := by
  refine ⟨?_, loop_disconnected_trace va env hconn⟩
  intro h1 h2 h3
  have hw : va.watchdog_cond env := ⟨h1, h2, h3, hconn⟩
  by_cases hm : env.mic_is_running = true ∨ va.state_ = State.STARTING_MICROPHONE
  · simp [VoiceAssistant.loop, hw, VoiceAssistant.watchdog, hm, VoiceAssistant.signal_stop_,
      VoiceAssistant.emit, VoiceAssistant.set_state_desired_, VoiceAssistant.set_state_]
  · simp [VoiceAssistant.loop, hw, VoiceAssistant.watchdog, hm, VoiceAssistant.signal_stop_,
      VoiceAssistant.emit, VoiceAssistant.set_state_desired_, VoiceAssistant.set_state_]

/-- C1 at a concrete input: streaming with a running microphone when the connection drops. -/
theorem watchdog_disconnected_witness :
    (({ VoiceAssistant.after_setup with
          state_ := State.STREAMING_MICROPHONE, continuous_ := true }).loop
        { Env.quiet with is_connected := false }).continuous_ = false ∧
    (({ VoiceAssistant.after_setup with
          state_ := State.STREAMING_MICROPHONE, continuous_ := true }).loop
        { Env.quiet with is_connected := false }).state_ = State.STOP_MICROPHONE ∧
    (({ VoiceAssistant.after_setup with
          state_ := State.STREAMING_MICROPHONE, continuous_ := true }).loop
        { Env.quiet with is_connected := false }).trace = [Effect.stop_voice_assistant] :=
  have h := (watchdog_disconnected
    { VoiceAssistant.after_setup with state_ := State.STREAMING_MICROPHONE, continuous_ := true }
    { Env.quiet with is_connected := false } rfl).1 (by decide) (by decide) (by decide)
  ⟨h.1, h.2.2.1, h.2.1⟩

theorem read_microphone_frame (va : VoiceAssistant) (env : Env) :
    (va.read_microphone_ env).1 =
      { va with
        input_buffer_ := (va.read_microphone_ env).1.input_buffer_
        ring_buffer_ := (va.read_microphone_ env).1.ring_buffer_ } := by
  simp only [VoiceAssistant.read_microphone_]
  split_ifs <;> rfl

theorem read_microphone_bytes (va : VoiceAssistant) (env : Env) :
    (va.read_microphone_ env).2 = if env.mic_is_running = true then env.mic_read.length else 0 := by
  simp only [VoiceAssistant.read_microphone_]
  split_ifs <;> simp_all

theorem read_microphone_vad_counter (va : VoiceAssistant) (env : Env) :
    (va.read_microphone_ env).1.vad_counter_ = va.vad_counter_ := by
  rw [read_microphone_frame]

theorem read_microphone_vad_threshold (va : VoiceAssistant) (env : Env) :
    (va.read_microphone_ env).1.vad_threshold_ = va.vad_threshold_ := by
  rw [read_microphone_frame]

theorem read_microphone_state (va : VoiceAssistant) (env : Env) :
    (va.read_microphone_ env).1.state_ = va.state_ := by
  rw [read_microphone_frame]

theorem read_microphone_USE_ESP_ADF (va : VoiceAssistant) (env : Env) :
    (va.read_microphone_ env).1.USE_ESP_ADF = va.USE_ESP_ADF := by
  rw [read_microphone_frame]

/-- One tick in WAITING_FOR_VAD (ring-buffer build) with a speech frame. -/
theorem loop_waiting_speech (va : VoiceAssistant) (env : Env)
    (hadf : va.USE_ESP_ADF = true) (hst : va.state_ = State.WAITING_FOR_VAD)
    (hsp : env.speech_frame) :
    (va.loop env).USE_ESP_ADF = true ∧
    (va.loop env).vad_threshold_ = va.vad_threshold_ ∧
    (va.vad_counter_ < va.vad_threshold_ →
      (va.loop env).state_ = State.WAITING_FOR_VAD ∧
      (va.loop env).vad_counter_ = va.vad_counter_ + 1) ∧
    (¬ va.vad_counter_ < va.vad_threshold_ →
      (va.loop env).state_ = State.START_PIPELINE ∧
      (va.loop env).desired_state_ = State.STREAMING_MICROPHONE ∧
      (va.loop env).vad_counter_ = 0) := by
  obtain ⟨hc, hm, hr, hv⟩ := hsp
  have hw : ¬ va.watchdog_cond env := by simp [VoiceAssistant.watchdog_cond, hc]
  have hb : 0 < (va.read_microphone_ env).2 := by
    rw [read_microphone_bytes, if_pos hm]
    exact List.length_pos.mpr hr
  have hloop : va.loop env = va.loop_WAITING_FOR_VAD env := by
    simp only [VoiceAssistant.loop, hw, if_false, hst]
  rw [hloop]
  simp only [VoiceAssistant.loop_WAITING_FOR_VAD, hadf, if_true, hb, gt_iff_lt, hv,
    read_microphone_vad_counter, read_microphone_vad_threshold]
  refine ⟨?_, ?_, ?_, ?_⟩
  · split_ifs <;>
      simp [VoiceAssistant.set_state_desired_, VoiceAssistant.set_state_,
        read_microphone_USE_ESP_ADF, hadf]
  · split_ifs <;>
      simp [VoiceAssistant.set_state_desired_, VoiceAssistant.set_state_,
        read_microphone_vad_threshold]
  · intro h
    simp [h, read_microphone_state, hst, read_microphone_vad_counter]
  · intro h
    simp [h, VoiceAssistant.set_state_desired_, VoiceAssistant.set_state_]

/-- While the counter stays below the threshold, speech ticks only count. -/
theorem ticks_waiting_speech (envs : List Env) :
    ∀ (va : VoiceAssistant), va.USE_ESP_ADF = true → va.state_ = State.WAITING_FOR_VAD →
      (∀ e ∈ envs, e.speech_frame) → va.vad_counter_ + envs.length ≤ va.vad_threshold_ →
      (va.ticks envs).USE_ESP_ADF = true ∧
      (va.ticks envs).state_ = State.WAITING_FOR_VAD ∧
      (va.ticks envs).vad_threshold_ = va.vad_threshold_ ∧
      (va.ticks envs).vad_counter_ = va.vad_counter_ + envs.length := by
  induction envs with
  | nil => intro va hadf hst _ _; simp [VoiceAssistant.ticks, hadf, hst]
  | cons env envs ih =>
    intro va hadf hst hsp hle
    have hstep := loop_waiting_speech va env hadf hst (hsp env (List.mem_cons_self _ _))
    simp only [List.length_cons] at hle
    have hlt : va.vad_counter_ < va.vad_threshold_ := by omega
    obtain ⟨h1, h2, h3, -⟩ := hstep
    obtain ⟨h4, h5⟩ := h3 hlt
    have := ih (va.loop env) h1 h4 (fun e he => hsp e (List.mem_cons_of_mem _ he))
      (by rw [h5, h2]; omega)
    simp only [VoiceAssistant.ticks, List.length_cons]
    rw [this.1, this.2.1, this.2.2.1, this.2.2.2, h2, h5]
    refine ⟨rfl, rfl, rfl, by omega⟩

theorem ticks_append (envs1 envs2 : List Env) :
    ∀ (va : VoiceAssistant), va.ticks (envs1 ++ envs2) = (va.ticks envs1).ticks envs2 := by
  induction envs1 with
  | nil => intro va; rfl
  | cons e es ih => intro va; simp [VoiceAssistant.ticks, ih]

/-- C2 as stated fails with threshold 1: after one speech tick from counter 0 the controller is
still in WAITING_FOR_VAD (the counter went from 0 to 1), not in START_PIPELINE. -/
theorem vad_threshold_ticks_counterexample :
    ({ VoiceAssistant.after_setup with
        state_ := State.WAITING_FOR_VAD, vad_threshold_ := 1 }).USE_ESP_ADF = true ∧
    ({ VoiceAssistant.after_setup with
        state_ := State.WAITING_FOR_VAD, vad_threshold_ := 1 }).state_ = State.WAITING_FOR_VAD ∧
    ({ VoiceAssistant.after_setup with
        state_ := State.WAITING_FOR_VAD, vad_threshold_ := 1 }).vad_threshold_ = 1 ∧
    ({ VoiceAssistant.after_setup with
        state_ := State.WAITING_FOR_VAD, vad_threshold_ := 1 }).vad_counter_ = 0 ∧
    ({ Env.quiet with vad_speech := true }).speech_frame ∧
    (({ VoiceAssistant.after_setup with
        state_ := State.WAITING_FOR_VAD, vad_threshold_ := 1 }).ticks
      [{ Env.quiet with vad_speech := true }]).state_ = State.WAITING_FOR_VAD ∧
    (({ VoiceAssistant.after_setup with
        state_ := State.WAITING_FOR_VAD, vad_threshold_ := 1 }).ticks
      [{ Env.quiet with vad_speech := true }]).state_ ≠ State.START_PIPELINE := by
  refine ⟨rfl, rfl, rfl, rfl, ⟨rfl, rfl, by decide, rfl⟩, by decide, by decide⟩

/-- C2 (amended): in WAITING_FOR_VAD (ring-buffer build) with `vad_counter_ = 0` and
`vad_threshold_ = T`, during the first T consecutive speech ticks the controller stays in
WAITING_FOR_VAD and the counter equals the number of ticks taken, so after exactly T ticks the
state is WAITING_FOR_VAD with the counter at T; one more speech tick (the T+1-th) drives it to
START_PIPELINE with desired state STREAMING_MICROPHONE and resets the counter to 0. -/
theorem vad_threshold_ticks (va : VoiceAssistant) (envs : List Env) (last : Env)
    (hadf : va.USE_ESP_ADF = true) (hst : va.state_ = State.WAITING_FOR_VAD)
    (hc : va.vad_counter_ = 0) (hlen : envs.length = va.vad_threshold_)
    (hsp : ∀ e ∈ envs, e.speech_frame) (hlast : last.speech_frame) :
    (∀ k, k ≤ va.vad_threshold_ →
      (va.ticks (envs.take k)).state_ = State.WAITING_FOR_VAD ∧
      (va.ticks (envs.take k)).vad_counter_ = k) ∧
    (va.ticks envs).state_ = State.WAITING_FOR_VAD ∧
    (va.ticks envs).vad_counter_ = va.vad_threshold_ ∧
    (va.ticks (envs ++ [last])).state_ = State.START_PIPELINE ∧
    (va.ticks (envs ++ [last])).desired_state_ = State.STREAMING_MICROPHONE ∧
    (va.ticks (envs ++ [last])).vad_counter_ = 0 := by
  have hall := ticks_waiting_speech envs va hadf hst hsp (by omega)
  refine ⟨?_, hall.2.1, by rw [hall.2.2.2, hc, hlen]; omega, ?_⟩
  · intro k hk
    have hk2 : (envs.take k).length = k := by
      rw [List.length_take]; omega
    have := ticks_waiting_speech (envs.take k) va hadf hst
      (fun e he => hsp e (List.mem_of_mem_take he)) (by omega)
    exact ⟨this.2.1, by rw [this.2.2.2, hc, hk2]; omega⟩
  · have hstep := loop_waiting_speech (va.ticks envs) last hall.1 hall.2.1 hlast
    have hnot : ¬ (va.ticks envs).vad_counter_ < (va.ticks envs).vad_threshold_ := by
      rw [hall.2.2.1, hall.2.2.2]; omega
    have h := hstep.2.2.2 hnot
    rw [ticks_append]
    simpa [VoiceAssistant.ticks] using h

/-- C2 (amended) at a concrete input: threshold 1, two speech ticks. -/
theorem vad_threshold_ticks_witness :
    (({ VoiceAssistant.after_setup with
        state_ := State.WAITING_FOR_VAD, vad_threshold_ := 1 }).ticks
      ([{ Env.quiet with vad_speech := true }] ++ [{ Env.quiet with vad_speech := true }])).state_
      = State.START_PIPELINE :=
  (vad_threshold_ticks
    { VoiceAssistant.after_setup with state_ := State.WAITING_FOR_VAD, vad_threshold_ := 1 }
    [{ Env.quiet with vad_speech := true }] { Env.quiet with vad_speech := true }
    rfl rfl rfl rfl
    (by intro e he; simp at he; subst he; exact ⟨rfl, rfl, by decide, rfl⟩)
    ⟨rfl, rfl, by decide, rfl⟩).2.2.2.1

/-! ### Members after each elementary step -/

/-- The members after `emit`. -/
theorem emit_proj (va : VoiceAssistant) (e : Effect) :
    (va.emit e).USE_ESP_ADF = va.USE_ESP_ADF ∧
    (va.emit e).USE_SPEAKER = va.USE_SPEAKER ∧
    (va.emit e).USE_MEDIA_PLAYER = va.USE_MEDIA_PLAYER ∧
    (va.emit e).LWIP_IPV6 = va.LWIP_IPV6 ∧
    (va.emit e).speaker_ = va.speaker_ ∧
    (va.emit e).media_player_ = va.media_player_ ∧
    (va.emit e).use_wake_word_ = va.use_wake_word_ ∧
    (va.emit e).local_output_ = va.local_output_ ∧
    (va.emit e).vad_threshold_ = va.vad_threshold_ ∧
    (va.emit e).noise_suppression_level_ = va.noise_suppression_level_ ∧
    (va.emit e).auto_gain_ = va.auto_gain_ ∧
    (va.emit e).volume_multiplier_ = va.volume_multiplier_ ∧
    (va.emit e).state_ = va.state_ ∧
    (va.emit e).desired_state_ = va.desired_state_ ∧
    (va.emit e).continuous_ = va.continuous_ ∧
    (va.emit e).silence_detection_ = va.silence_detection_ ∧
    (va.emit e).wait_for_stream_end_ = va.wait_for_stream_end_ ∧
    (va.emit e).conversation_id_ = va.conversation_id_ ∧
    (va.emit e).vad_counter_ = va.vad_counter_ ∧
    (va.emit e).input_buffer_ = va.input_buffer_ ∧
    (va.emit e).send_buffer_ = va.send_buffer_ ∧
    (va.emit e).ring_buffer_ = va.ring_buffer_ ∧
    (va.emit e).speaker_buffer_ = va.speaker_buffer_ ∧
    (va.emit e).speaker_buffer_index_ = va.speaker_buffer_index_ ∧
    (va.emit e).speaker_buffer_size_ = va.speaker_buffer_size_ ∧
    (va.emit e).dest_addr_ = va.dest_addr_ ∧
    (va.emit e).timeouts = va.timeouts ∧
    (va.emit e).trace = va.trace ++ [e] :=
  ⟨rfl, rfl, rfl, rfl, rfl, rfl, rfl, rfl, rfl, rfl, rfl, rfl,
    rfl, rfl, rfl, rfl, rfl, rfl, rfl, rfl, rfl, rfl, rfl, rfl,
    rfl, rfl, rfl, rfl⟩

/-- The members after `set_state_`. -/
theorem set_state_proj (va : VoiceAssistant) (state : State) :
    (va.set_state_ state).USE_ESP_ADF = va.USE_ESP_ADF ∧
    (va.set_state_ state).USE_SPEAKER = va.USE_SPEAKER ∧
    (va.set_state_ state).USE_MEDIA_PLAYER = va.USE_MEDIA_PLAYER ∧
    (va.set_state_ state).LWIP_IPV6 = va.LWIP_IPV6 ∧
    (va.set_state_ state).speaker_ = va.speaker_ ∧
    (va.set_state_ state).media_player_ = va.media_player_ ∧
    (va.set_state_ state).use_wake_word_ = va.use_wake_word_ ∧
    (va.set_state_ state).local_output_ = va.local_output_ ∧
    (va.set_state_ state).vad_threshold_ = va.vad_threshold_ ∧
    (va.set_state_ state).noise_suppression_level_ = va.noise_suppression_level_ ∧
    (va.set_state_ state).auto_gain_ = va.auto_gain_ ∧
    (va.set_state_ state).volume_multiplier_ = va.volume_multiplier_ ∧
    (va.set_state_ state).state_ = state ∧
    (va.set_state_ state).desired_state_ = va.desired_state_ ∧
    (va.set_state_ state).continuous_ = va.continuous_ ∧
    (va.set_state_ state).silence_detection_ = va.silence_detection_ ∧
    (va.set_state_ state).wait_for_stream_end_ = va.wait_for_stream_end_ ∧
    (va.set_state_ state).conversation_id_ = va.conversation_id_ ∧
    (va.set_state_ state).vad_counter_ = va.vad_counter_ ∧
    (va.set_state_ state).input_buffer_ = va.input_buffer_ ∧
    (va.set_state_ state).send_buffer_ = va.send_buffer_ ∧
    (va.set_state_ state).ring_buffer_ = va.ring_buffer_ ∧
    (va.set_state_ state).speaker_buffer_ = va.speaker_buffer_ ∧
    (va.set_state_ state).speaker_buffer_index_ = va.speaker_buffer_index_ ∧
    (va.set_state_ state).speaker_buffer_size_ = va.speaker_buffer_size_ ∧
    (va.set_state_ state).dest_addr_ = va.dest_addr_ ∧
    (va.set_state_ state).timeouts = va.timeouts ∧
    (va.set_state_ state).trace = va.trace :=
  ⟨rfl, rfl, rfl, rfl, rfl, rfl, rfl, rfl, rfl, rfl, rfl, rfl,
    rfl, rfl, rfl, rfl, rfl, rfl, rfl, rfl, rfl, rfl, rfl, rfl,
    rfl, rfl, rfl, rfl⟩

/-- The members after the two-argument `set_state_`. -/
theorem set_state_desired_proj (va : VoiceAssistant) (state desired_state : State) :
    (va.set_state_desired_ state desired_state).USE_ESP_ADF = va.USE_ESP_ADF ∧
    (va.set_state_desired_ state desired_state).USE_SPEAKER = va.USE_SPEAKER ∧
    (va.set_state_desired_ state desired_state).USE_MEDIA_PLAYER = va.USE_MEDIA_PLAYER ∧
    (va.set_state_desired_ state desired_state).LWIP_IPV6 = va.LWIP_IPV6 ∧
    (va.set_state_desired_ state desired_state).speaker_ = va.speaker_ ∧
    (va.set_state_desired_ state desired_state).media_player_ = va.media_player_ ∧
    (va.set_state_desired_ state desired_state).use_wake_word_ = va.use_wake_word_ ∧
    (va.set_state_desired_ state desired_state).local_output_ = va.local_output_ ∧
    (va.set_state_desired_ state desired_state).vad_threshold_ = va.vad_threshold_ ∧
    (va.set_state_desired_ state desired_state).noise_suppression_level_ = va.noise_suppression_level_ ∧
    (va.set_state_desired_ state desired_state).auto_gain_ = va.auto_gain_ ∧
    (va.set_state_desired_ state desired_state).volume_multiplier_ = va.volume_multiplier_ ∧
    (va.set_state_desired_ state desired_state).state_ = state ∧
    (va.set_state_desired_ state desired_state).desired_state_ = desired_state ∧
    (va.set_state_desired_ state desired_state).continuous_ = va.continuous_ ∧
    (va.set_state_desired_ state desired_state).silence_detection_ = va.silence_detection_ ∧
    (va.set_state_desired_ state desired_state).wait_for_stream_end_ = va.wait_for_stream_end_ ∧
    (va.set_state_desired_ state desired_state).conversation_id_ = va.conversation_id_ ∧
    (va.set_state_desired_ state desired_state).vad_counter_ = va.vad_counter_ ∧
    (va.set_state_desired_ state desired_state).input_buffer_ = va.input_buffer_ ∧
    (va.set_state_desired_ state desired_state).send_buffer_ = va.send_buffer_ ∧
    (va.set_state_desired_ state desired_state).ring_buffer_ = va.ring_buffer_ ∧
    (va.set_state_desired_ state desired_state).speaker_buffer_ = va.speaker_buffer_ ∧
    (va.set_state_desired_ state desired_state).speaker_buffer_index_ = va.speaker_buffer_index_ ∧
    (va.set_state_desired_ state desired_state).speaker_buffer_size_ = va.speaker_buffer_size_ ∧
    (va.set_state_desired_ state desired_state).dest_addr_ = va.dest_addr_ ∧
    (va.set_state_desired_ state desired_state).timeouts = va.timeouts ∧
    (va.set_state_desired_ state desired_state).trace = va.trace :=
  ⟨rfl, rfl, rfl, rfl, rfl, rfl, rfl, rfl, rfl, rfl, rfl, rfl,
    rfl, rfl, rfl, rfl, rfl, rfl, rfl, rfl, rfl, rfl, rfl, rfl,
    rfl, rfl, rfl, rfl⟩

/-- The members after `signal_stop_`. -/
theorem signal_stop_proj (va : VoiceAssistant) :
    (va.signal_stop_).USE_ESP_ADF = va.USE_ESP_ADF ∧
    (va.signal_stop_).USE_SPEAKER = va.USE_SPEAKER ∧
    (va.signal_stop_).USE_MEDIA_PLAYER = va.USE_MEDIA_PLAYER ∧
    (va.signal_stop_).LWIP_IPV6 = va.LWIP_IPV6 ∧
    (va.signal_stop_).speaker_ = va.speaker_ ∧
    (va.signal_stop_).media_player_ = va.media_player_ ∧
    (va.signal_stop_).use_wake_word_ = va.use_wake_word_ ∧
    (va.signal_stop_).local_output_ = va.local_output_ ∧
    (va.signal_stop_).vad_threshold_ = va.vad_threshold_ ∧
    (va.signal_stop_).noise_suppression_level_ = va.noise_suppression_level_ ∧
    (va.signal_stop_).auto_gain_ = va.auto_gain_ ∧
    (va.signal_stop_).volume_multiplier_ = va.volume_multiplier_ ∧
    (va.signal_stop_).state_ = va.state_ ∧
    (va.signal_stop_).desired_state_ = va.desired_state_ ∧
    (va.signal_stop_).continuous_ = va.continuous_ ∧
    (va.signal_stop_).silence_detection_ = va.silence_detection_ ∧
    (va.signal_stop_).wait_for_stream_end_ = va.wait_for_stream_end_ ∧
    (va.signal_stop_).conversation_id_ = va.conversation_id_ ∧
    (va.signal_stop_).vad_counter_ = va.vad_counter_ ∧
    (va.signal_stop_).input_buffer_ = va.input_buffer_ ∧
    (va.signal_stop_).send_buffer_ = va.send_buffer_ ∧
    (va.signal_stop_).ring_buffer_ = va.ring_buffer_ ∧
    (va.signal_stop_).speaker_buffer_ = va.speaker_buffer_ ∧
    (va.signal_stop_).speaker_buffer_index_ = va.speaker_buffer_index_ ∧
    (va.signal_stop_).speaker_buffer_size_ = va.speaker_buffer_size_ ∧
    (va.signal_stop_).dest_addr_ = va.dest_addr_.zeroed ∧
    (va.signal_stop_).timeouts = va.timeouts ∧
    (va.signal_stop_).trace = va.trace ++ [Effect.stop_voice_assistant] :=
  ⟨rfl, rfl, rfl, rfl, rfl, rfl, rfl, rfl, rfl, rfl, rfl, rfl,
    rfl, rfl, rfl, rfl, rfl, rfl, rfl, rfl, rfl, rfl, rfl, rfl,
    rfl, rfl, rfl, rfl⟩

/-- The members after arming a timeout. -/
theorem set_timeout_proj (va : VoiceAssistant) (name : Timeout) (ms : Nat) :
    (va.set_timeout name ms).USE_ESP_ADF = va.USE_ESP_ADF ∧
    (va.set_timeout name ms).USE_SPEAKER = va.USE_SPEAKER ∧
    (va.set_timeout name ms).USE_MEDIA_PLAYER = va.USE_MEDIA_PLAYER ∧
    (va.set_timeout name ms).LWIP_IPV6 = va.LWIP_IPV6 ∧
    (va.set_timeout name ms).speaker_ = va.speaker_ ∧
    (va.set_timeout name ms).media_player_ = va.media_player_ ∧
    (va.set_timeout name ms).use_wake_word_ = va.use_wake_word_ ∧
    (va.set_timeout name ms).local_output_ = va.local_output_ ∧
    (va.set_timeout name ms).vad_threshold_ = va.vad_threshold_ ∧
    (va.set_timeout name ms).noise_suppression_level_ = va.noise_suppression_level_ ∧
    (va.set_timeout name ms).auto_gain_ = va.auto_gain_ ∧
    (va.set_timeout name ms).volume_multiplier_ = va.volume_multiplier_ ∧
    (va.set_timeout name ms).state_ = va.state_ ∧
    (va.set_timeout name ms).desired_state_ = va.desired_state_ ∧
    (va.set_timeout name ms).continuous_ = va.continuous_ ∧
    (va.set_timeout name ms).silence_detection_ = va.silence_detection_ ∧
    (va.set_timeout name ms).wait_for_stream_end_ = va.wait_for_stream_end_ ∧
    (va.set_timeout name ms).conversation_id_ = va.conversation_id_ ∧
    (va.set_timeout name ms).vad_counter_ = va.vad_counter_ ∧
    (va.set_timeout name ms).input_buffer_ = va.input_buffer_ ∧
    (va.set_timeout name ms).send_buffer_ = va.send_buffer_ ∧
    (va.set_timeout name ms).ring_buffer_ = va.ring_buffer_ ∧
    (va.set_timeout name ms).speaker_buffer_ = va.speaker_buffer_ ∧
    (va.set_timeout name ms).speaker_buffer_index_ = va.speaker_buffer_index_ ∧
    (va.set_timeout name ms).speaker_buffer_size_ = va.speaker_buffer_size_ ∧
    (va.set_timeout name ms).dest_addr_ = va.dest_addr_ ∧
    (va.set_timeout name ms).timeouts =
      (name, ms) :: va.timeouts.filter (fun t => decide (t.1 ≠ name)) ∧
    (va.set_timeout name ms).trace = va.trace :=
  ⟨rfl, rfl, rfl, rfl, rfl, rfl, rfl, rfl, rfl, rfl, rfl, rfl,
    rfl, rfl, rfl, rfl, rfl, rfl, rfl, rfl, rfl, rfl, rfl, rfl,
    rfl, rfl, rfl, rfl⟩

/-- The members after cancelling a timeout. -/
theorem cancel_timeout_proj (va : VoiceAssistant) (name : Timeout) :
    (va.cancel_timeout name).USE_ESP_ADF = va.USE_ESP_ADF ∧
    (va.cancel_timeout name).USE_SPEAKER = va.USE_SPEAKER ∧
    (va.cancel_timeout name).USE_MEDIA_PLAYER = va.USE_MEDIA_PLAYER ∧
    (va.cancel_timeout name).LWIP_IPV6 = va.LWIP_IPV6 ∧
    (va.cancel_timeout name).speaker_ = va.speaker_ ∧
    (va.cancel_timeout name).media_player_ = va.media_player_ ∧
    (va.cancel_timeout name).use_wake_word_ = va.use_wake_word_ ∧
    (va.cancel_timeout name).local_output_ = va.local_output_ ∧
    (va.cancel_timeout name).vad_threshold_ = va.vad_threshold_ ∧
    (va.cancel_timeout name).noise_suppression_level_ = va.noise_suppression_level_ ∧
    (va.cancel_timeout name).auto_gain_ = va.auto_gain_ ∧
    (va.cancel_timeout name).volume_multiplier_ = va.volume_multiplier_ ∧
    (va.cancel_timeout name).state_ = va.state_ ∧
    (va.cancel_timeout name).desired_state_ = va.desired_state_ ∧
    (va.cancel_timeout name).continuous_ = va.continuous_ ∧
    (va.cancel_timeout name).silence_detection_ = va.silence_detection_ ∧
    (va.cancel_timeout name).wait_for_stream_end_ = va.wait_for_stream_end_ ∧
    (va.cancel_timeout name).conversation_id_ = va.conversation_id_ ∧
    (va.cancel_timeout name).vad_counter_ = va.vad_counter_ ∧
    (va.cancel_timeout name).input_buffer_ = va.input_buffer_ ∧
    (va.cancel_timeout name).send_buffer_ = va.send_buffer_ ∧
    (va.cancel_timeout name).ring_buffer_ = va.ring_buffer_ ∧
    (va.cancel_timeout name).speaker_buffer_ = va.speaker_buffer_ ∧
    (va.cancel_timeout name).speaker_buffer_index_ = va.speaker_buffer_index_ ∧
    (va.cancel_timeout name).speaker_buffer_size_ = va.speaker_buffer_size_ ∧
    (va.cancel_timeout name).dest_addr_ = va.dest_addr_ ∧
    (va.cancel_timeout name).timeouts = va.timeouts.filter (fun t => decide (t.1 ≠ name)) ∧
    (va.cancel_timeout name).trace = va.trace :=
  ⟨rfl, rfl, rfl, rfl, rfl, rfl, rfl, rfl, rfl, rfl, rfl, rfl,
    rfl, rfl, rfl, rfl, rfl, rfl, rfl, rfl, rfl, rfl, rfl, rfl,
    rfl, rfl, rfl, rfl⟩

/-- The members that `read_microphone_` leaves alone: all but the input buffer and the ring
buffer. -/
theorem read_microphone_proj (va : VoiceAssistant) (env : Env) :
    ((va.read_microphone_ env).1).USE_ESP_ADF = va.USE_ESP_ADF ∧
    ((va.read_microphone_ env).1).USE_SPEAKER = va.USE_SPEAKER ∧
    ((va.read_microphone_ env).1).USE_MEDIA_PLAYER = va.USE_MEDIA_PLAYER ∧
    ((va.read_microphone_ env).1).LWIP_IPV6 = va.LWIP_IPV6 ∧
    ((va.read_microphone_ env).1).speaker_ = va.speaker_ ∧
    ((va.read_microphone_ env).1).media_player_ = va.media_player_ ∧
    ((va.read_microphone_ env).1).use_wake_word_ = va.use_wake_word_ ∧
    ((va.read_microphone_ env).1).local_output_ = va.local_output_ ∧
    ((va.read_microphone_ env).1).vad_threshold_ = va.vad_threshold_ ∧
    ((va.read_microphone_ env).1).noise_suppression_level_ = va.noise_suppression_level_ ∧
    ((va.read_microphone_ env).1).auto_gain_ = va.auto_gain_ ∧
    ((va.read_microphone_ env).1).volume_multiplier_ = va.volume_multiplier_ ∧
    ((va.read_microphone_ env).1).state_ = va.state_ ∧
    ((va.read_microphone_ env).1).desired_state_ = va.desired_state_ ∧
    ((va.read_microphone_ env).1).continuous_ = va.continuous_ ∧
    ((va.read_microphone_ env).1).silence_detection_ = va.silence_detection_ ∧
    ((va.read_microphone_ env).1).wait_for_stream_end_ = va.wait_for_stream_end_ ∧
    ((va.read_microphone_ env).1).conversation_id_ = va.conversation_id_ ∧
    ((va.read_microphone_ env).1).vad_counter_ = va.vad_counter_ ∧
    ((va.read_microphone_ env).1).send_buffer_ = va.send_buffer_ ∧
    ((va.read_microphone_ env).1).speaker_buffer_ = va.speaker_buffer_ ∧
    ((va.read_microphone_ env).1).speaker_buffer_index_ = va.speaker_buffer_index_ ∧
    ((va.read_microphone_ env).1).speaker_buffer_size_ = va.speaker_buffer_size_ ∧
    ((va.read_microphone_ env).1).dest_addr_ = va.dest_addr_ ∧
    ((va.read_microphone_ env).1).timeouts = va.timeouts ∧
    ((va.read_microphone_ env).1).trace = va.trace := by
  have h := read_microphone_frame va env
  refine ⟨?_, ?_, ?_, ?_, ?_, ?_, ?_, ?_, ?_, ?_, ?_, ?_,
    ?_, ?_, ?_, ?_, ?_, ?_, ?_, ?_, ?_, ?_, ?_, ?_,
    ?_, ?_⟩ <;> rw [h]

/-! ### The VAD counter -/

theorem speaker_receive_vad (va : VoiceAssistant) (env : Env) :
    (va.speaker_receive env).vad_counter_ = va.vad_counter_ ∧
    (va.speaker_receive env).vad_threshold_ = va.vad_threshold_ := by
  simp only [VoiceAssistant.speaker_receive]
  split_ifs
  · split
    · simp only [and_self]
    · split_ifs <;> simp only [and_self]
  · simp only [and_self]

theorem speaker_play_vad (va : VoiceAssistant) (env : Env) :
    (va.speaker_play env).vad_counter_ = va.vad_counter_ ∧
    (va.speaker_play env).vad_threshold_ = va.vad_threshold_ := by
  simp only [VoiceAssistant.speaker_play]
  split_ifs <;> simp only [emit_proj, set_state_proj, set_state_desired_proj, signal_stop_proj,
      set_timeout_proj, cancel_timeout_proj, read_microphone_proj, and_self]

theorem loop_playing_vad (va : VoiceAssistant) (env : Env) (playing : Bool) :
    (va.loop_playing env playing).vad_counter_ = va.vad_counter_ ∧
    (va.loop_playing env playing).vad_threshold_ = va.vad_threshold_ := by
  simp only [VoiceAssistant.loop_playing]
  split_ifs <;> simp only [emit_proj, set_state_proj, set_state_desired_proj, signal_stop_proj,
      set_timeout_proj, cancel_timeout_proj, read_microphone_proj, and_self]

theorem start_vad (va : VoiceAssistant) :
    va.start_.vad_counter_ = va.vad_counter_ ∧ va.start_.vad_threshold_ = va.vad_threshold_ := by
  simp only [VoiceAssistant.start_]
  split_ifs <;> simp only [emit_proj, set_state_proj, set_state_desired_proj, signal_stop_proj,
      set_timeout_proj, cancel_timeout_proj, read_microphone_proj, and_self]

/-- No tick changes the threshold, and only a tick in WAITING_FOR_VAD changes the counter. -/
theorem loop_vad (va : VoiceAssistant) (env : Env) :
    (va.loop env).vad_threshold_ = va.vad_threshold_ ∧
    (va.state_ ≠ State.WAITING_FOR_VAD → (va.loop env).vad_counter_ = va.vad_counter_) := by
  unfold VoiceAssistant.loop
  split_ifs with hw
  · simp only [VoiceAssistant.watchdog]
    split_ifs <;> simp only [emit_proj, set_state_proj, set_state_desired_proj, signal_stop_proj,
      set_timeout_proj, cancel_timeout_proj, read_microphone_proj, implies_true, and_self]
  · split
    · simp only [VoiceAssistant.loop_IDLE]
      split_ifs
      · exact ⟨(start_vad va).2, fun _ => (start_vad va).1⟩
      · simp only [emit_proj, set_state_proj, set_state_desired_proj, signal_stop_proj,
      set_timeout_proj, cancel_timeout_proj, read_microphone_proj, implies_true, and_self]
    · simp only [VoiceAssistant.loop_START_MICROPHONE, emit_proj, set_state_proj,
        set_state_desired_proj, signal_stop_proj,
      set_timeout_proj, cancel_timeout_proj, read_microphone_proj, implies_true, and_self]
    · simp only [VoiceAssistant.loop_STARTING_MICROPHONE]
      split_ifs <;> simp only [emit_proj, set_state_proj, set_state_desired_proj, signal_stop_proj,
      set_timeout_proj, cancel_timeout_proj, read_microphone_proj, implies_true, and_self]
    · simp only [VoiceAssistant.loop_WAIT_FOR_VAD, emit_proj, set_state_proj,
        set_state_desired_proj, signal_stop_proj,
      set_timeout_proj, cancel_timeout_proj, read_microphone_proj, implies_true, and_self]
    · next h =>
      refine ⟨?_, fun hn => absurd h hn⟩
      simp only [VoiceAssistant.loop_WAITING_FOR_VAD]
      split_ifs <;> simp only [emit_proj, set_state_proj, set_state_desired_proj, signal_stop_proj,
      set_timeout_proj, cancel_timeout_proj, read_microphone_proj]
    · simp only [VoiceAssistant.loop_START_PIPELINE]
      split_ifs <;> simp only [emit_proj, set_state_proj, set_state_desired_proj, signal_stop_proj,
      set_timeout_proj, cancel_timeout_proj, read_microphone_proj, implies_true, and_self]
    · simp only [VoiceAssistant.loop_STARTING_PIPELINE, emit_proj, set_state_proj,
        set_state_desired_proj, signal_stop_proj,
      set_timeout_proj, cancel_timeout_proj, read_microphone_proj, implies_true, and_self]
    · simp only [VoiceAssistant.loop_STREAMING_MICROPHONE]
      split_ifs <;> simp only [emit_proj, set_state_proj, set_state_desired_proj, signal_stop_proj,
      set_timeout_proj, cancel_timeout_proj, read_microphone_proj, implies_true, and_self]
    · simp only [VoiceAssistant.loop_STOP_MICROPHONE]
      split_ifs <;> simp only [emit_proj, set_state_proj, set_state_desired_proj, signal_stop_proj,
      set_timeout_proj, cancel_timeout_proj, read_microphone_proj, implies_true, and_self]
    · simp only [VoiceAssistant.loop_STOPPING_MICROPHONE]
      split_ifs <;> simp only [emit_proj, set_state_proj, set_state_desired_proj, signal_stop_proj,
      set_timeout_proj, cancel_timeout_proj, read_microphone_proj, implies_true, and_self]
    · simp only [implies_true, and_self]
    · simp only [VoiceAssistant.loop_STREAMING_RESPONSE]
      split_ifs <;>
        simp only [emit_proj, set_state_proj, set_state_desired_proj, signal_stop_proj,
      set_timeout_proj, cancel_timeout_proj, read_microphone_proj, loop_playing_vad,
          speaker_play_vad, speaker_receive_vad, implies_true,
          and_self]
    · simp only [VoiceAssistant.loop_RESPONSE_FINISHED]
      split_ifs <;> simp only [emit_proj, set_state_proj, set_state_desired_proj, signal_stop_proj,
      set_timeout_proj, cancel_timeout_proj, read_microphone_proj, implies_true, and_self]

/-- The entry points other than `loop` change neither the counter nor the threshold. -/
theorem call_vad (va : VoiceAssistant) (c : Call)
    (h : ∀ e, c = Call.loop e → va.state_ ≠ State.WAITING_FOR_VAD) :
    (va.call c).vad_counter_ = va.vad_counter_ ∧
    (va.call c).vad_threshold_ = va.vad_threshold_ := by
  cases c with
  | loop env => exact ⟨(loop_vad va env).2 (h env rfl), (loop_vad va env).1⟩
  | request_start env continuous silence_detection =>
    simp only [VoiceAssistant.call, VoiceAssistant.request_start]
    split_ifs
    · simp only [emit_proj, set_state_proj, set_state_desired_proj, signal_stop_proj,
      set_timeout_proj, cancel_timeout_proj, read_microphone_proj, and_self]
    · exact start_vad _
    · simp only [and_self]
  | request_stop =>
    simp only [VoiceAssistant.call, VoiceAssistant.request_stop]
    split <;> simp only [emit_proj, set_state_proj, set_state_desired_proj, signal_stop_proj,
      set_timeout_proj, cancel_timeout_proj, read_microphone_proj, and_self]
  | start_streaming env addr port =>
    simp only [VoiceAssistant.call, VoiceAssistant.start_streaming]
    split_ifs <;> simp only [emit_proj, set_state_proj, set_state_desired_proj, signal_stop_proj,
      set_timeout_proj, cancel_timeout_proj, read_microphone_proj, and_self]
  | failed_to_start =>
    simp only [VoiceAssistant.call, VoiceAssistant.failed_to_start, emit_proj, set_state_proj,
        set_state_desired_proj, signal_stop_proj,
      set_timeout_proj, cancel_timeout_proj, read_microphone_proj, and_self]
  | on_event msg =>
    simp only [VoiceAssistant.call, VoiceAssistant.on_event]
    split <;> (try split_ifs) <;> simp only [emit_proj, set_state_proj, set_state_desired_proj,
        signal_stop_proj,
      set_timeout_proj, cancel_timeout_proj, read_microphone_proj, and_self]
  | fire_timeout name =>
    simp only [VoiceAssistant.call, VoiceAssistant.fire_timeout]
    split_ifs
    · cases name <;> simp only [VoiceAssistant.timeout_callback, emit_proj, set_state_proj,
        set_state_desired_proj, signal_stop_proj,
      set_timeout_proj, cancel_timeout_proj, read_microphone_proj, and_self]
    · simp only [and_self]

/-- The counter after one tick in WAITING_FOR_VAD with the connection up (ring-buffer build). -/
theorem loop_waiting_counter (va : VoiceAssistant) (env : Env)
    (hadf : va.USE_ESP_ADF = true) (hst : va.state_ = State.WAITING_FOR_VAD)
    (hc : env.is_connected = true) :
    (va.loop env).vad_counter_ =
      if 0 < (va.read_microphone_ env).2 then
        if env.vad_speech = true then
          if va.vad_counter_ < va.vad_threshold_ then va.vad_counter_ + 1 else 0
        else va.vad_counter_ - 1
      else va.vad_counter_ := by
  have hw : ¬ va.watchdog_cond env := by simp [VoiceAssistant.watchdog_cond, hc]
  simp only [VoiceAssistant.loop, hw, if_false, hst, VoiceAssistant.loop_WAITING_FOR_VAD, hadf,
    if_true, gt_iff_lt, emit_proj, set_state_proj, set_state_desired_proj, signal_stop_proj,
      set_timeout_proj, cancel_timeout_proj, read_microphone_proj]
  split_ifs <;>
    (simp only [emit_proj, set_state_proj, set_state_desired_proj, signal_stop_proj,
      set_timeout_proj, cancel_timeout_proj, read_microphone_proj]; try omega)

/-- One tick in WAITING_FOR_VAD that reads zero bytes. -/
theorem loop_waiting_no_bytes (va : VoiceAssistant) (env : Env)
    (hst : va.state_ = State.WAITING_FOR_VAD)
    (h0 : env.mic_is_running = false ∨ env.mic_read = []) :
    (va.loop env).vad_counter_ = va.vad_counter_ := by
  have hb : (va.read_microphone_ env).2 = 0 := by
    rw [read_microphone_bytes]
    rcases h0 with h | h
    · simp [h]
    · simp [h]
  unfold VoiceAssistant.loop
  split_ifs with hw
  · simp only [VoiceAssistant.watchdog]
    split_ifs <;> simp only [emit_proj, set_state_proj, set_state_desired_proj, signal_stop_proj,
      set_timeout_proj, cancel_timeout_proj, read_microphone_proj]
  · simp only [hst, VoiceAssistant.loop_WAITING_FOR_VAD, hb, gt_iff_lt, lt_self_iff_false,
      if_false, ite_self, emit_proj, set_state_proj, set_state_desired_proj, signal_stop_proj,
      set_timeout_proj, cancel_timeout_proj, read_microphone_proj]

/-- A tick in WAITING_FOR_VAD keeps the counter at or below the threshold. -/
theorem loop_waiting_le (va : VoiceAssistant) (env : Env)
    (hst : va.state_ = State.WAITING_FOR_VAD) (hinv : va.vad_counter_ ≤ va.vad_threshold_) :
    (va.loop env).vad_counter_ ≤ (va.loop env).vad_threshold_ := by
  rw [(loop_vad va env).1]
  unfold VoiceAssistant.loop
  split_ifs with hw
  · simp only [VoiceAssistant.watchdog]
    split_ifs <;> simp only [emit_proj, set_state_proj, set_state_desired_proj, signal_stop_proj,
      set_timeout_proj, cancel_timeout_proj, read_microphone_proj] <;> exact hinv
  · simp only [hst, VoiceAssistant.loop_WAITING_FOR_VAD, emit_proj, set_state_proj,
      set_state_desired_proj, signal_stop_proj,
      set_timeout_proj, cancel_timeout_proj, read_microphone_proj]
    split_ifs <;> simp only [emit_proj, set_state_proj, set_state_desired_proj, signal_stop_proj,
      set_timeout_proj, cancel_timeout_proj, read_microphone_proj] <;> omega

/-- C3 (VAD counter invariant): a tick in WAITING_FOR_VAD that starts with
`vad_counter_ ≤ vad_threshold_` ends with it; in the ring-buffer build, a speech frame with the
counter below the threshold adds exactly 1, a silence frame subtracts exactly 1 from a positive
counter and leaves a zero counter at 0; a tick that reads zero bytes leaves the counter
unchanged; and no other call into the controller (a tick in another state, request_start,
request_stop, start_streaming, failed_to_start, on_event, a timeout firing) changes the counter,
nor does any call change the threshold. -/
theorem vad_counter_invariant (va : VoiceAssistant) (env : Env)
    (hst : va.state_ = State.WAITING_FOR_VAD) (hinv : va.vad_counter_ ≤ va.vad_threshold_) :
    (va.loop env).vad_counter_ ≤ (va.loop env).vad_threshold_ ∧
    (va.USE_ESP_ADF = true → env.speech_frame → va.vad_counter_ < va.vad_threshold_ →
      (va.loop env).vad_counter_ = va.vad_counter_ + 1) ∧
    (va.USE_ESP_ADF = true → env.silence_frame →
      (0 < va.vad_counter_ → (va.loop env).vad_counter_ + 1 = va.vad_counter_) ∧
      (va.vad_counter_ = 0 → (va.loop env).vad_counter_ = 0)) ∧
    (env.mic_is_running = false ∨ env.mic_read = [] →
      (va.loop env).vad_counter_ = va.vad_counter_) ∧
    (∀ (vb : VoiceAssistant) (c : Call),
      (∀ e, c = Call.loop e → vb.state_ ≠ State.WAITING_FOR_VAD) →
        (vb.call c).vad_counter_ = vb.vad_counter_) ∧
    (∀ (vb : VoiceAssistant) (c : Call), (vb.call c).vad_threshold_ = vb.vad_threshold_) := by
  refine ⟨loop_waiting_le va env hst hinv, ?_, ?_, loop_waiting_no_bytes va env hst, ?_, ?_⟩
  · intro hadf hsp hlt
    have hb : 0 < (va.read_microphone_ env).2 := by
      rw [read_microphone_bytes, if_pos hsp.2.1]
      exact List.length_pos.mpr hsp.2.2.1
    rw [loop_waiting_counter va env hadf hst hsp.1, if_pos hb, if_pos hsp.2.2.2, if_pos hlt]
  · intro hadf hsp
    have hb : 0 < (va.read_microphone_ env).2 := by
      rw [read_microphone_bytes, if_pos hsp.2.1]
      exact List.length_pos.mpr hsp.2.2.1
    have hv : ¬ env.vad_speech = true := by simp [hsp.2.2.2]
    rw [loop_waiting_counter va env hadf hst hsp.1, if_pos hb, if_neg hv]
    exact ⟨fun h => by omega, fun h => by omega⟩
  · intro vb c h
    exact (call_vad vb c h).1
  · intro vb c
    cases c with
    | loop e => exact (loop_vad vb e).1
    | request_start e a b => exact (call_vad vb _ (fun _ h => by cases h)).2
    | request_stop => exact (call_vad vb _ (fun _ h => by cases h)).2
    | start_streaming e a p => exact (call_vad vb _ (fun _ h => by cases h)).2
    | failed_to_start => exact (call_vad vb _ (fun _ h => by cases h)).2
    | on_event m => exact (call_vad vb _ (fun _ h => by cases h)).2
    | fire_timeout n => exact (call_vad vb _ (fun _ h => by cases h)).2

/-- C3 at a concrete input: counter 2 of 5, one speech tick. -/
theorem vad_counter_invariant_witness :
    (({ VoiceAssistant.after_setup with
        state_ := State.WAITING_FOR_VAD, vad_counter_ := 2 }).loop
      { Env.quiet with vad_speech := true }).vad_counter_ = 2 + 1 :=
  (vad_counter_invariant
    { VoiceAssistant.after_setup with state_ := State.WAITING_FOR_VAD, vad_counter_ := 2 }
    { Env.quiet with vad_speech := true } rfl (by decide)).2.1 rfl
    ⟨rfl, rfl, by decide, rfl⟩ (by decide)

/-- The members that the receive step leaves alone: all but the speaker buffer and its cursors. -/
theorem speaker_receive_proj (va : VoiceAssistant) (env : Env) :
    (va.speaker_receive env).USE_ESP_ADF = va.USE_ESP_ADF ∧
    (va.speaker_receive env).USE_SPEAKER = va.USE_SPEAKER ∧
    (va.speaker_receive env).USE_MEDIA_PLAYER = va.USE_MEDIA_PLAYER ∧
    (va.speaker_receive env).LWIP_IPV6 = va.LWIP_IPV6 ∧
    (va.speaker_receive env).speaker_ = va.speaker_ ∧
    (va.speaker_receive env).media_player_ = va.media_player_ ∧
    (va.speaker_receive env).use_wake_word_ = va.use_wake_word_ ∧
    (va.speaker_receive env).local_output_ = va.local_output_ ∧
    (va.speaker_receive env).vad_threshold_ = va.vad_threshold_ ∧
    (va.speaker_receive env).noise_suppression_level_ = va.noise_suppression_level_ ∧
    (va.speaker_receive env).auto_gain_ = va.auto_gain_ ∧
    (va.speaker_receive env).volume_multiplier_ = va.volume_multiplier_ ∧
    (va.speaker_receive env).state_ = va.state_ ∧
    (va.speaker_receive env).desired_state_ = va.desired_state_ ∧
    (va.speaker_receive env).continuous_ = va.continuous_ ∧
    (va.speaker_receive env).silence_detection_ = va.silence_detection_ ∧
    (va.speaker_receive env).wait_for_stream_end_ = va.wait_for_stream_end_ ∧
    (va.speaker_receive env).conversation_id_ = va.conversation_id_ ∧
    (va.speaker_receive env).vad_counter_ = va.vad_counter_ ∧
    (va.speaker_receive env).input_buffer_ = va.input_buffer_ ∧
    (va.speaker_receive env).send_buffer_ = va.send_buffer_ ∧
    (va.speaker_receive env).ring_buffer_ = va.ring_buffer_ ∧
    (va.speaker_receive env).dest_addr_ = va.dest_addr_ ∧
    (va.speaker_receive env).timeouts = va.timeouts ∧
    (va.speaker_receive env).trace = va.trace := by
  simp only [VoiceAssistant.speaker_receive]
  split_ifs
  · split
    · simp only [and_self]
    · split_ifs <;> simp only [and_self]
  · simp only [and_self]

/-- The members that the play step leaves alone: all but the speaker buffer, its cursors, the
timeouts and the trace. -/
theorem speaker_play_proj (va : VoiceAssistant) (env : Env) :
    (va.speaker_play env).USE_ESP_ADF = va.USE_ESP_ADF ∧
    (va.speaker_play env).USE_SPEAKER = va.USE_SPEAKER ∧
    (va.speaker_play env).USE_MEDIA_PLAYER = va.USE_MEDIA_PLAYER ∧
    (va.speaker_play env).LWIP_IPV6 = va.LWIP_IPV6 ∧
    (va.speaker_play env).speaker_ = va.speaker_ ∧
    (va.speaker_play env).media_player_ = va.media_player_ ∧
    (va.speaker_play env).use_wake_word_ = va.use_wake_word_ ∧
    (va.speaker_play env).local_output_ = va.local_output_ ∧
    (va.speaker_play env).vad_threshold_ = va.vad_threshold_ ∧
    (va.speaker_play env).noise_suppression_level_ = va.noise_suppression_level_ ∧
    (va.speaker_play env).auto_gain_ = va.auto_gain_ ∧
    (va.speaker_play env).volume_multiplier_ = va.volume_multiplier_ ∧
    (va.speaker_play env).state_ = va.state_ ∧
    (va.speaker_play env).desired_state_ = va.desired_state_ ∧
    (va.speaker_play env).continuous_ = va.continuous_ ∧
    (va.speaker_play env).silence_detection_ = va.silence_detection_ ∧
    (va.speaker_play env).wait_for_stream_end_ = va.wait_for_stream_end_ ∧
    (va.speaker_play env).conversation_id_ = va.conversation_id_ ∧
    (va.speaker_play env).vad_counter_ = va.vad_counter_ ∧
    (va.speaker_play env).input_buffer_ = va.input_buffer_ ∧
    (va.speaker_play env).send_buffer_ = va.send_buffer_ ∧
    (va.speaker_play env).ring_buffer_ = va.ring_buffer_ ∧
    (va.speaker_play env).dest_addr_ = va.dest_addr_ := by
  simp only [VoiceAssistant.speaker_play]
  split_ifs <;> simp only [emit_proj, set_state_proj, set_state_desired_proj, signal_stop_proj,
      set_timeout_proj, cancel_timeout_proj, read_microphone_proj, and_self]

/-- The members that the end of case STREAMING_RESPONSE leaves alone: all but the timeouts. -/
theorem loop_playing_proj (va : VoiceAssistant) (env : Env) (playing : Bool) :
    (va.loop_playing env playing).USE_ESP_ADF = va.USE_ESP_ADF ∧
    (va.loop_playing env playing).USE_SPEAKER = va.USE_SPEAKER ∧
    (va.loop_playing env playing).USE_MEDIA_PLAYER = va.USE_MEDIA_PLAYER ∧
    (va.loop_playing env playing).LWIP_IPV6 = va.LWIP_IPV6 ∧
    (va.loop_playing env playing).speaker_ = va.speaker_ ∧
    (va.loop_playing env playing).media_player_ = va.media_player_ ∧
    (va.loop_playing env playing).use_wake_word_ = va.use_wake_word_ ∧
    (va.loop_playing env playing).local_output_ = va.local_output_ ∧
    (va.loop_playing env playing).vad_threshold_ = va.vad_threshold_ ∧
    (va.loop_playing env playing).noise_suppression_level_ = va.noise_suppression_level_ ∧
    (va.loop_playing env playing).auto_gain_ = va.auto_gain_ ∧
    (va.loop_playing env playing).volume_multiplier_ = va.volume_multiplier_ ∧
    (va.loop_playing env playing).state_ = va.state_ ∧
    (va.loop_playing env playing).desired_state_ = va.desired_state_ ∧
    (va.loop_playing env playing).continuous_ = va.continuous_ ∧
    (va.loop_playing env playing).silence_detection_ = va.silence_detection_ ∧
    (va.loop_playing env playing).wait_for_stream_end_ = va.wait_for_stream_end_ ∧
    (va.loop_playing env playing).conversation_id_ = va.conversation_id_ ∧
    (va.loop_playing env playing).vad_counter_ = va.vad_counter_ ∧
    (va.loop_playing env playing).input_buffer_ = va.input_buffer_ ∧
    (va.loop_playing env playing).send_buffer_ = va.send_buffer_ ∧
    (va.loop_playing env playing).ring_buffer_ = va.ring_buffer_ ∧
    (va.loop_playing env playing).speaker_buffer_ = va.speaker_buffer_ ∧
    (va.loop_playing env playing).speaker_buffer_index_ = va.speaker_buffer_index_ ∧
    (va.loop_playing env playing).speaker_buffer_size_ = va.speaker_buffer_size_ ∧
    (va.loop_playing env playing).dest_addr_ = va.dest_addr_ ∧
    (va.loop_playing env playing).trace = va.trace := by
  simp only [VoiceAssistant.loop_playing]
  split_ifs <;> simp only [emit_proj, set_state_proj, set_state_desired_proj, signal_stop_proj,
      set_timeout_proj, cancel_timeout_proj, read_microphone_proj, and_self]

/-- The members that the start transition leaves alone: all but the state, the desired state and
the ring buffer. -/
theorem start_proj (va : VoiceAssistant) :
    (va.start_).USE_ESP_ADF = va.USE_ESP_ADF ∧
    (va.start_).USE_SPEAKER = va.USE_SPEAKER ∧
    (va.start_).USE_MEDIA_PLAYER = va.USE_MEDIA_PLAYER ∧
    (va.start_).LWIP_IPV6 = va.LWIP_IPV6 ∧
    (va.start_).speaker_ = va.speaker_ ∧
    (va.start_).media_player_ = va.media_player_ ∧
    (va.start_).use_wake_word_ = va.use_wake_word_ ∧
    (va.start_).local_output_ = va.local_output_ ∧
    (va.start_).vad_threshold_ = va.vad_threshold_ ∧
    (va.start_).noise_suppression_level_ = va.noise_suppression_level_ ∧
    (va.start_).auto_gain_ = va.auto_gain_ ∧
    (va.start_).volume_multiplier_ = va.volume_multiplier_ ∧
    (va.start_).continuous_ = va.continuous_ ∧
    (va.start_).silence_detection_ = va.silence_detection_ ∧
    (va.start_).wait_for_stream_end_ = va.wait_for_stream_end_ ∧
    (va.start_).conversation_id_ = va.conversation_id_ ∧
    (va.start_).vad_counter_ = va.vad_counter_ ∧
    (va.start_).input_buffer_ = va.input_buffer_ ∧
    (va.start_).send_buffer_ = va.send_buffer_ ∧
    (va.start_).speaker_buffer_ = va.speaker_buffer_ ∧
    (va.start_).speaker_buffer_index_ = va.speaker_buffer_index_ ∧
    (va.start_).speaker_buffer_size_ = va.speaker_buffer_size_ ∧
    (va.start_).dest_addr_ = va.dest_addr_ ∧
    (va.start_).timeouts = va.timeouts ∧
    (va.start_).trace = va.trace := by
  simp only [VoiceAssistant.start_]
  split_ifs <;> simp only [emit_proj, set_state_proj, set_state_desired_proj, signal_stop_proj,
      set_timeout_proj, cancel_timeout_proj, read_microphone_proj, and_self]

/-! ### The speaker buffer -/

theorem size_t_add_eq (a b : Nat) (h : a + b < SIZE_T_MOD) : size_t_add a b = a + b :=
  Nat.mod_eq_of_lt h

theorem size_t_sub_eq (a b : Nat) (hba : b ≤ a) (ha : a < SIZE_T_MOD) :
    size_t_sub a b = a - b := by
  unfold size_t_sub
  have hb : b % SIZE_T_MOD = b := Nat.mod_eq_of_lt (lt_of_le_of_lt hba ha)
  rw [hb]
  have : a + SIZE_T_MOD - b = (a - b) + SIZE_T_MOD := by omega
  rw [this, Nat.add_mod_right]
  exact Nat.mod_eq_of_lt (lt_of_le_of_lt (Nat.sub_le a b) ha)

theorem SPEAKER_BUFFER_SIZE_eq : SPEAKER_BUFFER_SIZE = 16384 := by decide

theorem RECEIVE_SIZE_eq : RECEIVE_SIZE = 1024 := rfl

theorem SIZE_T_MOD_eq : SIZE_T_MOD = 4294967296 := by decide

theorem write_at_length (buf : List Nat) (off : Nat) (data : List Nat)
    (h : off + data.length ≤ buf.length) : (write_at buf off data).length = buf.length := by
  simp only [write_at, List.length_append, List.length_take, List.length_drop]
  omega

theorem memmove_front_length (buf : List Nat) (src n : Nat) (h : src + n ≤ buf.length) :
    (memmove_front buf src n).length = buf.length := by
  simp only [memmove_front, List.length_append, List.length_take, List.length_drop]
  omega

theorem memmove_front_take (buf : List Nat) (src n : Nat) (h : src + n ≤ buf.length) :
    (memmove_front buf src n).take n = (buf.drop src).take n := by
  have hl : ((buf.drop src).take n).length = n := by
    simp only [List.length_take, List.length_drop]; omega
  simp only [memmove_front]
  rw [List.take_append_of_le_length (by omega)]
  rw [List.take_of_length_le (by omega)]

/-- The receive step does nothing when the guard fails or the read fails. -/
theorem speaker_receive_skip (va : VoiceAssistant) (env : Env)
    (h : ¬ size_t_add va.speaker_buffer_index_ RECEIVE_SIZE < SPEAKER_BUFFER_SIZE ∨
      env.socket_read = none) :
    va.speaker_receive env = va := by
  rcases h with h | h
  · simp only [VoiceAssistant.speaker_receive, h, if_false]
  · simp only [VoiceAssistant.speaker_receive, h, ite_self]

/-- The receive step when the guard holds and the read delivers `bytes`. -/
theorem speaker_receive_some (va : VoiceAssistant) (env : Env) (bytes : List Nat)
    (hg : size_t_add va.speaker_buffer_index_ RECEIVE_SIZE < SPEAKER_BUFFER_SIZE)
    (hs : env.socket_read = some bytes) :
    (va.speaker_receive env).speaker_buffer_ =
      write_at va.speaker_buffer_ va.speaker_buffer_index_ bytes ∧
    (va.speaker_receive env).speaker_buffer_index_ =
      (if bytes.length > 0 then size_t_add va.speaker_buffer_index_ bytes.length
        else va.speaker_buffer_index_) ∧
    (va.speaker_receive env).speaker_buffer_size_ =
      (if bytes.length > 0 then size_t_add va.speaker_buffer_size_ bytes.length
        else va.speaker_buffer_size_) := by
  simp only [VoiceAssistant.speaker_receive, hg, if_true, hs]
  split_ifs <;> simp only [and_self]

/-- The receive step, under the invariant and a read of at most RECEIVE_SIZE bytes. -/
theorem speaker_receive_spec (va : VoiceAssistant) (env : Env)
    (hsock : ∀ bytes, env.socket_read = some bytes → bytes.length ≤ RECEIVE_SIZE)
    (hinv : va.speaker_inv) :
    ∃ len : Nat, len ≤ RECEIVE_SIZE ∧
      va.speaker_buffer_index_ + len ≤ SPEAKER_BUFFER_SIZE ∧
      (va.speaker_receive env).speaker_buffer_size_ = va.speaker_buffer_size_ + len ∧
      (va.speaker_receive env).speaker_buffer_index_ = va.speaker_buffer_index_ + len ∧
      (va.speaker_buffer_.length = SPEAKER_BUFFER_SIZE →
        (va.speaker_receive env).speaker_buffer_.length = SPEAKER_BUFFER_SIZE) := by
  obtain ⟨h1, h2⟩ := hinv
  by_cases hg : size_t_add va.speaker_buffer_index_ RECEIVE_SIZE < SPEAKER_BUFFER_SIZE
  · cases hs : env.socket_read with
    | none =>
      rw [speaker_receive_skip va env (Or.inr hs)]
      exact ⟨0, by omega, by omega, rfl, rfl, fun h => h⟩
    | some bytes =>
      have hb := hsock bytes hs
      obtain ⟨e1, e2, e3⟩ := speaker_receive_some va env bytes hg hs
      rw [e1, e2, e3]
      have hnw : va.speaker_buffer_index_ + RECEIVE_SIZE < SIZE_T_MOD := by
        rw [RECEIVE_SIZE_eq, SIZE_T_MOD_eq]
        rw [SPEAKER_BUFFER_SIZE_eq] at h2
        omega
      rw [size_t_add_eq _ _ hnw] at hg
      rw [RECEIVE_SIZE_eq] at hb hg
      rw [SPEAKER_BUFFER_SIZE_eq] at hg h2 ⊢
      have a1 : size_t_add va.speaker_buffer_index_ bytes.length =
          va.speaker_buffer_index_ + bytes.length := by
        apply size_t_add_eq; rw [SIZE_T_MOD_eq]; omega
      have a2 : size_t_add va.speaker_buffer_size_ bytes.length =
          va.speaker_buffer_size_ + bytes.length := by
        apply size_t_add_eq; rw [SIZE_T_MOD_eq]; omega
      refine ⟨bytes.length, by rw [RECEIVE_SIZE_eq]; exact hb, by omega, ?_, ?_, ?_⟩
      · split_ifs <;> omega
      · split_ifs <;> omega
      · intro hl
        rw [write_at_length _ _ _ (by omega)]
        exact hl
  · rw [speaker_receive_skip va env (Or.inl hg)]
    exact ⟨0, by omega, by omega, rfl, rfl, fun h => h⟩

/-- The play and compact step when the sink is offered `size > 0` bytes and consumes `w > 0`. -/
theorem speaker_play_consumed (va : VoiceAssistant) (env : Env)
    (hs : 0 < va.speaker_buffer_size_) (hw : 0 < env.speaker_play) :
    (va.speaker_play env).speaker_buffer_ =
      memmove_front va.speaker_buffer_ env.speaker_play
        (size_t_sub va.speaker_buffer_size_ env.speaker_play) ∧
    (va.speaker_play env).speaker_buffer_size_ =
      size_t_sub va.speaker_buffer_size_ env.speaker_play ∧
    (va.speaker_play env).speaker_buffer_index_ =
      size_t_sub va.speaker_buffer_index_ env.speaker_play := by
  simp only [VoiceAssistant.speaker_play, gt_iff_lt, hs, hw, if_true, emit_proj,
    set_timeout_proj, and_self]

/-- The play and compact step when nothing is offered or nothing is consumed. -/
theorem speaker_play_idle (va : VoiceAssistant) (env : Env)
    (h : va.speaker_buffer_size_ = 0 ∨ env.speaker_play = 0) :
    (va.speaker_play env).speaker_buffer_ = va.speaker_buffer_ ∧
    (va.speaker_play env).speaker_buffer_size_ = va.speaker_buffer_size_ ∧
    (va.speaker_play env).speaker_buffer_index_ = va.speaker_buffer_index_ := by
  simp only [VoiceAssistant.speaker_play]
  rcases h with h | h
  · simp only [h, gt_iff_lt, lt_self_iff_false, if_false, and_self]
  · simp only [h, gt_iff_lt, lt_self_iff_false, if_false]
    split_ifs <;> simp only [emit_proj, and_self]

/-- The play and compact step, under the invariant and `written ≤ size`. -/
theorem speaker_play_spec (va : VoiceAssistant) (env : Env)
    (hplay : 0 < va.speaker_buffer_size_ → env.speaker_play ≤ va.speaker_buffer_size_)
    (hinv : va.speaker_inv) :
    (va.speaker_play env).speaker_inv ∧
    (va.speaker_buffer_.length = SPEAKER_BUFFER_SIZE →
      (va.speaker_play env).speaker_buffer_.length = SPEAKER_BUFFER_SIZE) ∧
    (0 < va.speaker_buffer_size_ → 0 < env.speaker_play →
      (va.speaker_play env).speaker_buffer_size_ =
        va.speaker_buffer_size_ - env.speaker_play ∧
      (va.speaker_play env).speaker_buffer_index_ =
        va.speaker_buffer_index_ - env.speaker_play ∧
      (va.speaker_buffer_.length = SPEAKER_BUFFER_SIZE →
        (va.speaker_play env).speaker_buffer_.take
            (va.speaker_buffer_size_ - env.speaker_play) =
          (va.speaker_buffer_.drop env.speaker_play).take
            (va.speaker_buffer_size_ - env.speaker_play))) := by
  obtain ⟨h1, h2⟩ := hinv
  by_cases hc : 0 < va.speaker_buffer_size_ ∧ 0 < env.speaker_play
  · obtain ⟨hs, hw⟩ := hc
    have hle := hplay hs
    obtain ⟨e1, e2, e3⟩ := speaker_play_consumed va env hs hw
    have hM : va.speaker_buffer_index_ < SIZE_T_MOD := by
      rw [SIZE_T_MOD_eq]; rw [SPEAKER_BUFFER_SIZE_eq] at h2; omega
    have s1 := size_t_sub_eq va.speaker_buffer_size_ env.speaker_play hle (by omega)
    have s2 := size_t_sub_eq va.speaker_buffer_index_ env.speaker_play (by omega) hM
    rw [s1] at e1 e2
    rw [s2] at e3
    refine ⟨⟨by rw [e2, e3]; omega, by rw [e3]; omega⟩, ?_, fun _ _ => ⟨e2, e3, ?_⟩⟩
    · intro hl
      rw [e1, memmove_front_length _ _ _ (by omega)]
      exact hl
    · intro hl
      rw [e1, memmove_front_take _ _ _ (by omega)]
  · have hc2 : va.speaker_buffer_size_ = 0 ∨ env.speaker_play = 0 := by omega
    obtain ⟨e1, e2, e3⟩ := speaker_play_idle va env hc2
    refine ⟨⟨by rw [e2, e3]; exact h1, by rw [e3]; exact h2⟩, ?_, ?_⟩
    · intro hl; rw [e1]; exact hl
    · intro hs hw; omega

/-- The speaker buffer and its cursors after a STREAMING_RESPONSE tick, speaker present. -/
theorem loop_streaming_response_speaker (va : VoiceAssistant) (env : Env)
    (hst : va.state_ = State.STREAMING_RESPONSE) (husp : va.USE_SPEAKER = true)
    (hsp : va.speaker_ = true) :
    (env.is_connected = true →
      (va.loop env).speaker_buffer_ = ((va.speaker_receive env).speaker_play env).speaker_buffer_ ∧
      (va.loop env).speaker_buffer_size_ =
        ((va.speaker_receive env).speaker_play env).speaker_buffer_size_ ∧
      (va.loop env).speaker_buffer_index_ =
        ((va.speaker_receive env).speaker_play env).speaker_buffer_index_) ∧
    (env.is_connected = false →
      (va.loop env).speaker_buffer_ = va.speaker_buffer_ ∧
      (va.loop env).speaker_buffer_size_ = va.speaker_buffer_size_ ∧
      (va.loop env).speaker_buffer_index_ = va.speaker_buffer_index_) := by
  constructor
  · intro hc
    have hw : ¬ va.watchdog_cond env := by simp [VoiceAssistant.watchdog_cond, hc]
    simp only [VoiceAssistant.loop, hw, if_false, hst, VoiceAssistant.loop_STREAMING_RESPONSE,
      husp, hsp, and_self, if_true]
    split_ifs <;> simp only [cancel_timeout_proj, loop_playing_proj, and_self]
  · intro hc
    have hw : va.watchdog_cond env := by simp [VoiceAssistant.watchdog_cond, hc, hst]
    simp only [VoiceAssistant.loop, hw, if_true, VoiceAssistant.watchdog]
    split_ifs <;> simp only [signal_stop_proj, set_state_desired_proj, and_self]

/-- C4 (speaker buffer invariant): for a tick in STREAMING_RESPONSE with a speaker present, a
buffer of SPEAKER_BUFFER_SIZE bytes, a socket read of at most RECEIVE_SIZE bytes and a sink that
reports `written ≤ size offered`: `size ≤ index ≤ SPEAKER_BUFFER_SIZE` is preserved and the buffer
keeps its length (nothing is stored past its end); the receive step changes nothing unless
`index + RECEIVE_SIZE < SPEAKER_BUFFER_SIZE`, and when it stores the bytes read it stores them at
`index`, ending inside the buffer; and when the sink consumes `w > 0` bytes, the tick ends with
`size - w` and `index - w` (of the values after the receive step) and with the bytes that
followed the first `w` at offset 0, in order. -/
theorem speaker_buffer_invariant (va : VoiceAssistant) (env : Env)
    (hst : va.state_ = State.STREAMING_RESPONSE) (husp : va.USE_SPEAKER = true)
    (hsp : va.speaker_ = true)
    (hsock : ∀ bytes, env.socket_read = some bytes → bytes.length ≤ RECEIVE_SIZE)
    (hplay : 0 < (va.speaker_receive env).speaker_buffer_size_ →
      env.speaker_play ≤ (va.speaker_receive env).speaker_buffer_size_)
    (hlen : va.speaker_buffer_.length = SPEAKER_BUFFER_SIZE)
    (hinv : va.speaker_inv) :
    (va.loop env).speaker_inv ∧
    (va.loop env).speaker_buffer_.length = SPEAKER_BUFFER_SIZE ∧
    (¬ va.speaker_buffer_index_ + RECEIVE_SIZE < SPEAKER_BUFFER_SIZE →
      va.speaker_receive env = va) ∧
    (∀ bytes, va.speaker_buffer_index_ + RECEIVE_SIZE < SPEAKER_BUFFER_SIZE →
      env.socket_read = some bytes →
        (va.speaker_receive env).speaker_buffer_ =
          va.speaker_buffer_.take va.speaker_buffer_index_ ++ bytes ++
            va.speaker_buffer_.drop (va.speaker_buffer_index_ + bytes.length) ∧
        va.speaker_buffer_index_ + bytes.length ≤ SPEAKER_BUFFER_SIZE) ∧
    (env.is_connected = true → 0 < (va.speaker_receive env).speaker_buffer_size_ →
      0 < env.speaker_play →
        (va.loop env).speaker_buffer_size_ =
          (va.speaker_receive env).speaker_buffer_size_ - env.speaker_play ∧
        (va.loop env).speaker_buffer_index_ =
          (va.speaker_receive env).speaker_buffer_index_ - env.speaker_play ∧
        (va.loop env).speaker_buffer_.take
            ((va.speaker_receive env).speaker_buffer_size_ - env.speaker_play) =
          ((va.speaker_receive env).speaker_buffer_.drop env.speaker_play).take
            ((va.speaker_receive env).speaker_buffer_size_ - env.speaker_play)) := by
  obtain ⟨len, hlen1, hlen2, r1, r2, r3⟩ := speaker_receive_spec va env hsock hinv
  have hinv1 : (va.speaker_receive env).speaker_inv := by
    refine ⟨?_, ?_⟩
    · rw [r1, r2]; have := hinv.1; omega
    · rw [r2]; exact hlen2
  obtain ⟨p1, p2, p3⟩ := speaker_play_spec (va.speaker_receive env) env hplay hinv1
  obtain ⟨hconn, hdis⟩ := loop_streaming_response_speaker va env hst husp hsp
  have hnowrap : size_t_add va.speaker_buffer_index_ RECEIVE_SIZE =
      va.speaker_buffer_index_ + RECEIVE_SIZE := by
    apply size_t_add_eq
    have := hinv.2
    rw [SPEAKER_BUFFER_SIZE_eq] at this
    rw [RECEIVE_SIZE_eq, SIZE_T_MOD_eq]; omega
  refine ⟨?_, ?_, ?_, ?_, ?_⟩
  · cases hc : env.is_connected with
    | true =>
      obtain ⟨-, e2, e3⟩ := hconn hc
      exact ⟨by rw [e2, e3]; exact p1.1, by rw [e3]; exact p1.2⟩
    | false =>
      obtain ⟨-, e2, e3⟩ := hdis hc
      exact ⟨by rw [e2, e3]; exact hinv.1, by rw [e3]; exact hinv.2⟩
  · cases hc : env.is_connected with
    | true => rw [(hconn hc).1]; exact p2 (r3 hlen)
    | false => rw [(hdis hc).1]; exact hlen
  · intro hg
    exact speaker_receive_skip va env (Or.inl (by rw [hnowrap]; exact hg))
  · intro bytes hg hs
    have hb := hsock bytes hs
    refine ⟨(speaker_receive_some va env bytes (by rw [hnowrap]; exact hg) hs).1, ?_⟩
    omega
  · intro hc hs hw
    obtain ⟨e1, e2, e3⟩ := hconn hc
    obtain ⟨q1, q2, q3⟩ := p3 hs hw
    rw [e1, e2, e3]
    exact ⟨q1, q2, q3 (r3 hlen)⟩

/-- C4 at a concrete input: an empty buffer, three bytes received, two consumed. -/
theorem speaker_buffer_invariant_witness :
    (VoiceAssistant.sample_streaming_response.loop Env.sample_receive).speaker_inv ∧
    (VoiceAssistant.sample_streaming_response.loop Env.sample_receive).speaker_buffer_size_ =
      (VoiceAssistant.sample_streaming_response.speaker_receive
        Env.sample_receive).speaker_buffer_size_ - 2 :=
  have h := speaker_buffer_invariant VoiceAssistant.sample_streaming_response Env.sample_receive
    rfl rfl rfl
    (by intro bytes hb
        have : bytes = [7, 8, 9] := by
          simpa [Env.sample_receive, Env.quiet] using hb.symm
        subst this; decide)
    (fun _ => by decide)
    (by simp [VoiceAssistant.sample_streaming_response, VoiceAssistant.after_setup])
    ⟨by decide, by decide⟩
  ⟨h.1, (h.2.2.2.2 rfl (by decide) (by decide)).1⟩

/-! ### The ring buffer -/

theorem write_at_zero_take (buf data : List Nat) :
    (write_at buf 0 data).take data.length = data := by
  simp [write_at]

/-- The ring buffer after a successful read in the ring-buffer build. -/
theorem read_microphone_ring (va : VoiceAssistant) (env : Env)
    (hadf : va.USE_ESP_ADF = true) (hrun : env.mic_is_running = true)
    (hn : env.mic_read ≠ []) :
    (va.read_microphone_ env).1.ring_buffer_ =
      rb_write
        (if rb_bytes_available va.ring_buffer_ < env.mic_read.length then
          (rb_read va.ring_buffer_
            (env.mic_read.length - rb_bytes_available va.ring_buffer_)).1
        else va.ring_buffer_)
        env.mic_read := by
  have h0 : ¬ env.mic_read.length = 0 := by
    intro h; exact hn (List.length_eq_zero.mp h)
  simp only [VoiceAssistant.read_microphone_, hrun, if_true, h0, if_false, hadf,
    write_at_zero_take]

/-- C5 (drop-oldest policy of `read_microphone_`, ring-buffer build): for a successful read of
`n > 0` bytes, `n` at most the ring capacity, into a ring with `a` free bytes:
`read_microphone_` returns `n`; if `a < n` the new content is the old content without its
`n - a` oldest bytes, followed by the frame; if `n ≤ a` it is the whole old content followed by
the frame; in both cases the new content is a suffix of (old content ++ frame) of length
`min (old occupancy + n) capacity`, so the occupancy stays within the unchanged capacity. -/
theorem ring_buffer_drop_oldest (va : VoiceAssistant) (env : Env)
    (hadf : va.USE_ESP_ADF = true) (hrun : env.mic_is_running = true)
    (hn : env.mic_read ≠ []) (hcap : env.mic_read.length ≤ va.ring_buffer_.size)
    (hfill : va.ring_buffer_.data.length ≤ va.ring_buffer_.size) :
    (va.read_microphone_ env).2 = env.mic_read.length ∧
    (rb_bytes_available va.ring_buffer_ < env.mic_read.length →
      (va.read_microphone_ env).1.ring_buffer_.data =
        va.ring_buffer_.data.drop (env.mic_read.length - rb_bytes_available va.ring_buffer_)
          ++ env.mic_read) ∧
    (env.mic_read.length ≤ rb_bytes_available va.ring_buffer_ →
      (va.read_microphone_ env).1.ring_buffer_.data = va.ring_buffer_.data ++ env.mic_read) ∧
    (va.read_microphone_ env).1.ring_buffer_.data <:+ va.ring_buffer_.data ++ env.mic_read ∧
    (va.read_microphone_ env).1.ring_buffer_.data.length =
      min (va.ring_buffer_.data.length + env.mic_read.length) va.ring_buffer_.size ∧
    (va.read_microphone_ env).1.ring_buffer_.size = va.ring_buffer_.size ∧
    rb_bytes_filled (va.read_microphone_ env).1.ring_buffer_ ≤
      (va.read_microphone_ env).1.ring_buffer_.size := by
  have hring := read_microphone_ring va env hadf hrun hn
  have hbytes : (va.read_microphone_ env).2 = env.mic_read.length := by
    rw [read_microphone_bytes, if_pos hrun]
  by_cases hlt : rb_bytes_available va.ring_buffer_ < env.mic_read.length
  · have hdata : (va.read_microphone_ env).1.ring_buffer_.data =
        va.ring_buffer_.data.drop (env.mic_read.length - rb_bytes_available va.ring_buffer_)
          ++ env.mic_read := by
      rw [hring, if_pos hlt]
      simp only [rb_write, rb_read, rb_bytes_available, List.length_drop] at hlt ⊢
      rw [List.take_of_length_le (by omega)]
    have hsize : (va.read_microphone_ env).1.ring_buffer_.size = va.ring_buffer_.size := by
      rw [hring, if_pos hlt]; rfl
    have hlen : (va.read_microphone_ env).1.ring_buffer_.data.length =
        min (va.ring_buffer_.data.length + env.mic_read.length) va.ring_buffer_.size := by
      rw [hdata]
      simp only [rb_bytes_available, List.length_append, List.length_drop] at hlt ⊢
      omega
    refine ⟨hbytes, fun _ => hdata, fun h => absurd hlt (by omega), ?_, hlen, hsize, ?_⟩
    · rw [hdata]
      exact ⟨va.ring_buffer_.data.take
          (env.mic_read.length - rb_bytes_available va.ring_buffer_),
        by rw [← List.append_assoc, List.take_append_drop]⟩
    · rw [rb_bytes_filled, hlen, hsize]; omega
  · have hdata : (va.read_microphone_ env).1.ring_buffer_.data =
        va.ring_buffer_.data ++ env.mic_read := by
      rw [hring, if_neg hlt]
      simp only [rb_write]
      rw [List.take_of_length_le (by omega)]
    have hsize : (va.read_microphone_ env).1.ring_buffer_.size = va.ring_buffer_.size := by
      rw [hring, if_neg hlt]; rfl
    have hlen : (va.read_microphone_ env).1.ring_buffer_.data.length =
        min (va.ring_buffer_.data.length + env.mic_read.length) va.ring_buffer_.size := by
      rw [hdata]
      simp only [rb_bytes_available, List.length_append] at hlt ⊢
      omega
    refine ⟨hbytes, fun h => absurd h hlt, fun _ => hdata, ?_, hlen, hsize, ?_⟩
    · rw [hdata]
    · rw [rb_bytes_filled, hlen, hsize]; omega

/-- C5 at a concrete input: capacity 4, content 1, 2, 3 (one byte free), a frame of 3 bytes:
the two oldest bytes are dropped. -/
theorem ring_buffer_drop_oldest_witness :
    (VoiceAssistant.sample_small_ring.read_microphone_ Env.sample_frame).1.ring_buffer_.data =
      [3, 10, 11, 12] :=
  (ring_buffer_drop_oldest VoiceAssistant.sample_small_ring Env.sample_frame rfl rfl
    (by decide) (by decide) (by decide)).2.1 (by decide)

/-! ### `request_start` and `request_stop` -/

/-- C6 (request_start from IDLE): with an API client connected and the current state IDLE,
`request_start continuous silence_detection` records both flags and sets the state to
START_MICROPHONE with desired state WAIT_FOR_VAD when `use_wake_word_` is true, and to
START_PIPELINE with desired state START_MICROPHONE when it is false. -/
theorem request_start_from_idle (va : VoiceAssistant) (env : Env)
    (continuous silence_detection : Bool)
    (hc : env.is_connected = true) (hst : va.state_ = State.IDLE) :
    (va.request_start env continuous silence_detection).continuous_ = continuous ∧
    (va.request_start env continuous silence_detection).silence_detection_ =
      silence_detection ∧
    (va.request_start env continuous silence_detection).state_ =
      (if va.use_wake_word_ = true then State.START_MICROPHONE else State.START_PIPELINE) ∧
    (va.request_start env continuous silence_detection).desired_state_ =
      (if va.use_wake_word_ = true then State.WAIT_FOR_VAD else State.START_MICROPHONE) := by
  simp only [VoiceAssistant.request_start, hc, Bool.true_eq_false, if_false, hst, if_true,
    start_proj, VoiceAssistant.start_]
  split_ifs <;> simp only [set_state_desired_proj, and_self]

/-- C6 at a concrete input: idle, no wake word, `request_start true true`. -/
theorem request_start_from_idle_witness :
    (VoiceAssistant.after_setup.request_start Env.quiet true true).continuous_ = true ∧
    (VoiceAssistant.after_setup.request_start Env.quiet true true).state_ =
      State.START_PIPELINE ∧
    (VoiceAssistant.after_setup.request_start Env.quiet true true).desired_state_ =
      State.START_MICROPHONE :=
  have h := request_start_from_idle VoiceAssistant.after_setup Env.quiet true true rfl rfl
  ⟨h.1, h.2.2.1, h.2.2.2⟩

/-- C7 as stated fails: in STREAMING_MICROPHONE with `continuous_` set and no API client
connected, `request_start` changes the state to IDLE and clears `continuous_`. -/
theorem request_start_not_idle_counterexample :
    ({ VoiceAssistant.after_setup with
        state_ := State.STREAMING_MICROPHONE, continuous_ := true }).state_ ≠ State.IDLE ∧
    (({ VoiceAssistant.after_setup with
        state_ := State.STREAMING_MICROPHONE, continuous_ := true }).request_start
      { Env.quiet with is_connected := false } true true).state_ ≠
      ({ VoiceAssistant.after_setup with
        state_ := State.STREAMING_MICROPHONE, continuous_ := true }).state_ ∧
    (({ VoiceAssistant.after_setup with
        state_ := State.STREAMING_MICROPHONE, continuous_ := true }).request_start
      { Env.quiet with is_connected := false } true true).continuous_ ≠
      ({ VoiceAssistant.after_setup with
        state_ := State.STREAMING_MICROPHONE, continuous_ := true }).continuous_ := by
  refine ⟨by decide, by decide, by decide⟩

/-- C7 (amended): with an API client connected, in every state other than IDLE and for every
pair of arguments, `request_start` leaves the controller unchanged — in particular the current
state, the desired state, `continuous_` and `silence_detection_`. -/
theorem request_start_not_idle (va : VoiceAssistant) (env : Env)
    (continuous silence_detection : Bool)
    (hc : env.is_connected = true) (hst : va.state_ ≠ State.IDLE) :
    va.request_start env continuous silence_detection = va := by
  simp only [VoiceAssistant.request_start, hc, Bool.true_eq_false, if_false, hst]

/-- C7 (amended) at a concrete input: streaming, connected. -/
theorem request_start_not_idle_witness :
    ({ VoiceAssistant.after_setup with state_ := State.STREAMING_MICROPHONE }).request_start
        Env.quiet true false =
      { VoiceAssistant.after_setup with state_ := State.STREAMING_MICROPHONE } :=
  request_start_not_idle
    { VoiceAssistant.after_setup with state_ := State.STREAMING_MICROPHONE } Env.quiet true false
    rfl (by decide)

/-- C8 (request_start without a connection): when no API client is connected, `request_start`
ends with state IDLE, desired state IDLE and `continuous_` false whatever the arguments and the
previous state, leaves `silence_detection_` as it was, and adds nothing to the trace (no error
event, no remote request); nothing but the state, the desired state and `continuous_`
changes. -/
theorem request_start_disconnected (va : VoiceAssistant) (env : Env)
    (continuous silence_detection : Bool) (hc : env.is_connected = false) :
    (va.request_start env continuous silence_detection).state_ = State.IDLE ∧
    (va.request_start env continuous silence_detection).desired_state_ = State.IDLE ∧
    (va.request_start env continuous silence_detection).continuous_ = false ∧
    (va.request_start env continuous silence_detection).silence_detection_ =
      va.silence_detection_ ∧
    (va.request_start env continuous silence_detection).trace = va.trace ∧
    va.request_start env continuous silence_detection =
      { va with state_ := State.IDLE, desired_state_ := State.IDLE, continuous_ := false } := by
  simp only [VoiceAssistant.request_start, hc, if_true, VoiceAssistant.set_state_desired_,
    VoiceAssistant.set_state_, and_self]

/-- C8 at a concrete input: streaming with `continuous_` set when the client is gone. -/
theorem request_start_disconnected_witness :
    (({ VoiceAssistant.after_setup with
        state_ := State.STREAMING_MICROPHONE, continuous_ := true }).request_start
      { Env.quiet with is_connected := false } true false).state_ = State.IDLE ∧
    (({ VoiceAssistant.after_setup with
        state_ := State.STREAMING_MICROPHONE, continuous_ := true }).request_start
      { Env.quiet with is_connected := false } true false).silence_detection_ = true ∧
    (({ VoiceAssistant.after_setup with
        state_ := State.STREAMING_MICROPHONE, continuous_ := true }).request_start
      { Env.quiet with is_connected := false } true false).trace = [] :=
  have h := request_start_disconnected
    { VoiceAssistant.after_setup with state_ := State.STREAMING_MICROPHONE, continuous_ := true }
    { Env.quiet with is_connected := false } true false rfl
  ⟨h.1, h.2.2.2.1, h.2.2.2.2.1⟩

/-- C9 (request_stop in the active states): from START_MICROPHONE, STARTING_MICROPHONE,
WAIT_FOR_VAD, WAITING_FOR_VAD or START_PIPELINE, `request_stop` sets the state to STOP_MICROPHONE
with desired state IDLE and adds nothing to the trace; from STARTING_PIPELINE or
STREAMING_MICROPHONE it adds exactly one remote stop signal and sets the state to STOP_MICROPHONE
with desired state IDLE; from STOP_MICROPHONE or STOPPING_MICROPHONE it keeps the current state,
sets the desired state to IDLE and adds nothing to the trace. -/
theorem request_stop_active (va : VoiceAssistant) :
    (va.state_ = State.START_MICROPHONE ∨ va.state_ = State.STARTING_MICROPHONE ∨
        va.state_ = State.WAIT_FOR_VAD ∨ va.state_ = State.WAITING_FOR_VAD ∨
        va.state_ = State.START_PIPELINE →
      va.request_stop.state_ = State.STOP_MICROPHONE ∧
      va.request_stop.desired_state_ = State.IDLE ∧
      va.request_stop.trace = va.trace) ∧
    (va.state_ = State.STARTING_PIPELINE ∨ va.state_ = State.STREAMING_MICROPHONE →
      va.request_stop.state_ = State.STOP_MICROPHONE ∧
      va.request_stop.desired_state_ = State.IDLE ∧
      va.request_stop.trace = va.trace ++ [Effect.stop_voice_assistant]) ∧
    (va.state_ = State.STOP_MICROPHONE ∨ va.state_ = State.STOPPING_MICROPHONE →
      va.request_stop.state_ = va.state_ ∧
      va.request_stop.desired_state_ = State.IDLE ∧
      va.request_stop.trace = va.trace) := by
  refine ⟨?_, ?_, ?_⟩
  · rintro (h | h | h | h | h) <;>
      simp only [VoiceAssistant.request_stop, h, set_state_desired_proj, and_self]
  · rintro (h | h) <;>
      simp only [VoiceAssistant.request_stop, h, set_state_desired_proj, signal_stop_proj,
        and_self]
  · rintro (h | h) <;>
      simp only [VoiceAssistant.request_stop, h, and_self]

/-- C9 at a concrete input: `request_stop` while streaming the microphone. -/
theorem request_stop_active_witness :
    ({ VoiceAssistant.after_setup with state_ := State.STREAMING_MICROPHONE }).request_stop.state_
      = State.STOP_MICROPHONE ∧
    ({ VoiceAssistant.after_setup with
        state_ := State.STREAMING_MICROPHONE }).request_stop.desired_state_ = State.IDLE ∧
    ({ VoiceAssistant.after_setup with state_ := State.STREAMING_MICROPHONE }).request_stop.trace
      = [Effect.stop_voice_assistant] :=
  (request_stop_active
    { VoiceAssistant.after_setup with state_ := State.STREAMING_MICROPHONE }).2.1 (Or.inr rfl)

/-- C10 as stated fails: in IDLE with `continuous_` set, `request_stop` clears `continuous_`,
so the controller is not left unchanged. -/
theorem request_stop_passive_counterexample :
    ({ VoiceAssistant.after_setup with continuous_ := true }).state_ = State.IDLE ∧
    ({ VoiceAssistant.after_setup with continuous_ := true }).request_stop.continuous_ ≠
      ({ VoiceAssistant.after_setup with continuous_ := true }).continuous_ ∧
    ({ VoiceAssistant.after_setup with continuous_ := true }).request_stop ≠
      { VoiceAssistant.after_setup with continuous_ := true } := by
  refine ⟨rfl, by decide, ?_⟩
  intro h
  have h2 := congrArg VoiceAssistant.continuous_ h
  exact absurd h2 (by decide)

/-- C10 (amended): in IDLE, AWAITING_RESPONSE, STREAMING_RESPONSE and RESPONSE_FINISHED,
`request_stop` clears `continuous_` and changes nothing else: the current state, the desired
state, every other session flag and the trace (no remote stop signal) are as before. -/
theorem request_stop_passive (va : VoiceAssistant)
    (hst : va.state_ = State.IDLE ∨ va.state_ = State.AWAITING_RESPONSE ∨
      va.state_ = State.STREAMING_RESPONSE ∨ va.state_ = State.RESPONSE_FINISHED) :
    va.request_stop = { va with continuous_ := false } ∧
    va.request_stop.state_ = va.state_ ∧
    va.request_stop.desired_state_ = va.desired_state_ ∧
    va.request_stop.trace = va.trace := by
  rcases hst with h | h | h | h <;>
    simp only [VoiceAssistant.request_stop, h, and_self]

/-- C10 (amended) at a concrete input: `request_stop` while a response is streaming. -/
theorem request_stop_passive_witness :
    VoiceAssistant.sample_streaming_response.request_stop.state_ = State.STREAMING_RESPONSE ∧
    VoiceAssistant.sample_streaming_response.request_stop.trace = [] :=
  have h := request_stop_passive VoiceAssistant.sample_streaming_response
    (Or.inr (Or.inr (Or.inl rfl)))
  ⟨h.2.1, h.2.2.2⟩

/-! ### `on_event` -/

/-- The extraction loop on an event that carries exactly a code and a message. -/
theorem find_code_message_pair (c m : String) :
    find_code_message [{ name := "code", value := c }, { name := "message", value := m }] =
      (c, m) := by
  simp [find_code_message]

/-- The extraction loop finds the empty string when every argument of that name is empty
(in particular when there is none). -/
theorem find_arg_empty (data : List VoiceAssistantEventData) (name : String)
    (h : ∀ a ∈ data, a.name = name → a.value = "") : find_arg data name "" = "" := by
  unfold find_arg
  induction data using List.reverseRecOn with
  | nil => rfl
  | append_singleton xs x ih =>
    rw [List.foldl_append]
    simp only [List.foldl_cons, List.foldl_nil]
    split_ifs with hx
    · exact h x (by simp) hx
    · exact ih (fun a ha => h a (by simp [ha]))

/-- C11 (remote Error events): for an Error event whose extracted code is neither
"wake-word-timeout" nor "wake_word_detection_aborted" and a current state other than IDLE,
`on_event` sends one remote stop signal, sets the state to STOP_MICROPHONE with desired state
IDLE, and fires exactly one error event, carrying the extracted code and message; for an Error
event whose code is one of the two suppressed codes, `on_event` leaves the controller unchanged
in every state (current state, desired state, no stop signal).  The extracted code and message of
an event carrying exactly the arguments `code` and `message` are those arguments. -/
theorem on_event_error (va : VoiceAssistant) (msg : VoiceAssistantEventResponse)
    (hty : msg.event_type = VoiceAssistantEvent.VOICE_ASSISTANT_ERROR) :
    ((find_code_message msg.data).1 ≠ "wake-word-timeout" →
      (find_code_message msg.data).1 ≠ "wake_word_detection_aborted" →
      va.state_ ≠ State.IDLE →
        (va.on_event msg).state_ = State.STOP_MICROPHONE ∧
        (va.on_event msg).desired_state_ = State.IDLE ∧
        (va.on_event msg).trace = va.trace ++
          [Effect.stop_voice_assistant,
            Effect.error_trigger (find_code_message msg.data).1 (find_code_message msg.data).2]) ∧
    ((find_code_message msg.data).1 = "wake-word-timeout" ∨
      (find_code_message msg.data).1 = "wake_word_detection_aborted" →
        va.on_event msg = va) ∧
    (∀ c m : String,
      msg.data = [{ name := "code", value := c }, { name := "message", value := m }] →
        find_code_message msg.data = (c, m)) := by
  refine ⟨?_, ?_, ?_⟩
  · intro h1 h2 h3
    have hsup : ¬ ((find_code_message msg.data).1 = "wake-word-timeout" ∨
        (find_code_message msg.data).1 = "wake_word_detection_aborted") := by
      rintro (h | h)
      · exact h1 h
      · exact h2 h
    simp only [VoiceAssistant.on_event, hty, hsup, if_false, h3, ne_eq, not_false_eq_true,
      if_true, emit_proj, set_state_desired_proj, signal_stop_proj, List.append_assoc,
      List.singleton_append, and_self]
  · intro h
    simp only [VoiceAssistant.on_event, hty, h, if_true]
  · intro c m h
    rw [h, find_code_message_pair]

/-- C11 at a concrete input: the code "timeout" while streaming the microphone. -/
theorem on_event_error_witness :
    (VoiceAssistant.sample_streaming_microphone.on_event
      VoiceAssistantEventResponse.sample_error).state_ = State.STOP_MICROPHONE ∧
    (VoiceAssistant.sample_streaming_microphone.on_event
      VoiceAssistantEventResponse.sample_error).desired_state_ = State.IDLE ∧
    (VoiceAssistant.sample_streaming_microphone.on_event
      VoiceAssistantEventResponse.sample_error).trace =
        [Effect.stop_voice_assistant, Effect.error_trigger "timeout" "no speech"] :=
  (on_event_error VoiceAssistant.sample_streaming_microphone
    VoiceAssistantEventResponse.sample_error rfl).1 (by decide) (by decide) (by decide)

/-- C12 as stated fails for SttEnd: an SttEnd event without a "text" argument received in IDLE
changes the state to STOP_MICROPHONE and the desired state to AWAITING_RESPONSE. -/
theorem on_event_missing_field_counterexample :
    VoiceAssistant.after_setup.state_ = State.IDLE ∧
    VoiceAssistant.after_setup.desired_state_ = State.IDLE ∧
    (VoiceAssistant.after_setup.on_event
      { event_type := VoiceAssistantEvent.VOICE_ASSISTANT_STT_END, data := [] }).state_ =
        State.STOP_MICROPHONE ∧
    (VoiceAssistant.after_setup.on_event
      { event_type := VoiceAssistantEvent.VOICE_ASSISTANT_STT_END, data := [] }).desired_state_ =
        State.AWAITING_RESPONSE ∧
    (VoiceAssistant.after_setup.on_event
      { event_type := VoiceAssistantEvent.VOICE_ASSISTANT_STT_END, data := [] }).state_ ≠
        VoiceAssistant.after_setup.state_ := by
  refine ⟨rfl, rfl, by decide, by decide, by decide⟩

/-- C12 (amended): in every state, a TtsStart event with no (or only empty) "text" argument and
a TtsEnd event with no (or only empty) "url" argument leave the controller unchanged (current
state, desired state, no listener event); an SttEnd event with no (or only empty) "text" argument
fires no listener event either, but sets the state to STOP_MICROPHONE with desired state
AWAITING_RESPONSE. -/
theorem on_event_missing_field (va : VoiceAssistant) (msg : VoiceAssistantEventResponse) :
    (msg.event_type = VoiceAssistantEvent.VOICE_ASSISTANT_STT_END →
      (∀ a ∈ msg.data, a.name = "text" → a.value = "") →
        (va.on_event msg).state_ = State.STOP_MICROPHONE ∧
        (va.on_event msg).desired_state_ = State.AWAITING_RESPONSE ∧
        (va.on_event msg).trace = va.trace) ∧
    (msg.event_type = VoiceAssistantEvent.VOICE_ASSISTANT_TTS_START →
      (∀ a ∈ msg.data, a.name = "text" → a.value = "") →
        va.on_event msg = va) ∧
    (msg.event_type = VoiceAssistantEvent.VOICE_ASSISTANT_TTS_END →
      (∀ a ∈ msg.data, a.name = "url" → a.value = "") →
        va.on_event msg = va) := by
  refine ⟨?_, ?_, ?_⟩
  · intro hty h
    simp only [VoiceAssistant.on_event, hty, find_arg_empty _ _ h, if_true,
      set_state_desired_proj, and_self]
  · intro hty h
    simp only [VoiceAssistant.on_event, hty, find_arg_empty _ _ h, if_true]
  · intro hty h
    simp only [VoiceAssistant.on_event, hty, find_arg_empty _ _ h, if_true]

/-- C12 (amended) at a concrete input: a TtsEnd event whose "url" argument is empty, received
while awaiting the response. -/
theorem on_event_missing_field_witness :
    ({ VoiceAssistant.after_setup with state_ := State.AWAITING_RESPONSE }).on_event
        { event_type := VoiceAssistantEvent.VOICE_ASSISTANT_TTS_END
          data := [{ name := "url", value := "" }] } =
      { VoiceAssistant.after_setup with state_ := State.AWAITING_RESPONSE } :=
  (on_event_missing_field { VoiceAssistant.after_setup with state_ := State.AWAITING_RESPONSE }
    { event_type := VoiceAssistantEvent.VOICE_ASSISTANT_TTS_END
      data := [{ name := "url", value := "" }] }).2.2 rfl
    (by intro a ha _; simp at ha; subst ha; rfl)

/-! ### Stream end -/

/-- A name is not armed after it is filtered out. -/
theorem not_mem_filter_name (ts : List (Timeout × Nat)) (name : Timeout) :
    name ∉ (ts.filter (fun t => decide (t.1 ≠ name))).map Prod.fst := by
  intro h
  obtain ⟨t, ht, hn⟩ := List.mem_map.mp h
  have := (List.mem_filter.mp ht).2
  simp only [ne_eq, decide_not, Bool.not_eq_true', decide_eq_false_iff_not] at this
  exact this hn

/-- Filtering out one name keeps another name filtered out. -/
theorem not_mem_filter_filter (ts : List (Timeout × Nat)) (name other : Timeout) :
    name ∉ ((ts.filter (fun t => decide (t.1 ≠ name))).filter
      (fun t => decide (t.1 ≠ other))).map Prod.fst := by
  intro h
  obtain ⟨t, ht, hn⟩ := List.mem_map.mp h
  have h1 := (List.mem_filter.mp ht).1
  exact not_mem_filter_name ts name (List.mem_map.mpr ⟨t, h1, hn⟩)

/-- The state, the stream-end flag and the timeouts after a STREAMING_RESPONSE tick taken with
the connection up, a speaker present and the stream-end flag set. -/
theorem loop_streaming_response_waiting (va : VoiceAssistant) (env : Env)
    (hst : va.state_ = State.STREAMING_RESPONSE) (husp : va.USE_SPEAKER = true)
    (hsp : va.speaker_ = true) (hc : env.is_connected = true)
    (hflag : va.wait_for_stream_end_ = true) :
    va.loop env = ((va.speaker_receive env).speaker_play env).cancel_timeout Timeout.playing := by
  have hw : ¬ va.watchdog_cond env := by simp [VoiceAssistant.watchdog_cond, hc]
  have hf : ((va.speaker_receive env).speaker_play env).wait_for_stream_end_ = true := by
    simp only [speaker_play_proj, speaker_receive_proj, hflag]
  simp only [VoiceAssistant.loop, hw, if_false, hst, VoiceAssistant.loop_STREAMING_RESPONSE,
    husp, hsp, and_self, if_true, hf]

/-- C13 as stated fails in its last part: with state STREAMING_RESPONSE, the stream-end flag set
and a "playing" timeout still armed, the firing of that timeout sets the state to IDLE. -/
theorem stream_end_gating_counterexample :
    VoiceAssistant.sample_awaiting_stream_end.state_ = State.STREAMING_RESPONSE ∧
    VoiceAssistant.sample_awaiting_stream_end.wait_for_stream_end_ = true ∧
    Timeout.playing ∈ VoiceAssistant.sample_awaiting_stream_end.timeouts.map Prod.fst ∧
    (VoiceAssistant.sample_awaiting_stream_end.fire_timeout Timeout.playing).wait_for_stream_end_
      = true ∧
    (VoiceAssistant.sample_awaiting_stream_end.fire_timeout Timeout.playing).state_ =
      State.IDLE := by
  refine ⟨rfl, rfl, by decide, by decide, by decide⟩

/-- C13 (amended): in the build with the speaker, `on_event` of TtsStreamStart sets
`wait_for_stream_end_` and changes nothing else (the state in particular); from every controller
with state STREAMING_RESPONSE and the flag set, a tick (speaker present, connection up) leaves
the state STREAMING_RESPONSE and the flag set, and leaves no "playing" timeout armed (it cancels
it and does not re-arm it), so that a firing of "playing" after such a tick finds nothing armed
and changes nothing.  The callback itself does not test the flag: a "playing" timeout that is
still armed when it fires sets the state to IDLE with desired state IDLE. -/
theorem stream_end_gating (va : VoiceAssistant) (env : Env) (msg : VoiceAssistantEventResponse)
    (husp : va.USE_SPEAKER = true) :
    (msg.event_type = VoiceAssistantEvent.VOICE_ASSISTANT_TTS_STREAM_START →
      va.on_event msg = { va with wait_for_stream_end_ := true } ∧
      (va.on_event msg).wait_for_stream_end_ = true ∧
      (va.on_event msg).state_ = va.state_) ∧
    (va.state_ = State.STREAMING_RESPONSE → va.wait_for_stream_end_ = true →
      va.speaker_ = true → env.is_connected = true →
        (va.loop env).state_ = State.STREAMING_RESPONSE ∧
        (va.loop env).wait_for_stream_end_ = true ∧
        Timeout.playing ∉ (va.loop env).timeouts.map Prod.fst ∧
        (va.loop env).fire_timeout Timeout.playing = va.loop env) ∧
    (Timeout.playing ∈ va.timeouts.map Prod.fst →
      (va.fire_timeout Timeout.playing).state_ = State.IDLE ∧
      (va.fire_timeout Timeout.playing).desired_state_ = State.IDLE ∧
      (va.fire_timeout Timeout.playing).wait_for_stream_end_ = va.wait_for_stream_end_) := by
  refine ⟨?_, ?_, ?_⟩
  · intro hty
    simp only [VoiceAssistant.on_event, hty, husp, if_true, and_self]
  · intro hst hflag hsp hc
    have hloop := loop_streaming_response_waiting va env hst husp hsp hc hflag
    have hnot : Timeout.playing ∉ (va.loop env).timeouts.map Prod.fst := by
      rw [hloop]
      simp only [cancel_timeout_proj]
      exact not_mem_filter_name _ _
    refine ⟨?_, ?_, hnot, ?_⟩
    · rw [hloop]
      simp only [cancel_timeout_proj, speaker_play_proj, speaker_receive_proj, hst]
    · rw [hloop]
      simp only [cancel_timeout_proj, speaker_play_proj, speaker_receive_proj, hflag]
    · simp only [VoiceAssistant.fire_timeout, hnot, if_false]
  · intro harmed
    simp only [VoiceAssistant.fire_timeout, harmed, if_true, VoiceAssistant.timeout_callback,
      set_state_desired_proj, cancel_timeout_proj, and_self]

/-- C13 (amended) at a concrete input: a tick while the end of the stream is awaited and a
"playing" timeout is armed. -/
theorem stream_end_gating_witness :
    (VoiceAssistant.sample_awaiting_stream_end.loop Env.quiet).state_ =
      State.STREAMING_RESPONSE ∧
    Timeout.playing ∉
      (VoiceAssistant.sample_awaiting_stream_end.loop Env.quiet).timeouts.map Prod.fst :=
  have h := (stream_end_gating VoiceAssistant.sample_awaiting_stream_end Env.quiet
    { event_type := VoiceAssistantEvent.VOICE_ASSISTANT_TTS_STREAM_START, data := [] } rfl).2.1
    rfl rfl rfl rfl
  ⟨h.1, h.2.2.1⟩

/-- C14 (stream end and RESPONSE_FINISHED): from every state, `on_event` of TtsStreamEnd sets
the state to RESPONSE_FINISHED with desired state IDLE and changes nothing else; a tick in
RESPONSE_FINISHED (connection up, build with the speaker, speaker present) stops the speaker
(the only new trace entry), leaves neither "speaker-timeout" nor "playing" armed while keeping
the other timeouts, sets the speaker buffer size and index to 0, clears `wait_for_stream_end_`,
and sets the state to IDLE with desired state IDLE; so does the tick that follows the event. -/
theorem stream_end_response_finished (va : VoiceAssistant) (env : Env)
    (msg : VoiceAssistantEventResponse)
    (hty : msg.event_type = VoiceAssistantEvent.VOICE_ASSISTANT_TTS_STREAM_END)
    (husp : va.USE_SPEAKER = true) (hsp : va.speaker_ = true)
    (hc : env.is_connected = true) :
    (va.on_event msg).state_ = State.RESPONSE_FINISHED ∧
    (va.on_event msg).desired_state_ = State.IDLE ∧
    va.on_event msg =
      { va with state_ := State.RESPONSE_FINISHED, desired_state_ := State.IDLE } ∧
    (∀ vb : VoiceAssistant, vb.state_ = State.RESPONSE_FINISHED → vb.USE_SPEAKER = true →
      vb.speaker_ = true →
        (vb.loop env).trace = vb.trace ++ [Effect.speaker_stop] ∧
        Timeout.speaker_timeout ∉ (vb.loop env).timeouts.map Prod.fst ∧
        Timeout.playing ∉ (vb.loop env).timeouts.map Prod.fst ∧
        (vb.loop env).timeouts =
          (vb.timeouts.filter (fun t => decide (t.1 ≠ Timeout.speaker_timeout))).filter
            (fun t => decide (t.1 ≠ Timeout.playing)) ∧
        (vb.loop env).speaker_buffer_size_ = 0 ∧
        (vb.loop env).speaker_buffer_index_ = 0 ∧
        (vb.loop env).wait_for_stream_end_ = false ∧
        (vb.loop env).state_ = State.IDLE ∧
        (vb.loop env).desired_state_ = State.IDLE) ∧
    ((va.on_event msg).loop env).state_ = State.IDLE ∧
    ((va.on_event msg).loop env).desired_state_ = State.IDLE ∧
    ((va.on_event msg).loop env).wait_for_stream_end_ = false ∧
    ((va.on_event msg).loop env).speaker_buffer_size_ = 0 ∧
    ((va.on_event msg).loop env).speaker_buffer_index_ = 0 ∧
    ((va.on_event msg).loop env).trace = va.trace ++ [Effect.speaker_stop] := by
  have hev : va.on_event msg =
      { va with state_ := State.RESPONSE_FINISHED, desired_state_ := State.IDLE } := by
    simp only [VoiceAssistant.on_event, hty, VoiceAssistant.set_state_desired_,
      VoiceAssistant.set_state_]
  have htick : ∀ vb : VoiceAssistant, vb.state_ = State.RESPONSE_FINISHED →
      vb.USE_SPEAKER = true → vb.speaker_ = true →
        (vb.loop env).trace = vb.trace ++ [Effect.speaker_stop] ∧
        Timeout.speaker_timeout ∉ (vb.loop env).timeouts.map Prod.fst ∧
        Timeout.playing ∉ (vb.loop env).timeouts.map Prod.fst ∧
        (vb.loop env).timeouts =
          (vb.timeouts.filter (fun t => decide (t.1 ≠ Timeout.speaker_timeout))).filter
            (fun t => decide (t.1 ≠ Timeout.playing)) ∧
        (vb.loop env).speaker_buffer_size_ = 0 ∧
        (vb.loop env).speaker_buffer_index_ = 0 ∧
        (vb.loop env).wait_for_stream_end_ = false ∧
        (vb.loop env).state_ = State.IDLE ∧
        (vb.loop env).desired_state_ = State.IDLE := by
    intro vb hst hu hs
    have hw : ¬ vb.watchdog_cond env := by simp [VoiceAssistant.watchdog_cond, hc]
    have hloop : vb.loop env = vb.loop_RESPONSE_FINISHED := by
      simp only [VoiceAssistant.loop, hw, if_false, hst]
    have htm : (vb.loop env).timeouts =
        (vb.timeouts.filter (fun t => decide (t.1 ≠ Timeout.speaker_timeout))).filter
          (fun t => decide (t.1 ≠ Timeout.playing)) := by
      rw [hloop]
      simp only [VoiceAssistant.loop_RESPONSE_FINISHED, hu, hs, if_true,
        set_state_desired_proj, cancel_timeout_proj, emit_proj]
    refine ⟨?_, ?_, ?_, htm, ?_, ?_, ?_, ?_, ?_⟩
    · rw [hloop]
      simp only [VoiceAssistant.loop_RESPONSE_FINISHED, hu, hs, if_true,
        set_state_desired_proj, cancel_timeout_proj, emit_proj]
    · rw [htm]; exact not_mem_filter_filter _ _ _
    · rw [htm]; exact not_mem_filter_name _ _
    all_goals
      rw [hloop]
      simp only [VoiceAssistant.loop_RESPONSE_FINISHED, hu, hs, if_true,
        set_state_desired_proj, cancel_timeout_proj, emit_proj]
  have hafter := htick (va.on_event msg) (by rw [hev]) (by rw [hev]; exact husp)
    (by rw [hev]; exact hsp)
  refine ⟨by rw [hev], by rw [hev], hev, htick, hafter.2.2.2.2.2.2.2.1, hafter.2.2.2.2.2.2.2.2,
    hafter.2.2.2.2.2.2.1, hafter.2.2.2.2.1, hafter.2.2.2.2.2.1, ?_⟩
  rw [hafter.1, hev]

/-- C14 at a concrete input: the tick in RESPONSE_FINISHED with both playback timeouts armed. -/
theorem stream_end_response_finished_witness :
    (VoiceAssistant.sample_response_finished.loop Env.quiet).state_ = State.IDLE ∧
    (VoiceAssistant.sample_response_finished.loop Env.quiet).speaker_buffer_size_ = 0 ∧
    (VoiceAssistant.sample_response_finished.loop Env.quiet).wait_for_stream_end_ = false ∧
    (VoiceAssistant.sample_response_finished.loop Env.quiet).timeouts = [] :=
  have h := (stream_end_response_finished VoiceAssistant.sample_response_finished Env.quiet
    { event_type := VoiceAssistantEvent.VOICE_ASSISTANT_TTS_STREAM_END, data := [] }
    rfl rfl rfl rfl).2.2.2.1 VoiceAssistant.sample_response_finished rfl rfl rfl
  ⟨h.2.2.2.2.2.2.2.1, h.2.2.2.2.1, h.2.2.2.2.2.2.1, h.2.2.2.1⟩

/-! ### `start_streaming`, the START_PIPELINE tick and the IDLE tick -/

/-- C15 (start_streaming): in every state other than STARTING_PIPELINE, `start_streaming` leaves
the current and the desired state unchanged and sends one remote stop signal; in
STARTING_PIPELINE with an address of a known family (AF_INET, or AF_INET6 in a build with
LWIP_IPV6) it records the address with the port in network byte order, sends nothing, and sets
the state to STREAMING_MICROPHONE if the microphone is running and to START_MICROPHONE otherwise,
with desired state STREAMING_MICROPHONE in both cases. -/
theorem start_streaming_spec (va : VoiceAssistant) (env : Env) (addr : sockaddr_storage)
    (port : Nat) :
    (va.state_ ≠ State.STARTING_PIPELINE →
      (va.start_streaming env addr port).state_ = va.state_ ∧
      (va.start_streaming env addr port).desired_state_ = va.desired_state_ ∧
      (va.start_streaming env addr port).trace = va.trace ++ [Effect.stop_voice_assistant]) ∧
    (va.state_ = State.STARTING_PIPELINE →
      (addr.ss_family = AF_INET ∨ (va.LWIP_IPV6 = true ∧ addr.ss_family = AF_INET6)) →
        (va.start_streaming env addr port).dest_addr_ = { addr with port := htons port } ∧
        (va.start_streaming env addr port).state_ =
          (if env.mic_is_running = true then State.STREAMING_MICROPHONE
            else State.START_MICROPHONE) ∧
        (va.start_streaming env addr port).desired_state_ = State.STREAMING_MICROPHONE ∧
        (va.start_streaming env addr port).trace = va.trace) := by
  constructor
  · intro hst
    simp only [VoiceAssistant.start_streaming, hst, ne_eq, not_false_eq_true, if_true,
      signal_stop_proj, and_self]
  · intro hst hfam
    simp only [VoiceAssistant.start_streaming, hst, ne_eq, not_true_eq_false, if_false]
    rcases hfam with h | ⟨h6, h⟩
    · simp only [h, if_true]
      split_ifs <;> simp only [set_state_desired_proj, and_self]
    · simp only [h, h6, and_self, if_true]
      split_ifs <;> simp only [set_state_desired_proj, and_self]

/-- C15 at a concrete input: an IPv4 address and port 6055 while the pipeline is starting and
the microphone runs. -/
theorem start_streaming_spec_witness :
    (VoiceAssistant.sample_starting_pipeline.start_streaming Env.quiet
      sockaddr_storage.sample_inet 6055).dest_addr_ =
        { sockaddr_storage.sample_inet with port := htons 6055 } ∧
    (VoiceAssistant.sample_starting_pipeline.start_streaming Env.quiet
      sockaddr_storage.sample_inet 6055).state_ = State.STREAMING_MICROPHONE ∧
    (VoiceAssistant.sample_starting_pipeline.start_streaming Env.quiet
      sockaddr_storage.sample_inet 6055).desired_state_ = State.STREAMING_MICROPHONE :=
  have h := (start_streaming_spec VoiceAssistant.sample_starting_pipeline Env.quiet
    sockaddr_storage.sample_inet 6055).2 rfl (Or.inl rfl)
  ⟨h.1, h.2.1, h.2.2.1⟩

/-- The flag word: the wake-word bit is set iff `use_wake_word_`, the VAD bit iff
`silence_detection_`, and no other bit is set. -/
theorem request_flags_bits (va : VoiceAssistant) :
    (va.request_flags &&& VOICE_ASSISTANT_REQUEST_USE_WAKE_WORD =
        VOICE_ASSISTANT_REQUEST_USE_WAKE_WORD ↔ va.use_wake_word_ = true) ∧
    (va.request_flags &&& VOICE_ASSISTANT_REQUEST_USE_VAD =
        VOICE_ASSISTANT_REQUEST_USE_VAD ↔ va.silence_detection_ = true) ∧
    va.request_flags &&&
        (VOICE_ASSISTANT_REQUEST_USE_WAKE_WORD ||| VOICE_ASSISTANT_REQUEST_USE_VAD) =
      va.request_flags := by
  cases h1 : va.use_wake_word_ <;> cases h2 : va.silence_detection_ <;>
    simp only [VoiceAssistant.request_flags, h1, h2, if_true, if_false, Bool.false_eq_true] <;>
    decide

/-- The request built in START_PIPELINE is built from members that the microphone read leaves
alone. -/
theorem read_microphone_request (va : VoiceAssistant) (env : Env) :
    (va.read_microphone_ env).1.request_flags = va.request_flags ∧
    (va.read_microphone_ env).1.audio_settings = va.audio_settings := by
  simp only [VoiceAssistant.request_flags, VoiceAssistant.audio_settings, read_microphone_proj,
    and_self]

/-- C16 (START_PIPELINE tick, connection up): the tick issues one start request carrying the
current `conversation_id_`, the audio settings and a flag word whose wake-word bit is set iff
`use_wake_word_`, whose VAD bit is set iff `silence_detection_` and which has no other bit; if
the request is rejected, exactly one error event with code "not-connected" follows,
`continuous_` becomes false, the state and the desired state become IDLE and the timeouts are
as they were; if it is accepted, the state becomes STARTING_PIPELINE, the desired state is
unchanged, nothing else is added to the trace, and the "reset-conversation_id" timeout is armed
with 5 minutes. -/
theorem start_pipeline_tick (va : VoiceAssistant) (env : Env)
    (hst : va.state_ = State.START_PIPELINE) (hc : env.is_connected = true) :
    ((va.request_flags &&& VOICE_ASSISTANT_REQUEST_USE_WAKE_WORD =
        VOICE_ASSISTANT_REQUEST_USE_WAKE_WORD ↔ va.use_wake_word_ = true) ∧
     (va.request_flags &&& VOICE_ASSISTANT_REQUEST_USE_VAD =
        VOICE_ASSISTANT_REQUEST_USE_VAD ↔ va.silence_detection_ = true) ∧
     va.request_flags &&&
        (VOICE_ASSISTANT_REQUEST_USE_WAKE_WORD ||| VOICE_ASSISTANT_REQUEST_USE_VAD) =
      va.request_flags) ∧
    (env.start_voice_assistant = false →
      (va.loop env).trace = va.trace ++
        [Effect.start_voice_assistant va.conversation_id_ va.request_flags va.audio_settings,
          Effect.error_trigger "not-connected" "Could not request start."] ∧
      (va.loop env).continuous_ = false ∧
      (va.loop env).state_ = State.IDLE ∧
      (va.loop env).desired_state_ = State.IDLE ∧
      (va.loop env).timeouts = va.timeouts) ∧
    (env.start_voice_assistant = true →
      (va.loop env).trace = va.trace ++
        [Effect.start_voice_assistant va.conversation_id_ va.request_flags va.audio_settings] ∧
      (va.loop env).state_ = State.STARTING_PIPELINE ∧
      (va.loop env).desired_state_ = va.desired_state_ ∧
      (va.loop env).continuous_ = va.continuous_ ∧
      (va.loop env).timeouts =
        (Timeout.reset_conversation_id, 5 * 60 * 1000) ::
          va.timeouts.filter (fun t => decide (t.1 ≠ Timeout.reset_conversation_id)) ∧
      (Timeout.reset_conversation_id, 300000) ∈ (va.loop env).timeouts) := by
  have hw : ¬ va.watchdog_cond env := by simp [VoiceAssistant.watchdog_cond, hc]
  have hloop : va.loop env = va.loop_START_PIPELINE env := by
    simp only [VoiceAssistant.loop, hw, if_false, hst]
  obtain ⟨hf, ha⟩ := read_microphone_request va env
  refine ⟨request_flags_bits va, ?_, ?_⟩
  · intro hrej
    rw [hloop]
    simp only [VoiceAssistant.loop_START_PIPELINE, hrej, if_true, set_state_desired_proj,
      emit_proj, read_microphone_proj, hf, ha, List.append_assoc, List.singleton_append,
      and_self]
  · intro hacc
    rw [hloop]
    simp only [VoiceAssistant.loop_START_PIPELINE, hacc, Bool.true_eq_false, if_false,
      set_timeout_proj, set_state_proj, emit_proj, read_microphone_proj, hf, ha,
      List.mem_cons, true_or, and_self]

/-- C16 at a concrete input: wake word in use, end-of-speech detection off, request rejected. -/
theorem start_pipeline_tick_witness :
    (VoiceAssistant.sample_start_pipeline.loop
      { Env.quiet with start_voice_assistant := false }).trace =
        [Effect.start_voice_assistant "abc" 2
            { noise_suppression_level := 0, auto_gain := 0, volume_multiplier := 0 },
          Effect.error_trigger "not-connected" "Could not request start."] ∧
    (VoiceAssistant.sample_start_pipeline.loop
      { Env.quiet with start_voice_assistant := false }).continuous_ = false ∧
    (VoiceAssistant.sample_start_pipeline.loop
      { Env.quiet with start_voice_assistant := false }).state_ = State.IDLE :=
  have h := (start_pipeline_tick VoiceAssistant.sample_start_pipeline
    { Env.quiet with start_voice_assistant := false } rfl rfl).2.1 rfl
  ⟨h.1, h.2.1, h.2.2.1⟩

/-- C17 (continuous-mode restart from IDLE): a tick in IDLE, whatever the connection, with
`continuous_` set and desired state IDLE sets the state to START_MICROPHONE with desired state
WAIT_FOR_VAD when `use_wake_word_` is true and to START_PIPELINE with desired state
START_MICROPHONE when it is false, and ends in exactly the controller that `request_start`
(client connected, same flags) produces from it; a tick in IDLE with `continuous_` false or a
desired state other than IDLE leaves the current and the desired state unchanged. -/
theorem idle_tick_restart (va : VoiceAssistant) (env : Env) (hst : va.state_ = State.IDLE) :
    (va.continuous_ = true → va.desired_state_ = State.IDLE →
      (va.loop env).state_ =
        (if va.use_wake_word_ = true then State.START_MICROPHONE else State.START_PIPELINE) ∧
      (va.loop env).desired_state_ =
        (if va.use_wake_word_ = true then State.WAIT_FOR_VAD else State.START_MICROPHONE) ∧
      (∀ env2 : Env, env2.is_connected = true →
        va.loop env = va.request_start env2 va.continuous_ va.silence_detection_)) ∧
    (va.continuous_ = false ∨ va.desired_state_ ≠ State.IDLE →
      (va.loop env).state_ = va.state_ ∧
      (va.loop env).desired_state_ = va.desired_state_) := by
  have hw : ¬ va.watchdog_cond env := by simp [VoiceAssistant.watchdog_cond, hst]
  have hloop : va.loop env = va.loop_IDLE := by
    simp only [VoiceAssistant.loop, hw, if_false, hst]
  constructor
  · intro hcont hdes
    have hstart : va.loop env = va.start_ := by
      rw [hloop]
      simp only [VoiceAssistant.loop_IDLE, hcont, hdes, and_self, if_true]
    refine ⟨?_, ?_, ?_⟩
    · rw [hstart]
      simp only [VoiceAssistant.start_]
      split_ifs <;> simp only [set_state_desired_proj]
    · rw [hstart]
      simp only [VoiceAssistant.start_]
      split_ifs <;> simp only [set_state_desired_proj]
    · intro env2 hc2
      rw [hstart]
      simp only [VoiceAssistant.request_start, hc2, Bool.true_eq_false, if_false, hst, if_true]
      rfl
  · intro h
    have hcond : ¬ (va.continuous_ = true ∧ va.desired_state_ = State.IDLE) := by
      rintro ⟨h1, h2⟩
      rcases h with h | h
      · rw [h1] at h; exact absurd h (by decide)
      · exact h h2
    rw [hloop]
    simp only [VoiceAssistant.loop_IDLE, hcond, if_false, emit_proj, and_self]

/-- C17 at a concrete input: idle in continuous mode with the connection down. -/
theorem idle_tick_restart_witness :
    (({ VoiceAssistant.after_setup with continuous_ := true }).loop
      { Env.quiet with is_connected := false }).state_ = State.START_PIPELINE ∧
    (({ VoiceAssistant.after_setup with continuous_ := true }).loop
      { Env.quiet with is_connected := false }).desired_state_ = State.START_MICROPHONE :=
  have h := (idle_tick_restart { VoiceAssistant.after_setup with continuous_ := true }
    { Env.quiet with is_connected := false } rfl).1 rfl rfl
  ⟨h.1, h.2.1⟩

/-! ### `read_microphone_` without data, timeouts, outbound streaming -/

theorem memset_zero_all (buf : List Nat) (n : Nat) (h : buf.length = n) :
    memset_zero buf n = List.replicate n 0 := by
  simp only [memset_zero]
  rw [List.drop_of_length_le (by omega), List.append_nil]

theorem write_at_nil (buf : List Nat) : write_at buf 0 [] = buf := by
  simp [write_at]

/-- C18 as stated fails in its first part: with the microphone not running, `read_microphone_`
returns 0 but leaves the input buffer as it was, here with the bytes 5, 6 at its head, not
zeroed. -/
theorem read_microphone_silence_counterexample :
    (VoiceAssistant.sample_stale_input.read_microphone_
      { Env.quiet with mic_is_running := false }).2 = 0 ∧
    (VoiceAssistant.sample_stale_input.read_microphone_
      { Env.quiet with mic_is_running := false }).1.input_buffer_.take 2 = [5, 6] ∧
    (VoiceAssistant.sample_stale_input.read_microphone_
      { Env.quiet with mic_is_running := false }).1.input_buffer_.take 2 ≠
        (List.replicate (INPUT_BUFFER_SIZE * sizeof_int16_t) 0).take 2 := by
  refine ⟨by decide, by decide, by decide⟩

/-- C18 (amended): whenever the capture source is not running, `read_microphone_` returns 0 and
leaves the controller, the input buffer included, as it was; whenever the source is running but
the read returns 0 bytes, it zeroes the whole input buffer (of INPUT_BUFFER_SIZE samples),
returns 0 and leaves the ring buffer unchanged. -/
theorem read_microphone_silence (va : VoiceAssistant) (env : Env) :
    (env.mic_is_running = false → va.read_microphone_ env = (va, 0)) ∧
    (env.mic_is_running = true → env.mic_read = [] →
      va.input_buffer_.length = INPUT_BUFFER_SIZE * sizeof_int16_t →
        (va.read_microphone_ env).1.input_buffer_ =
          List.replicate (INPUT_BUFFER_SIZE * sizeof_int16_t) 0 ∧
        (va.read_microphone_ env).2 = 0 ∧
        (va.read_microphone_ env).1.ring_buffer_ = va.ring_buffer_) := by
  constructor
  · intro h
    simp only [VoiceAssistant.read_microphone_, h, Bool.false_eq_true, if_false]
  · intro hrun hread hlen
    simp only [VoiceAssistant.read_microphone_, hrun, if_true, hread, List.length_nil,
      write_at_nil, memset_zero_all _ _ hlen, and_self]

/-- C18 (amended) at a concrete input: the microphone runs and delivers nothing. -/
theorem read_microphone_silence_witness :
    (VoiceAssistant.sample_stale_input.read_microphone_
      { Env.quiet with mic_read := [] }).1.input_buffer_ =
        List.replicate (INPUT_BUFFER_SIZE * sizeof_int16_t) 0 ∧
    (VoiceAssistant.sample_stale_input.read_microphone_ { Env.quiet with mic_read := [] }).2 = 0 :=
  have h := (read_microphone_silence VoiceAssistant.sample_stale_input
    { Env.quiet with mic_read := [] }).2 rfl rfl
    (by
      show (5 :: 6 :: List.replicate (INPUT_BUFFER_SIZE * sizeof_int16_t - 2) 0).length = _
      rw [List.length_cons, List.length_cons, List.length_replicate]
      decide)
  ⟨h.1, h.2.1⟩

/-- C19 as stated fails in its second part: with both playback timeouts armed, after the
"speaker-timeout" timeout fires the "playing" timeout is still armed. -/
theorem timer_cancellation_counterexample :
    Timeout.speaker_timeout ∈ VoiceAssistant.sample_both_timeouts.timeouts.map Prod.fst ∧
    Timeout.playing ∈ VoiceAssistant.sample_both_timeouts.timeouts.map Prod.fst ∧
    Timeout.playing ∈
      (VoiceAssistant.sample_both_timeouts.fire_timeout
        Timeout.speaker_timeout).timeouts.map Prod.fst := by
  refine ⟨by decide, by decide, by decide⟩

/-- C19 (amended): with the armed named timeouts as explicit state, the firing of an armed
"playing" timeout cancels "speaker-timeout", so that afterwards neither of the two is armed;
the firing of an armed "speaker-timeout" timeout stops the speaker and removes only itself:
"playing" is armed afterwards exactly if it was armed before. -/
theorem timer_cancellation (va : VoiceAssistant) :
    (Timeout.playing ∈ va.timeouts.map Prod.fst →
      Timeout.speaker_timeout ∉ (va.fire_timeout Timeout.playing).timeouts.map Prod.fst ∧
      Timeout.playing ∉ (va.fire_timeout Timeout.playing).timeouts.map Prod.fst) ∧
    (Timeout.speaker_timeout ∈ va.timeouts.map Prod.fst →
      (va.fire_timeout Timeout.speaker_timeout).trace = va.trace ++ [Effect.speaker_stop] ∧
      (va.fire_timeout Timeout.speaker_timeout).timeouts =
        va.timeouts.filter (fun t => decide (t.1 ≠ Timeout.speaker_timeout)) ∧
      Timeout.speaker_timeout ∉
        (va.fire_timeout Timeout.speaker_timeout).timeouts.map Prod.fst ∧
      (Timeout.playing ∈ (va.fire_timeout Timeout.speaker_timeout).timeouts.map Prod.fst ↔
        Timeout.playing ∈ va.timeouts.map Prod.fst)) := by
  constructor
  · intro h
    have ht : (va.fire_timeout Timeout.playing).timeouts =
        (va.timeouts.filter (fun t => decide (t.1 ≠ Timeout.playing))).filter
          (fun t => decide (t.1 ≠ Timeout.speaker_timeout)) := by
      simp only [VoiceAssistant.fire_timeout, h, if_true, VoiceAssistant.timeout_callback,
        set_state_desired_proj, cancel_timeout_proj]
    rw [ht]
    exact ⟨not_mem_filter_name _ _, not_mem_filter_filter _ _ _⟩
  · intro h
    have ht : (va.fire_timeout Timeout.speaker_timeout).timeouts =
        va.timeouts.filter (fun t => decide (t.1 ≠ Timeout.speaker_timeout)) := by
      simp only [VoiceAssistant.fire_timeout, h, if_true, VoiceAssistant.timeout_callback,
        emit_proj, cancel_timeout_proj]
    refine ⟨?_, ht, ?_, ?_⟩
    · simp only [VoiceAssistant.fire_timeout, h, if_true, VoiceAssistant.timeout_callback,
        emit_proj, cancel_timeout_proj]
    · rw [ht]; exact not_mem_filter_name _ _
    · rw [ht]
      constructor
      · intro hp
        obtain ⟨t, ht1, ht2⟩ := List.mem_map.mp hp
        exact List.mem_map.mpr ⟨t, (List.mem_filter.mp ht1).1, ht2⟩
      · intro hp
        obtain ⟨t, ht1, ht2⟩ := List.mem_map.mp hp
        refine List.mem_map.mpr ⟨t, List.mem_filter.mpr ⟨ht1, ?_⟩, ht2⟩
        rw [ht2]
        decide

/-- C19 (amended) at a concrete input: both playback timeouts armed, "playing" fires. -/
theorem timer_cancellation_witness :
    Timeout.speaker_timeout ∉
      (VoiceAssistant.sample_both_timeouts.fire_timeout Timeout.playing).timeouts.map Prod.fst :=
  ((timer_cancellation VoiceAssistant.sample_both_timeouts).1 (by decide)).1

/-- C20 (outbound streaming step, ring-buffer build): a tick in STREAMING_MICROPHONE with the
connection up reads the microphone and then, if the ring buffer holds at least SEND_BUFFER_SIZE
bytes, sends exactly one datagram, made of the SEND_BUFFER_SIZE oldest bytes of the ring buffer
and addressed to `dest_addr_`, and takes these bytes out of the ring buffer; otherwise it sends
nothing and leaves the ring buffer as the microphone read left it.  In both cases the state
stays STREAMING_MICROPHONE and at most one entry is added to the trace. -/
theorem outbound_streaming_step (va : VoiceAssistant) (env : Env)
    (hst : va.state_ = State.STREAMING_MICROPHONE) (hc : env.is_connected = true)
    (hadf : va.USE_ESP_ADF = true) :
    (SEND_BUFFER_SIZE ≤ rb_bytes_filled (va.read_microphone_ env).1.ring_buffer_ →
      (va.loop env).trace = va.trace ++
        [Effect.sendto ((va.read_microphone_ env).1.ring_buffer_.data.take SEND_BUFFER_SIZE)
          va.dest_addr_] ∧
      ((va.read_microphone_ env).1.ring_buffer_.data.take SEND_BUFFER_SIZE).length =
        SEND_BUFFER_SIZE ∧
      (va.loop env).ring_buffer_.data =
        (va.read_microphone_ env).1.ring_buffer_.data.drop SEND_BUFFER_SIZE ∧
      rb_bytes_filled (va.loop env).ring_buffer_ =
        rb_bytes_filled (va.read_microphone_ env).1.ring_buffer_ - SEND_BUFFER_SIZE) ∧
    (rb_bytes_filled (va.read_microphone_ env).1.ring_buffer_ < SEND_BUFFER_SIZE →
      (va.loop env).trace = va.trace ∧
      (va.loop env).ring_buffer_ = (va.read_microphone_ env).1.ring_buffer_) ∧
    (va.loop env).state_ = State.STREAMING_MICROPHONE ∧
    (∃ new : List Effect, (va.loop env).trace = va.trace ++ new ∧ new.length ≤ 1) := by
  have hw : ¬ va.watchdog_cond env := by simp [VoiceAssistant.watchdog_cond, hc]
  have hloop : va.loop env = va.loop_STREAMING_MICROPHONE env := by
    simp only [VoiceAssistant.loop, hw, if_false, hst]
  have hsend : SEND_BUFFER_SIZE ≤ rb_bytes_filled (va.read_microphone_ env).1.ring_buffer_ →
      (va.loop env).trace = va.trace ++
        [Effect.sendto ((va.read_microphone_ env).1.ring_buffer_.data.take SEND_BUFFER_SIZE)
          va.dest_addr_] ∧
      ((va.read_microphone_ env).1.ring_buffer_.data.take SEND_BUFFER_SIZE).length =
        SEND_BUFFER_SIZE ∧
      (va.loop env).ring_buffer_.data =
        (va.read_microphone_ env).1.ring_buffer_.data.drop SEND_BUFFER_SIZE ∧
      rb_bytes_filled (va.loop env).ring_buffer_ =
        rb_bytes_filled (va.read_microphone_ env).1.ring_buffer_ - SEND_BUFFER_SIZE := by
    intro hge
    have hl : ((va.read_microphone_ env).1.ring_buffer_.data.take SEND_BUFFER_SIZE).length =
        SEND_BUFFER_SIZE := by
      rw [List.length_take]
      exact Nat.min_eq_left hge
    have htake := write_at_zero_take va.send_buffer_
      ((va.read_microphone_ env).1.ring_buffer_.data.take SEND_BUFFER_SIZE)
    rw [hl] at htake
    have hring : (va.loop env).ring_buffer_.data =
        (va.read_microphone_ env).1.ring_buffer_.data.drop SEND_BUFFER_SIZE := by
      rw [hloop]
      simp only [VoiceAssistant.loop_STREAMING_MICROPHONE, hadf, if_true, ge_iff_le, hge,
        emit_proj, rb_read]
    refine ⟨?_, hl, hring, ?_⟩
    · rw [hloop]
      simp only [VoiceAssistant.loop_STREAMING_MICROPHONE, hadf, if_true, ge_iff_le, hge,
        emit_proj, rb_read, htake, read_microphone_proj]
    · simp only [rb_bytes_filled, hring, List.length_drop]
  have hidle : rb_bytes_filled (va.read_microphone_ env).1.ring_buffer_ < SEND_BUFFER_SIZE →
      (va.loop env).trace = va.trace ∧
      (va.loop env).ring_buffer_ = (va.read_microphone_ env).1.ring_buffer_ := by
    intro hlt
    have hnot : ¬ SEND_BUFFER_SIZE ≤ rb_bytes_filled (va.read_microphone_ env).1.ring_buffer_ :=
      by omega
    rw [hloop]
    simp only [VoiceAssistant.loop_STREAMING_MICROPHONE, hadf, if_true, ge_iff_le, hnot,
      if_false, read_microphone_proj, and_self]
  refine ⟨hsend, hidle, ?_, ?_⟩
  · rw [hloop]
    simp only [VoiceAssistant.loop_STREAMING_MICROPHONE, hadf, if_true]
    split_ifs <;> simp only [emit_proj, read_microphone_proj, hst]
  · by_cases hge : SEND_BUFFER_SIZE ≤ rb_bytes_filled (va.read_microphone_ env).1.ring_buffer_
    · exact ⟨_, (hsend hge).1, by simp⟩
    · exact ⟨[], by rw [(hidle (by omega)).1, List.append_nil], by simp⟩

theorem rb_write_filled_ge (r : ringbuf) (buf : List Nat) :
    rb_bytes_filled r ≤ rb_bytes_filled (rb_write r buf) := by
  simp only [rb_bytes_filled, rb_write, List.length_append]
  exact Nat.le_add_right _ _

/-- The ring buffer of the sample controller after one quiet read holds at least one send
buffer. -/
theorem sample_full_ring_filled :
    SEND_BUFFER_SIZE ≤
      rb_bytes_filled
        (VoiceAssistant.sample_full_ring.read_microphone_ Env.quiet).1.ring_buffer_ := by
  have hsize : VoiceAssistant.sample_full_ring.ring_buffer_.size =
      BUFFER_SIZE * sizeof_int16_t := rfl
  have hdata : VoiceAssistant.sample_full_ring.ring_buffer_.data =
      List.replicate SEND_BUFFER_SIZE 7 := rfl
  have hlen : VoiceAssistant.sample_full_ring.ring_buffer_.data.length = SEND_BUFFER_SIZE := by
    rw [hdata]; exact List.length_replicate _ _
  have hav : ¬ rb_bytes_available VoiceAssistant.sample_full_ring.ring_buffer_ <
      Env.quiet.mic_read.length := by
    unfold rb_bytes_available
    rw [hsize, hlen]
    decide
  rw [read_microphone_ring _ _ rfl rfl (by decide), if_neg hav]
  refine le_trans ?_ (rb_write_filled_ge _ _)
  unfold rb_bytes_filled
  rw [hlen]

/-- C20 at a concrete input: the ring buffer holds one send buffer of bytes 7 and the
microphone adds two bytes; one datagram leaves and two bytes stay. -/
theorem outbound_streaming_step_witness :
    (VoiceAssistant.sample_full_ring.loop Env.quiet).trace =
      VoiceAssistant.sample_full_ring.trace ++
        [Effect.sendto
          ((VoiceAssistant.sample_full_ring.read_microphone_
            Env.quiet).1.ring_buffer_.data.take SEND_BUFFER_SIZE)
          VoiceAssistant.sample_full_ring.dest_addr_] ∧
    rb_bytes_filled (VoiceAssistant.sample_full_ring.loop Env.quiet).ring_buffer_ =
      rb_bytes_filled (VoiceAssistant.sample_full_ring.read_microphone_
        Env.quiet).1.ring_buffer_ - SEND_BUFFER_SIZE ∧
    (VoiceAssistant.sample_full_ring.loop Env.quiet).state_ = State.STREAMING_MICROPHONE :=
  have h := outbound_streaming_step VoiceAssistant.sample_full_ring Env.quiet rfl rfl rfl
  ⟨(h.1 sample_full_ring_filled).1, (h.1 sample_full_ring_filled).2.2.2, h.2.2.1⟩

/-! ### Transitional states and the frame of the watchdog -/

/-- C21 (transitional states): a tick in STARTING_MICROPHONE with the connection up sets the
state to the desired state if the microphone reports running and leaves it unchanged otherwise;
a tick in STOP_MICROPHONE stops the microphone and sets the state to STOPPING_MICROPHONE if the
microphone is running, and sets the state to the desired state, stopping nothing, otherwise; a
tick in STOPPING_MICROPHONE sets the state to the desired state if the microphone reports
stopped and leaves it unchanged otherwise; none of these ticks changes the desired state. -/
theorem transitional_states (va : VoiceAssistant) (env : Env) :
    (va.state_ = State.STARTING_MICROPHONE → env.is_connected = true →
      (va.loop env).state_ =
        (if env.mic_is_running = true then va.desired_state_ else va.state_) ∧
      (va.loop env).desired_state_ = va.desired_state_ ∧
      (va.loop env).trace = va.trace) ∧
    (va.state_ = State.STOP_MICROPHONE →
      (va.loop env).state_ =
        (if env.mic_is_running = true then State.STOPPING_MICROPHONE
          else va.desired_state_) ∧
      (va.loop env).trace =
        (if env.mic_is_running = true then va.trace ++ [Effect.mic_stop] else va.trace) ∧
      (va.loop env).desired_state_ = va.desired_state_) ∧
    (va.state_ = State.STOPPING_MICROPHONE →
      (va.loop env).state_ =
        (if env.mic_is_stopped = true then va.desired_state_ else va.state_) ∧
      (va.loop env).desired_state_ = va.desired_state_ ∧
      (va.loop env).trace = va.trace) := by
  refine ⟨?_, ?_, ?_⟩
  · intro hst hc
    have hw : ¬ va.watchdog_cond env := by simp [VoiceAssistant.watchdog_cond, hc]
    simp only [VoiceAssistant.loop, hw, if_false, hst,
      VoiceAssistant.loop_STARTING_MICROPHONE]
    split_ifs <;> simp only [set_state_proj, hst, and_self]
  · intro hst
    have hw : ¬ va.watchdog_cond env := by simp [VoiceAssistant.watchdog_cond, hst]
    simp only [VoiceAssistant.loop, hw, if_false, hst, VoiceAssistant.loop_STOP_MICROPHONE]
    split_ifs <;> simp only [set_state_proj, emit_proj, and_self]
  · intro hst
    have hw : ¬ va.watchdog_cond env := by simp [VoiceAssistant.watchdog_cond, hst]
    simp only [VoiceAssistant.loop, hw, if_false, hst,
      VoiceAssistant.loop_STOPPING_MICROPHONE]
    split_ifs <;> simp only [set_state_proj, hst, and_self]

/-- C21 at a concrete input: STOP_MICROPHONE with the microphone still running. -/
theorem transitional_states_witness :
    (VoiceAssistant.sample_stop_microphone.loop Env.quiet).state_ =
      State.STOPPING_MICROPHONE ∧
    (VoiceAssistant.sample_stop_microphone.loop Env.quiet).trace = [Effect.mic_stop] ∧
    (VoiceAssistant.sample_stop_microphone.loop Env.quiet).desired_state_ =
      State.AWAITING_RESPONSE :=
  (transitional_states VoiceAssistant.sample_stop_microphone Env.quiet).2.1 rfl

/-- C23 as stated fails in its last part: a disconnect during STREAMING_RESPONSE with
`wait_for_stream_end_` set, taken while the microphone reports running, leaves the controller in
STOP_MICROPHONE, not in IDLE. -/
theorem watchdog_frame_counterexample :
    VoiceAssistant.sample_streaming_pending.state_ = State.STREAMING_RESPONSE ∧
    VoiceAssistant.sample_streaming_pending.wait_for_stream_end_ = true ∧
    VoiceAssistant.sample_streaming_pending.watchdog_cond
      { Env.quiet with is_connected := false } ∧
    (VoiceAssistant.sample_streaming_pending.loop
      { Env.quiet with is_connected := false }).state_ = State.STOP_MICROPHONE ∧
    (VoiceAssistant.sample_streaming_pending.loop
      { Env.quiet with is_connected := false }).state_ ≠ State.IDLE := by
  refine ⟨rfl, rfl, by decide, by decide, by decide⟩

/-- C23 (amended; frame of the watchdog): a tick that takes the disconnected-watchdog branch
changes only the current state, the desired state, `continuous_` and the destination address
(and adds the stop signal to the trace); `wait_for_stream_end_`, the speaker buffer with its
size and index, `vad_counter_` and the armed timeouts are exactly as before.  So a disconnect
during STREAMING_RESPONSE or RESPONSE_FINISHED with `wait_for_stream_end_` set leaves the flag
set and the speaker cursors as they were, with the controller in IDLE when the microphone is not
running and in STOP_MICROPHONE with desired state IDLE when it is. -/
theorem watchdog_frame (va : VoiceAssistant) (env : Env) (hw : va.watchdog_cond env) :
    va.loop env =
      { va with
        state_ := (va.loop env).state_
        desired_state_ := (va.loop env).desired_state_
        continuous_ := (va.loop env).continuous_
        dest_addr_ := (va.loop env).dest_addr_
        trace := va.trace ++ [Effect.stop_voice_assistant] } ∧
    (va.loop env).wait_for_stream_end_ = va.wait_for_stream_end_ ∧
    (va.loop env).speaker_buffer_size_ = va.speaker_buffer_size_ ∧
    (va.loop env).speaker_buffer_index_ = va.speaker_buffer_index_ ∧
    (va.loop env).speaker_buffer_ = va.speaker_buffer_ ∧
    (va.loop env).vad_counter_ = va.vad_counter_ ∧
    (va.loop env).timeouts = va.timeouts ∧
    (va.state_ = State.STREAMING_RESPONSE ∨ va.state_ = State.RESPONSE_FINISHED →
      va.wait_for_stream_end_ = true →
        (va.loop env).wait_for_stream_end_ = true ∧
        (va.loop env).desired_state_ = State.IDLE ∧
        (va.loop env).state_ =
          (if env.mic_is_running = true then State.STOP_MICROPHONE else State.IDLE)) := by
  have hloop : va.loop env = va.watchdog env := by
    simp only [VoiceAssistant.loop, hw, if_true]
  have hflag : (va.loop env).wait_for_stream_end_ = va.wait_for_stream_end_ := by
    rw [hloop]
    simp only [VoiceAssistant.watchdog]
    split_ifs <;> simp only [signal_stop_proj, set_state_desired_proj]
  refine ⟨?_, hflag, ?_, ?_, ?_, ?_, ?_, ?_⟩
  · rw [hloop]
    simp only [VoiceAssistant.watchdog]
    split_ifs <;>
      simp only [VoiceAssistant.signal_stop_, VoiceAssistant.emit,
        VoiceAssistant.set_state_desired_, VoiceAssistant.set_state_]
  · rw [hloop]
    simp only [VoiceAssistant.watchdog]
    split_ifs <;> simp only [signal_stop_proj, set_state_desired_proj]
  · rw [hloop]
    simp only [VoiceAssistant.watchdog]
    split_ifs <;> simp only [signal_stop_proj, set_state_desired_proj]
  · rw [hloop]
    simp only [VoiceAssistant.watchdog]
    split_ifs <;> simp only [signal_stop_proj, set_state_desired_proj]
  · rw [hloop]
    simp only [VoiceAssistant.watchdog]
    split_ifs <;> simp only [signal_stop_proj, set_state_desired_proj]
  · rw [hloop]
    simp only [VoiceAssistant.watchdog]
    split_ifs <;> simp only [signal_stop_proj, set_state_desired_proj]
  · intro hst hf
    refine ⟨by rw [hflag, hf], ?_, ?_⟩
    · rw [hloop]
      simp only [VoiceAssistant.watchdog]
      split_ifs <;> simp only [signal_stop_proj, set_state_desired_proj]
    · have hns : va.state_ ≠ State.STARTING_MICROPHONE := by
        rcases hst with h | h <;> rw [h] <;> decide
      rw [hloop]
      simp only [VoiceAssistant.watchdog, hns, or_false]
      split_ifs <;> simp only [signal_stop_proj, set_state_desired_proj]

/-- C23 (amended) at a concrete input: the connection drops during STREAMING_RESPONSE with the
stream end awaited, three bytes pending and the microphone stopped. -/
theorem watchdog_frame_witness :
    (VoiceAssistant.sample_streaming_pending.loop
      { Env.quiet with is_connected := false, mic_is_running := false }).state_ = State.IDLE ∧
    (VoiceAssistant.sample_streaming_pending.loop
      { Env.quiet with is_connected := false, mic_is_running := false }).wait_for_stream_end_ =
        true ∧
    (VoiceAssistant.sample_streaming_pending.loop
      { Env.quiet with is_connected := false, mic_is_running := false }).speaker_buffer_size_ =
        3 ∧
    (VoiceAssistant.sample_streaming_pending.loop
      { Env.quiet with is_connected := false, mic_is_running := false }).timeouts =
        [(Timeout.speaker_timeout, 2000)] :=
  have h := watchdog_frame VoiceAssistant.sample_streaming_pending
    { Env.quiet with is_connected := false, mic_is_running := false } (by decide)
  ⟨(h.2.2.2.2.2.2.2 (Or.inl rfl) rfl).2.2, (h.2.2.2.2.2.2.2 (Or.inl rfl) rfl).1, h.2.2.1,
    h.2.2.2.2.2.2.1⟩

/-! ### The invariant of IDLE -/

/-- The start transition never ends in IDLE. -/
theorem start_not_idle (va : VoiceAssistant) : va.start_.state_ ≠ State.IDLE := by
  simp only [VoiceAssistant.start_]
  split_ifs <;> simp only [set_state_desired_proj] <;> decide

/-- Every tick preserves the invariant of IDLE. -/
theorem loop_idle_inv (va : VoiceAssistant) (env : Env) (h : va.idle_inv) :
    (va.loop env).idle_inv := by
  unfold VoiceAssistant.idle_inv at h ⊢
  unfold VoiceAssistant.loop
  split_ifs with hw
  · simp only [VoiceAssistant.watchdog]
    split_ifs <;>
      simp only [reduceCtorEq, false_implies, implies_true, imp_self, emit_proj, set_state_proj,
          set_state_desired_proj, signal_stop_proj, set_timeout_proj, cancel_timeout_proj,
          read_microphone_proj, speaker_receive_proj, speaker_play_proj, loop_playing_proj]
  · split
    · simp only [VoiceAssistant.loop_IDLE]
      split_ifs
      · intro hx; exact absurd hx (start_not_idle va)
      · simp only [emit_proj]; exact h
    · simp only [VoiceAssistant.loop_START_MICROPHONE]
      (try simp only [reduceCtorEq, false_implies, implies_true, imp_self, emit_proj,
               set_state_proj, set_state_desired_proj, signal_stop_proj, set_timeout_proj,
               cancel_timeout_proj, read_microphone_proj, speaker_receive_proj, speaker_play_proj,
               loop_playing_proj])
    · simp only [VoiceAssistant.loop_STARTING_MICROPHONE]
      split_ifs <;>
        (try simp only [reduceCtorEq, false_implies, implies_true, imp_self, emit_proj,
                 set_state_proj, set_state_desired_proj, signal_stop_proj, set_timeout_proj,
                 cancel_timeout_proj, read_microphone_proj, speaker_receive_proj,
                 speaker_play_proj, loop_playing_proj])
      all_goals exact h
    · simp only [VoiceAssistant.loop_WAIT_FOR_VAD]
      (try simp only [reduceCtorEq, false_implies, implies_true, imp_self, emit_proj,
               set_state_proj, set_state_desired_proj, signal_stop_proj, set_timeout_proj,
               cancel_timeout_proj, read_microphone_proj, speaker_receive_proj, speaker_play_proj,
               loop_playing_proj])
    · simp only [VoiceAssistant.loop_WAITING_FOR_VAD]
      split_ifs <;>
        (try simp only [reduceCtorEq, false_implies, implies_true, imp_self, emit_proj,
                 set_state_proj, set_state_desired_proj, signal_stop_proj, set_timeout_proj,
                 cancel_timeout_proj, read_microphone_proj, speaker_receive_proj,
                 speaker_play_proj, loop_playing_proj])
      all_goals exact h
    · simp only [VoiceAssistant.loop_START_PIPELINE]
      split_ifs <;>
        (try simp only [reduceCtorEq, false_implies, implies_true, imp_self, emit_proj,
                 set_state_proj, set_state_desired_proj, signal_stop_proj, set_timeout_proj,
                 cancel_timeout_proj, read_microphone_proj, speaker_receive_proj,
                 speaker_play_proj, loop_playing_proj])
    · simp only [VoiceAssistant.loop_STARTING_PIPELINE]
      (try simp only [reduceCtorEq, false_implies, implies_true, imp_self, emit_proj,
               set_state_proj, set_state_desired_proj, signal_stop_proj, set_timeout_proj,
               cancel_timeout_proj, read_microphone_proj, speaker_receive_proj, speaker_play_proj,
               loop_playing_proj])
      all_goals exact h
    · simp only [VoiceAssistant.loop_STREAMING_MICROPHONE]
      split_ifs <;>
        (try simp only [reduceCtorEq, false_implies, implies_true, imp_self, emit_proj,
                 set_state_proj, set_state_desired_proj, signal_stop_proj, set_timeout_proj,
                 cancel_timeout_proj, read_microphone_proj, speaker_receive_proj,
                 speaker_play_proj, loop_playing_proj])
      all_goals exact h
    · simp only [VoiceAssistant.loop_STOP_MICROPHONE]
      split_ifs <;>
        (try simp only [reduceCtorEq, false_implies, implies_true, imp_self, emit_proj,
                 set_state_proj, set_state_desired_proj, signal_stop_proj, set_timeout_proj,
                 cancel_timeout_proj, read_microphone_proj, speaker_receive_proj,
                 speaker_play_proj, loop_playing_proj])
    · simp only [VoiceAssistant.loop_STOPPING_MICROPHONE]
      split_ifs <;>
        (try simp only [reduceCtorEq, false_implies, implies_true, imp_self, emit_proj,
                 set_state_proj, set_state_desired_proj, signal_stop_proj, set_timeout_proj,
                 cancel_timeout_proj, read_microphone_proj, speaker_receive_proj,
                 speaker_play_proj, loop_playing_proj])
      all_goals exact h
    · exact h
    · simp only [VoiceAssistant.loop_STREAMING_RESPONSE]
      split_ifs <;>
        (try simp only [reduceCtorEq, false_implies, implies_true, imp_self, emit_proj,
                 set_state_proj, set_state_desired_proj, signal_stop_proj, set_timeout_proj,
                 cancel_timeout_proj, read_microphone_proj, speaker_receive_proj,
                 speaker_play_proj, loop_playing_proj])
      all_goals exact h
    · simp only [VoiceAssistant.loop_RESPONSE_FINISHED]
      split_ifs <;>
        (try simp only [reduceCtorEq, false_implies, implies_true, imp_self, emit_proj,
                 set_state_proj, set_state_desired_proj, signal_stop_proj, set_timeout_proj,
                 cancel_timeout_proj, read_microphone_proj, speaker_receive_proj,
                 speaker_play_proj, loop_playing_proj])

/-- Every call into the controller preserves the invariant of IDLE. -/
theorem call_idle_inv (va : VoiceAssistant) (c : Call) (h : va.idle_inv) :
    (va.call c).idle_inv := by
  cases c with
  | loop env => exact loop_idle_inv va env h
  | request_start env continuous silence_detection =>
    unfold VoiceAssistant.idle_inv at h ⊢
    simp only [VoiceAssistant.call, VoiceAssistant.request_start]
    split_ifs
    · simp only [set_state_desired_proj, implies_true]
    · intro hx; exact absurd hx (start_not_idle _)
    · exact h
  | request_stop =>
    unfold VoiceAssistant.idle_inv at h ⊢
    simp only [VoiceAssistant.call, VoiceAssistant.request_stop]
    split <;>
      (try simp only [reduceCtorEq, false_implies, implies_true, imp_self, emit_proj,
               set_state_proj, set_state_desired_proj, signal_stop_proj, set_timeout_proj,
               cancel_timeout_proj, read_microphone_proj, speaker_receive_proj, speaker_play_proj,
               loop_playing_proj])
    all_goals exact h
  | start_streaming env addr port =>
    unfold VoiceAssistant.idle_inv at h ⊢
    simp only [VoiceAssistant.call, VoiceAssistant.start_streaming]
    split_ifs <;>
      (try simp only [reduceCtorEq, false_implies, implies_true, imp_self, emit_proj,
               set_state_proj, set_state_desired_proj, signal_stop_proj, set_timeout_proj,
               cancel_timeout_proj, read_microphone_proj, speaker_receive_proj, speaker_play_proj,
               loop_playing_proj])
    all_goals exact h
  | failed_to_start =>
    unfold VoiceAssistant.idle_inv
    simp only [VoiceAssistant.call, VoiceAssistant.failed_to_start, set_state_desired_proj,
      reduceCtorEq, false_implies]
  | on_event msg =>
    unfold VoiceAssistant.idle_inv at h ⊢
    simp only [VoiceAssistant.call, VoiceAssistant.on_event]
    split <;> (try split_ifs) <;>
      (try simp only [reduceCtorEq, false_implies, implies_true, imp_self, emit_proj,
               set_state_proj, set_state_desired_proj, signal_stop_proj, set_timeout_proj,
               cancel_timeout_proj, read_microphone_proj, speaker_receive_proj, speaker_play_proj,
               loop_playing_proj])
    all_goals exact h
  | fire_timeout name =>
    unfold VoiceAssistant.idle_inv at h ⊢
    simp only [VoiceAssistant.call, VoiceAssistant.fire_timeout]
    split_ifs
    · cases name <;>
        (try simp only [VoiceAssistant.timeout_callback, reduceCtorEq, false_implies,
                 implies_true, imp_self, emit_proj, set_state_proj, set_state_desired_proj,
                 signal_stop_proj, set_timeout_proj, cancel_timeout_proj, read_microphone_proj,
                 speaker_receive_proj, speaker_play_proj, loop_playing_proj])
      all_goals exact h
    · exact h

/-- Every sequence of calls preserves the invariant of IDLE. -/
theorem calls_idle_inv (cs : List Call) :
    ∀ va : VoiceAssistant, va.idle_inv → (va.calls cs).idle_inv := by
  induction cs with
  | nil => intro va h; exact h
  | cons c cs ih => intro va h; exact ih (va.call c) (call_idle_inv va c h)


/-- C22 (invariant of IDLE): from a controller with desired state IDLE, in particular from the
initial one with state IDLE and desired state IDLE, after every sequence of calls (ticks with
arbitrary answers of the collaborators, request_start, request_stop, start_streaming,
failed_to_start, on_event, timeout firings), if the current state is IDLE then the desired state
is IDLE; hence in such a controller that is in IDLE with `continuous_` set, the tick takes the
start transition and leaves IDLE. -/
theorem idle_implies_desired_idle (va : VoiceAssistant) (cs : List Call)
    (hdes : va.desired_state_ = State.IDLE) :
    ((va.calls cs).state_ = State.IDLE → (va.calls cs).desired_state_ = State.IDLE) ∧
    (∀ env : Env, (va.calls cs).state_ = State.IDLE → (va.calls cs).continuous_ = true →
      (va.calls cs).loop env = (va.calls cs).start_ ∧
      ((va.calls cs).loop env).state_ ≠ State.IDLE) := by
  have hinv : (va.calls cs).idle_inv := calls_idle_inv cs va (fun _ => hdes)
  refine ⟨hinv, ?_⟩
  intro env hs hcont
  have hd := hinv hs
  have hw : ¬ (va.calls cs).watchdog_cond env := by
    simp [VoiceAssistant.watchdog_cond, hs]
  have hloop : (va.calls cs).loop env = (va.calls cs).start_ := by
    simp only [VoiceAssistant.loop, hw, if_false, hs, VoiceAssistant.loop_IDLE, hcont, hd,
      and_self, if_true]
  exact ⟨hloop, by rw [hloop]; exact start_not_idle _⟩

/-- C22 at a concrete input: start request, stop request, then the tick that finds the
microphone stopped and copies the desired state into the state. -/
theorem idle_implies_desired_idle_witness :
    VoiceAssistant.after_setup.state_ = State.IDLE ∧
    (VoiceAssistant.after_setup.calls Call.sample_session).state_ = State.IDLE ∧
    (VoiceAssistant.after_setup.calls Call.sample_session).desired_state_ = State.IDLE :=
  ⟨rfl, by decide,
    (idle_implies_desired_idle VoiceAssistant.after_setup Call.sample_session rfl).1
      (by decide)⟩

end voice_assistant
end esphome
